import Mathlib

/-! # maxprocmon: the event callback, the suppression filter and the process-tree tracker

A shallow embedding of `src/maxprocmond/EndpointSecurity.cpp` and of the parts of
`src/maxprocmond/esmain.cpp` that feed it and consume its records (`supportedEvents`,
`event_callback`, `help`, the `-e` option of `es_main`).

* `std::map<K,V>` is an association list kept in ascending key order
  (`mapFind`, `mapAssign`, `mapErase`, `mapAt`, `mapTouch`).
* `std::string` is `String`; one `Char` stands for one `char`.
* The mutable `EndpointSecurityImpl` object is passed explicitly; a C++ exception is an
  `error : Option String` next to the state reached when it was thrown.
* Calls into the event source (`es_mute_process`, `es_respond_*`) and into the reporting
  callback are recorded, in order, in an effect trace.
* What lives outside the repository (`getpid`, `strftime`, the flag tables of `flags.h`,
  the return codes of the respond calls) is a field of `Env`.
* The calls of `event_callback` on the prepared statement are recorded in order, the text it
  writes to `std::cout` is a string; `exit( 1 )` in `es_main` is `none`.
-/

namespace MaxProcMon

/-! ## `std::map` -/

/-- The lookup `m.find(k)`: the mapped value, or `none` for `m.end()`. -/
def mapFind {α β : Type} [DecidableEq α] : List (α × β) → α → Option β
  | [], _ => none
  | (k', v') :: t, k => if k' = k then some v' else mapFind t k

/-- The assignment `m[k] = v`: overwrites the entry of `k`, or inserts it at its place in the
key order `lt`. -/
def mapAssign {α β : Type} [DecidableEq α] (lt : α → α → Bool) :
    List (α × β) → α → β → List (α × β)
  | [], k, v => [(k, v)]
  | (k', v') :: t, k, v =>
    if k' = k then (k, v) :: t
    else if lt k k' then (k, v) :: (k', v') :: t
    else (k', v') :: mapAssign lt t k v

/-- The removal `m.erase(m.find(k))` of the entry of `k`, when there is one. -/
def mapErase {α β : Type} [DecidableEq α] : List (α × β) → α → List (α × β)
  | [], _ => []
  | (k', v') :: t, k => if k' = k then t else (k', v') :: mapErase t k

/-- The value read by `m[k]`: the mapped value, or a value-initialised one when `k` is missing. -/
def mapAt {α β : Type} [DecidableEq α] [Inhabited β] (m : List (α × β)) (k : α) : β :=
  (mapFind m k).getD default

/-- The map after a read `m[k]`: `operator[]` inserts a value-initialised entry when `k` is missing. -/
def mapTouch {α β : Type} [DecidableEq α] [Inhabited β] (lt : α → α → Bool)
    (m : List (α × β)) (k : α) : List (α × β) :=
  match mapFind m k with
  | some _ => m
  | none => mapAssign lt m k default

/-- The representation invariant of a `std::map`: the keys are strictly ascending. -/
def mapOk {α β : Type} (lt : α → α → Bool) (m : List (α × β)) : Prop :=
  (m.map Prod.fst).Pairwise (fun a b => lt a b = true)

/-- The key order of `std::map<pid_t, int>`. -/
def pidLt (a b : Int) : Bool := decide (a < b)

/-- The comparison of two `std::string` values, character by character. -/
def charsLt : List Char → List Char → Bool
  | _, [] => false
  | [], _ :: _ => true
  | a :: as, b :: bs =>
    if a.toNat < b.toNat then true else if a = b then charsLt as bs else false

/-- The key order of `std::map<std::string, std::string>`. -/
def strLt (a b : String) : Bool := charsLt a.data b.data

/-! ## `std::string`, `std::to_string`, `std::stoi` -/

/-- The string `s.substr(0, n)`. -/
def substr0 (s : String) (n : Nat) : String := ⟨s.data.take n⟩

/-- The string built from a `const char *`: the characters before the first NUL. -/
def c_str (s : String) : String := ⟨s.data.takeWhile (fun c => c ≠ Char.ofNat 0)⟩

/-- The character of a decimal digit. -/
def digitChar (d : Nat) : Char := Char.ofNat (48 + d)

/-- The decimal digits of `n`, most significant first; `fuel` bounds the number of digits. -/
def decimalDigits : Nat → Nat → List Char
  | 0, _ => []
  | fuel + 1, n =>
    if n < 10 then [digitChar n] else decimalDigits fuel (n / 10) ++ [digitChar (n % 10)]

/-- The function `std::to_string` on an unsigned value. -/
def to_string_u (n : Nat) : String := ⟨decimalDigits (n + 1) n⟩

/-- The function `std::to_string` on a signed value. -/
def to_string (i : Int) : String :=
  if i < 0 then ⟨'-' :: decimalDigits (i.natAbs + 1) i.natAbs⟩ else to_string_u i.natAbs

/-- The C `isspace` in the "C" locale. -/
def isspace (c : Char) : Bool :=
  c = ' ' || c = '\t' || c = '\n' || c = Char.ofNat 11 || c = Char.ofNat 12 || c = '\r'

/-- The C `isdigit`. -/
def isdigit (c : Char) : Bool := 48 ≤ c.toNat && c.toNat ≤ 57

/-- The value of a run of decimal digits. -/
def digitsValue (cs : List Char) : Nat := cs.foldl (fun acc c => 10 * acc + (c.toNat - 48)) 0

/-- The function `std::stoi(s)`: skips white space, reads an optional sign and the longest run of
decimal digits; `none` stands for `std::invalid_argument` (no digit) and `std::out_of_range`
(the value does not fit an `int`). -/
def stoi (s : String) : Option Int :=
  let cs := s.data.dropWhile isspace
  let signed : Bool × List Char :=
    match cs with
    | [] => (false, [])
    | c :: t => if c = '-' then (true, t) else if c = '+' then (false, t) else (false, c :: t)
  let ds := signed.2.takeWhile isdigit
  if ds = [] then none
  else
    let v : Int := if signed.1 then -(digitsValue ds : Int) else (digitsValue ds : Int)
    if -2147483648 ≤ v ∧ v < 2147483648 then some v else none

/-- The conversion of a 32-bit word to `int` (`pid_t`, `int32_t`). -/
def toInt32 (n : Nat) : Int :=
  if n % 4294967296 < 2147483648 then (n % 4294967296 : Nat) else (n % 4294967296 : Nat) - 4294967296

/-- The conversion of an `int` to `unsigned int`. -/
def toUInt32 (i : Int) : Nat := (i % 4294967296).toNat

/-! ## The types of the event source (EndpointSecurity framework, `bsm/libbsm.h`) -/

/-- The action type of a message. -/
inductive es_action_type_t
  | ES_ACTION_TYPE_AUTH
  | ES_ACTION_TYPE_NOTIFY
  deriving DecidableEq

/-- The decision passed to `es_respond_auth_result`. -/
inductive es_auth_result_t
  | ES_AUTH_RESULT_ALLOW
  | ES_AUTH_RESULT_DENY
  deriving DecidableEq

/-- The event types: the enumerators named by the dispatch switch of `on_event`, the placeholder
`ES_EVENT_TYPE_LAST`, and `OTHER raw` for every enumerator the code does not name. -/
inductive es_event_type_t
  | ES_EVENT_TYPE_NOTIFY_ACCESS
  | ES_EVENT_TYPE_AUTH_CHDIR
  | ES_EVENT_TYPE_NOTIFY_CHDIR
  | ES_EVENT_TYPE_AUTH_CHROOT
  | ES_EVENT_TYPE_NOTIFY_CHROOT
  | ES_EVENT_TYPE_AUTH_CLONE
  | ES_EVENT_TYPE_NOTIFY_CLONE
  | ES_EVENT_TYPE_NOTIFY_CLOSE
  | ES_EVENT_TYPE_AUTH_CREATE
  | ES_EVENT_TYPE_NOTIFY_CREATE
  | ES_EVENT_TYPE_AUTH_DELETEEXTATTR
  | ES_EVENT_TYPE_NOTIFY_DELETEEXTATTR
  | ES_EVENT_TYPE_NOTIFY_DUP
  | ES_EVENT_TYPE_AUTH_EXCHANGEDATA
  | ES_EVENT_TYPE_NOTIFY_EXCHANGEDATA
  | ES_EVENT_TYPE_AUTH_EXEC
  | ES_EVENT_TYPE_NOTIFY_EXEC
  | ES_EVENT_TYPE_NOTIFY_EXIT
  | ES_EVENT_TYPE_AUTH_FCNTL
  | ES_EVENT_TYPE_NOTIFY_FCNTL
  | ES_EVENT_TYPE_AUTH_FILE_PROVIDER_MATERIALIZE
  | ES_EVENT_TYPE_NOTIFY_FILE_PROVIDER_MATERIALIZE
  | ES_EVENT_TYPE_AUTH_FILE_PROVIDER_UPDATE
  | ES_EVENT_TYPE_NOTIFY_FILE_PROVIDER_UPDATE
  | ES_EVENT_TYPE_NOTIFY_FORK
  | ES_EVENT_TYPE_AUTH_FSGETPATH
  | ES_EVENT_TYPE_NOTIFY_FSGETPATH
  | ES_EVENT_TYPE_AUTH_GETATTRLIST
  | ES_EVENT_TYPE_NOTIFY_GETATTRLIST
  | ES_EVENT_TYPE_AUTH_GETEXTATTR
  | ES_EVENT_TYPE_NOTIFY_GETEXTATTR
  | ES_EVENT_TYPE_AUTH_GET_TASK
  | ES_EVENT_TYPE_NOTIFY_GET_TASK
  | ES_EVENT_TYPE_AUTH_IOKIT_OPEN
  | ES_EVENT_TYPE_NOTIFY_IOKIT_OPEN
  | ES_EVENT_TYPE_AUTH_KEXTLOAD
  | ES_EVENT_TYPE_NOTIFY_KEXTLOAD
  | ES_EVENT_TYPE_NOTIFY_KEXTUNLOAD
  | ES_EVENT_TYPE_AUTH_LINK
  | ES_EVENT_TYPE_NOTIFY_LINK
  | ES_EVENT_TYPE_AUTH_LISTEXTATTR
  | ES_EVENT_TYPE_NOTIFY_LISTEXTATTR
  | ES_EVENT_TYPE_NOTIFY_LOOKUP
  | ES_EVENT_TYPE_AUTH_MMAP
  | ES_EVENT_TYPE_NOTIFY_MMAP
  | ES_EVENT_TYPE_AUTH_MOUNT
  | ES_EVENT_TYPE_NOTIFY_MOUNT
  | ES_EVENT_TYPE_AUTH_MPROTECT
  | ES_EVENT_TYPE_NOTIFY_MPROTECT
  | ES_EVENT_TYPE_AUTH_OPEN
  | ES_EVENT_TYPE_NOTIFY_OPEN
  | ES_EVENT_TYPE_AUTH_PROC_CHECK
  | ES_EVENT_TYPE_NOTIFY_PROC_CHECK
  | ES_EVENT_TYPE_NOTIFY_PTY_CLOSE
  | ES_EVENT_TYPE_NOTIFY_PTY_GRANT
  | ES_EVENT_TYPE_AUTH_READDIR
  | ES_EVENT_TYPE_NOTIFY_READDIR
  | ES_EVENT_TYPE_AUTH_READLINK
  | ES_EVENT_TYPE_NOTIFY_READLINK
  | ES_EVENT_TYPE_AUTH_RENAME
  | ES_EVENT_TYPE_NOTIFY_RENAME
  | ES_EVENT_TYPE_AUTH_SETACL
  | ES_EVENT_TYPE_NOTIFY_SETACL
  | ES_EVENT_TYPE_AUTH_SETATTRLIST
  | ES_EVENT_TYPE_NOTIFY_SETATTRLIST
  | ES_EVENT_TYPE_AUTH_SETEXTATTR
  | ES_EVENT_TYPE_NOTIFY_SETEXTATTR
  | ES_EVENT_TYPE_AUTH_SETFLAGS
  | ES_EVENT_TYPE_NOTIFY_SETFLAGS
  | ES_EVENT_TYPE_AUTH_SETMODE
  | ES_EVENT_TYPE_NOTIFY_SETMODE
  | ES_EVENT_TYPE_AUTH_SETOWNER
  | ES_EVENT_TYPE_NOTIFY_SETOWNER
  | ES_EVENT_TYPE_AUTH_SETTIME
  | ES_EVENT_TYPE_NOTIFY_SETTIME
  | ES_EVENT_TYPE_AUTH_SIGNAL
  | ES_EVENT_TYPE_NOTIFY_SIGNAL
  | ES_EVENT_TYPE_NOTIFY_STAT
  | ES_EVENT_TYPE_AUTH_TRUNCATE
  | ES_EVENT_TYPE_NOTIFY_TRUNCATE
  | ES_EVENT_TYPE_AUTH_UIPC_BIND
  | ES_EVENT_TYPE_NOTIFY_UIPC_BIND
  | ES_EVENT_TYPE_AUTH_UIPC_CONNECT
  | ES_EVENT_TYPE_NOTIFY_UIPC_CONNECT
  | ES_EVENT_TYPE_AUTH_UNLINK
  | ES_EVENT_TYPE_NOTIFY_UNLINK
  | ES_EVENT_TYPE_NOTIFY_UNMOUNT
  | ES_EVENT_TYPE_AUTH_UTIMES
  | ES_EVENT_TYPE_NOTIFY_UTIMES
  | ES_EVENT_TYPE_NOTIFY_WRITE
  | ES_EVENT_TYPE_LAST
  | OTHER (raw : Nat)

/-- The tag of the `destination` union of create and rename events, as a raw enumerator:
`0` is `ES_DESTINATION_TYPE_EXISTING_FILE`, `1` is `ES_DESTINATION_TYPE_NEW_PATH`. -/
abbrev es_destination_type_t := Nat

/-- The enumerator `ES_DESTINATION_TYPE_EXISTING_FILE`. -/
def ES_DESTINATION_TYPE_EXISTING_FILE : es_destination_type_t := 0

/-- The enumerator `ES_DESTINATION_TYPE_NEW_PATH`. -/
def ES_DESTINATION_TYPE_NEW_PATH : es_destination_type_t := 1

/-- A string token: a length and a pointer to NUL-terminated data. -/
structure es_string_token_t where
  length : Nat := 0
  data : String := ""

/-- A file: only its path is read. -/
structure es_file_t where
  path : es_string_token_t := {}

/-- A time stamp. -/
structure timespec where
  tv_sec : Int := 0
  tv_nsec : Int := 0

/-- The audit token of a process: eight 32-bit words. -/
structure audit_token_t where
  auid : Nat := 0
  euid : Nat := 0
  egid : Nat := 0
  ruid : Nat := 0
  rgid : Nat := 0
  pid : Nat := 0
  asid : Nat := 0
  pidversion : Nat := 0

/-- The accessor `audit_token_to_pid`: word 5 as a `pid_t`. -/
def audit_token_to_pid (t : audit_token_t) : Int := toInt32 t.pid

/-- The accessor `audit_token_to_euid`. -/
def audit_token_to_euid (t : audit_token_t) : Nat := t.euid % 4294967296

/-- The accessor `audit_token_to_ruid`. -/
def audit_token_to_ruid (t : audit_token_t) : Nat := t.ruid % 4294967296

/-- The accessor `audit_token_to_rgid`. -/
def audit_token_to_rgid (t : audit_token_t) : Nat := t.rgid % 4294967296

/-- The accessor `audit_token_to_egid`. -/
def audit_token_to_egid (t : audit_token_t) : Nat := t.egid % 4294967296

/-- A process descriptor. -/
structure es_process_t where
  audit_token : audit_token_t := {}
  ppid : Int := 0
  original_ppid : Int := 0
  group_id : Int := 0
  session_id : Int := 0
  codesigning_flags : Nat := 0
  is_platform_binary : Bool := false
  is_es_client : Bool := false
  signing_id : es_string_token_t := {}
  team_id : es_string_token_t := {}
  executable : Option es_file_t := none
  start_time : timespec := {}

/-- The fields of `struct statfs` the code reads. -/
structure statfs where
  f_mntfromname : String := ""
  f_mntonname : String := ""

/-- The attribute groups of `struct attrlist`. -/
structure attrlist where
  commonattr : Nat := 0
  volattr : Nat := 0
  dirattr : Nat := 0
  fileattr : Nat := 0
  forkattr : Nat := 0

/-- The `new_path` member of a destination union. -/
structure es_new_path_t where
  dir : Option es_file_t := none
  filename : es_string_token_t := {}
  mode : Nat := 0

/-- The `destination` union of create and rename events; both members are readable. -/
structure es_destination_t where
  existing_file : Option es_file_t := none
  new_path : es_new_path_t := {}

/-- Event payload with one file `target`. -/
structure es_event_target_t where
  target : Option es_file_t := none

structure es_event_access_t where
  target : Option es_file_t := none
  mode : Int := 0

structure es_event_clone_t where
  source : Option es_file_t := none
  target_dir : Option es_file_t := none
  target_name : es_string_token_t := {}

structure es_event_close_t where
  target : Option es_file_t := none
  modified : Bool := false

structure es_event_create_t where
  destination_type : es_destination_type_t := 0
  destination : es_destination_t := {}

structure es_event_extattr_t where
  target : Option es_file_t := none
  extattr : es_string_token_t := {}

structure es_event_exchangedata_t where
  file1 : Option es_file_t := none
  file2 : Option es_file_t := none

/-- The exec payload; `args` is what `es_exec_arg_count` and `es_exec_arg` enumerate. -/
structure es_event_exec_t where
  target : Option es_process_t := none
  args : List es_string_token_t := []

structure es_event_exit_t where
  stat : Int := 0

structure es_event_fcntl_t where
  target : Option es_file_t := none
  cmd : Int := 0

structure es_event_file_provider_materialize_t where
  instigator : Option es_process_t := none
  source : Option es_file_t := none
  target : Option es_file_t := none

structure es_event_file_provider_update_t where
  source : Option es_file_t := none
  target_path : es_string_token_t := {}

structure es_event_fork_t where
  child : Option es_process_t := none

structure es_event_attrlist_t where
  target : Option es_file_t := none
  attrlist : attrlist := {}

structure es_event_get_task_t where
  target : Option es_process_t := none

structure es_event_iokit_open_t where
  user_client_class : es_string_token_t := {}
  user_client_type : Nat := 0

structure es_event_kext_t where
  identifier : es_string_token_t := {}

structure es_event_link_t where
  source : Option es_file_t := none
  target_dir : Option es_file_t := none
  target_filename : es_string_token_t := {}

structure es_event_lookup_t where
  source_dir : Option es_file_t := none
  relative_target : es_string_token_t := {}

structure es_event_mmap_t where
  source : Option es_file_t := none
  file_pos : Nat := 0
  flags : Int := 0
  max_protection : Int := 0
  protection : Int := 0

structure es_event_mount_t where
  statfs : statfs := {}

structure es_event_mprotect_t where
  address : Nat := 0
  size : Nat := 0
  protection : Int := 0

structure es_event_open_t where
  file : Option es_file_t := none
  fflag : Int := 0

structure es_event_proc_check_t where
  flavor : Int := 0
  target : Option es_process_t := none
  type : Int := 0

structure es_event_pty_t where
  dev : Int := 0

structure es_event_source_t where
  source : Option es_file_t := none

structure es_event_rename_t where
  destination_type : es_destination_type_t := 0
  destination : es_destination_t := {}

structure es_event_setflags_t where
  target : Option es_file_t := none
  flags : Nat := 0

structure es_event_setmode_t where
  target : Option es_file_t := none
  mode : Int := 0

structure es_event_setowner_t where
  target : Option es_file_t := none
  uid : Int := 0
  gid : Int := 0

structure es_event_settime_t where

structure es_event_signal_t where
  target : Option es_process_t := none
  sig : Nat := 0

structure es_event_uipc_bind_t where
  dir : Option es_file_t := none
  filename : es_string_token_t := {}
  mode : Nat := 0

structure es_event_uipc_connect_t where
  file : Option es_file_t := none
  domain : Int := 0
  type : Int := 0
  protocol : Int := 0

structure es_event_utimes_t where
  target : Option es_file_t := none
  mtime : timespec := {}
  atime : timespec := {}

/-- The union `es_events_t`. Every member the dispatch switch reads is a field, so that a member
can be read whatever the event type says. -/
structure es_events_t where
  access : es_event_access_t := {}
  chdir : es_event_target_t := {}
  chroot : es_event_target_t := {}
  clone : es_event_clone_t := {}
  close : es_event_close_t := {}
  create : es_event_create_t := {}
  deleteextattr : es_event_extattr_t := {}
  dup : es_event_target_t := {}
  exchangedata : es_event_exchangedata_t := {}
  exec : es_event_exec_t := {}
  exit : es_event_exit_t := {}
  fcntl : es_event_fcntl_t := {}
  file_provider_materialize : es_event_file_provider_materialize_t := {}
  file_provider_update : es_event_file_provider_update_t := {}
  fork : es_event_fork_t := {}
  fsgetpath : es_event_target_t := {}
  getattrlist : es_event_attrlist_t := {}
  getextattr : es_event_extattr_t := {}
  get_task : es_event_get_task_t := {}
  iokit_open : es_event_iokit_open_t := {}
  kextload : es_event_kext_t := {}
  kextunload : es_event_kext_t := {}
  link : es_event_link_t := {}
  listextattr : es_event_target_t := {}
  lookup : es_event_lookup_t := {}
  mmap : es_event_mmap_t := {}
  mount : es_event_mount_t := {}
  mprotect : es_event_mprotect_t := {}
  open_ : es_event_open_t := {}
  proc_check : es_event_proc_check_t := {}
  pty_close : es_event_pty_t := {}
  pty_grant : es_event_pty_t := {}
  readdir : es_event_target_t := {}
  readlink : es_event_source_t := {}
  rename : es_event_rename_t := {}
  setacl : es_event_target_t := {}
  setattrlist : es_event_attrlist_t := {}
  setextattr : es_event_extattr_t := {}
  setflags : es_event_setflags_t := {}
  setmode : es_event_setmode_t := {}
  setowner : es_event_setowner_t := {}
  settime : es_event_settime_t := {}
  signal : es_event_signal_t := {}
  stat : es_event_target_t := {}
  truncate : es_event_target_t := {}
  uipc_bind : es_event_uipc_bind_t := {}
  uipc_connect : es_event_uipc_connect_t := {}
  unlink : es_event_target_t := {}
  unmount : es_event_mount_t := {}
  utimes : es_event_utimes_t := {}
  write : es_event_target_t := {}

/-- A message of the event source. `process` is never null; `thread_id` is `thread->thread_id`. -/
structure es_message_t where
  time : timespec := {}
  process : es_process_t := {}
  thread_id : Nat := 0
  action_type : es_action_type_t := es_action_type_t.ES_ACTION_TYPE_NOTIFY
  event_type : es_event_type_t := es_event_type_t.ES_EVENT_TYPE_LAST
  event : es_events_t := {}

/-! ## The record and the state of the agent -/

/-- Modelled from the spec: the declaration of `EndpointSecurity::Event` (the Record of the data
model; `EndpointSecurity.h` is not among the sources). The fields are the ones `on_event` and the
decoders assign and `event_callback` reads. -/
structure Event where
  event : String := ""
  filename : String := ""
  timestamp : String := ""
  time_s : Int := 0
  time_ns : Int := 0
  is_authentication : Bool := false
  process_pid : Int := 0
  process_euid : Nat := 0
  process_ruid : Nat := 0
  process_rgid : Nat := 0
  process_egid : Nat := 0
  process_ppid : Int := 0
  process_oppid : Int := 0
  process_gid : Int := 0
  process_sid : Int := 0
  process_csflags : Nat := 0
  process_csflags_desc : String := ""
  process_is_platform_binary : Bool := false
  process_is_es_client : Bool := false
  process_thread_id : Nat := 0
  process_signing_id : String := ""
  process_team_id : String := ""
  process_executable : String := ""
  process_start_time : String := ""
  parameters : List (String × String) := []

/-- The object `EndpointSecurityImpl`: the reused event and the selective-tracking state. The
client handle and the report callback are not state: calls through them are effects. Messages
are delivered only after `subscribe`, which follows `create`, so `reportfunc` is set whenever
`on_event` runs. -/
structure EndpointSecurityImpl where
  event : Event := {}
  monitoredProcessPath : String := ""
  monitoredProcesses : List (Int × Int) := []

/-- A call that leaves the agent. -/
inductive Effect
  | es_mute_process (token : audit_token_t)
  | reportfunc (event : Event)
  | es_respond_flags_result (message : es_message_t) (authorized_flags : Nat) (cache : Bool)
  | es_respond_auth_result (message : es_message_t) (result : es_auth_result_t) (cache : Bool)

/-- Whether an effect is one of the two respond calls. -/
def Effect.isRespond : Effect → Bool
  | Effect.es_respond_flags_result _ _ _ => true
  | Effect.es_respond_auth_result _ _ _ => true
  | _ => false

/-- Whether an effect is a mute instruction. -/
def Effect.isMute : Effect → Bool
  | Effect.es_mute_process _ => true
  | _ => false

/-- Whether an effect is a call of the reporting callback. -/
def Effect.isReport : Effect → Bool
  | Effect.reportfunc _ => true
  | _ => false

/-- What the code takes from outside the repository. -/
structure Env where
  /-- The result of `getpid()`. -/
  getpid : Int := 0
  /-- The text `strftime` renders for `localtime` of a number of seconds. -/
  strftime_localtime : Int → String := fun _ => ""
  /-- The tables of `flags.h`, in ascending key order. -/
  value_map_codesign : List (Nat × String) := []
  value_map_access : List (Nat × String) := []
  value_map_fcntl : List (Nat × String) := []
  value_map_attr_common : List (Nat × String) := []
  value_map_attr_volume : List (Nat × String) := []
  value_map_attr_dir : List (Nat × String) := []
  value_map_attr_file : List (Nat × String) := []
  value_map_attr_fork : List (Nat × String) := []
  value_map_mmap_flags : List (Nat × String) := []
  value_map_mmap_prot : List (Nat × String) := []
  value_map_open : List (Nat × String) := []
  value_map_proc_check_type : List (Nat × String) := []
  /-- The return code of `es_respond_flags_result` for a message (0 is success). -/
  respond_flags_code : es_message_t → Nat := fun _ => 0
  /-- The return code of `es_respond_auth_result` for a message (0 is success). -/
  respond_auth_code : es_message_t → Nat := fun _ => 0

/-- The state the callback leaves, the calls it made, and the exception it ended with, if any. -/
structure Outcome where
  impl : EndpointSecurityImpl
  effects : List Effect := []
  error : Option String := none

/-! ## Helpers of `EndpointSecurityImpl` -/

/-- The double-quote character. -/
def dquote : Char := Char.ofNat 34

/-- The backslash character. -/
def backslash : Char := Char.ofNat 92

/-- The assignment `event.event = name`. -/
def setKind (s : EndpointSecurityImpl) (name : String) : EndpointSecurityImpl :=
  { s with event := { s.event with event := name } }

/-- The assignment `event.filename = v`. -/
def setFilename (s : EndpointSecurityImpl) (v : String) : EndpointSecurityImpl :=
  { s with event := { s.event with filename := v } }

/-- The assignment `event.parameters[k] = v`. -/
def setParam (s : EndpointSecurityImpl) (k v : String) : EndpointSecurityImpl :=
  { s with event := { s.event with parameters := mapAssign strLt s.event.parameters k v } }

/-- The value of the expression `event.parameters[k]`. -/
def readParam (s : EndpointSecurityImpl) (k : String) : String := mapAt s.event.parameters k

/-- The state after evaluating `event.parameters[k]` (a missing key is inserted). -/
def touchParam (s : EndpointSecurityImpl) (k : String) : EndpointSecurityImpl :=
  { s with event := { s.event with parameters := mapTouch strLt s.event.parameters k } }

/-- The helper `getEsStringToken`. -/
def getEsStringToken (src : es_string_token_t) : String :=
  if src.length > 0 then c_str src.data else ""

/-- The helper `getEsFile`. -/
def getEsFile (src : Option es_file_t) : String :=
  match src with
  | some f => getEsStringToken f.path
  | none => ""

/-- The helper `timespecToString`. -/
def timespecToString (env : Env) (tval : Int) : String := env.strftime_localtime tval

/-- The text of a `bool` in the parameters. -/
def boolText (b : Bool) : String := if b then "true" else "false"

/-- The loop of `getBitmask`: the value left and the text built after visiting the table. -/
def getBitmaskLoop : List (Nat × String) → Nat → String → Nat × String
  | [], value, res => (value, res)
  | (key, name) :: rest, value, res =>
    if value &&& key ≠ 0 then
      getBitmaskLoop rest (value ^^^ key) ((if res ≠ "" then res ++ "|" else res) ++ name)
    else getBitmaskLoop rest value res

/-- The helper `getBitmask`. -/
def getBitmask (map : List (Nat × String)) (value : Nat) : String :=
  let r := getBitmaskLoop map value ""
  (if r.1 ≠ 0 then r.2 ++ (" [" ++ to_string_u r.1 ++ "?] (") else r.2 ++ " (")
    ++ (to_string_u value ++ ")")

/-- The helper `getValue`. -/
def getValue (map : List (Nat × String)) (value : Nat) : String :=
  (match mapFind map value with
    | some name => name
    | none => "[?]") ++ (" (" ++ to_string_u value ++ ")")

/-- The helper `getEsProcess`. -/
def getEsProcess (env : Env) (s : EndpointSecurityImpl) (process : Option es_process_t)
    (pfx : String) : EndpointSecurityImpl :=
  match process with
  | none => setParam s (pfx ++ "pid") "-1"
  | some p =>
    let s := setParam s (pfx ++ "pid") (to_string (audit_token_to_pid p.audit_token))
    let s := setParam s (pfx ++ "euid") (to_string_u (audit_token_to_euid p.audit_token))
    let s := setParam s (pfx ++ "ruid") (to_string_u (audit_token_to_ruid p.audit_token))
    let s := setParam s (pfx ++ "rgid") (to_string_u (audit_token_to_rgid p.audit_token))
    let s := setParam s (pfx ++ "egid") (to_string_u (audit_token_to_egid p.audit_token))
    let s := setParam s (pfx ++ "ppid") (to_string p.ppid)
    let s := setParam s (pfx ++ "oppid") (to_string p.original_ppid)
    let s := setParam s (pfx ++ "gid") (to_string p.group_id)
    let s := setParam s (pfx ++ "sid") (to_string p.session_id)
    let s := setParam s (pfx ++ "csflags") (to_string_u p.codesigning_flags)
    let s := setParam s (pfx ++ "csflags_desc") (getBitmask env.value_map_codesign p.codesigning_flags)
    let s := setParam s (pfx ++ "is_platform_binary") (boolText p.is_platform_binary)
    let s := setParam s (pfx ++ "is_es_client") (boolText p.is_es_client)
    let s := setParam s (pfx ++ "signing_id") (getEsStringToken p.signing_id)
    let s := setParam s (pfx ++ "team_id") (getEsStringToken p.team_id)
    setParam s (pfx ++ "executable") (getEsFile p.executable)

/-- The helper `getStatFs`. -/
def getStatFs (s : EndpointSecurityImpl) (fs : statfs) : EndpointSecurityImpl :=
  let s := setParam s "f_mntfromname" (c_str fs.f_mntfromname)
  setParam s "f_mntonname" (c_str fs.f_mntonname)

/-! ## The wait-status macros of `sys/wait.h` -/

/-- The macro `_WSTATUS`. -/
def _WSTATUS (x : Int) : Nat := toUInt32 x &&& 127

/-- The macro `WIFEXITED`. -/
def WIFEXITED (x : Int) : Bool := _WSTATUS x = 0

/-- The macro `WIFSIGNALED`. -/
def WIFSIGNALED (x : Int) : Bool := _WSTATUS x ≠ 127 && _WSTATUS x ≠ 0

/-- The macro `WEXITSTATUS`. -/
def WEXITSTATUS (x : Int) : Nat := (toUInt32 x >>> 8) &&& 255

/-- The macro `WTERMSIG`. -/
def WTERMSIG (x : Int) : Nat := _WSTATUS x

/-- The macro `WCOREDUMP`. -/
def WCOREDUMP (x : Int) : Bool := toUInt32 x &&& 128 ≠ 0

/-! ## The decoders -/

def on_access (env : Env) (s : EndpointSecurityImpl) (target : Option es_file_t) (mode : Int) :
    EndpointSecurityImpl :=
  let s := setKind s "access"
  let s := setParam s "target" (getEsFile target)
  let s := setParam s "mode" (to_string mode)
  setParam s "mode_desc"
    (if mode = 0 then "F_OK (0)" else getBitmask env.value_map_access (toUInt32 mode))

def on_chdir (s : EndpointSecurityImpl) (target : Option es_file_t) : EndpointSecurityImpl :=
  let s := setKind s "chdir"
  setParam s "target" (getEsFile target)

def on_chroot (s : EndpointSecurityImpl) (target : Option es_file_t) : EndpointSecurityImpl :=
  let s := setKind s "chroot"
  setParam s "target" (getEsFile target)

def on_clone (s : EndpointSecurityImpl) (source target_dir : Option es_file_t)
    (target_name : es_string_token_t) : EndpointSecurityImpl :=
  let s := setKind s "clone"
  let s := setParam s "source" (getEsFile source)
  let s := setParam s "target_dir" (getEsFile target_dir)
  let s := setParam s "target_name" (getEsStringToken target_name)
  setFilename (touchParam s "target_name") (readParam s "target_name")

def on_close (s : EndpointSecurityImpl) (target : Option es_file_t) (modified : Bool) :
    EndpointSecurityImpl :=
  let s := setKind s "close"
  let s := setParam s "target" (getEsFile target)
  let s := setFilename (touchParam s "target") (readParam s "target")
  setParam s "modified" (boolText modified)

def on_open (env : Env) (s : EndpointSecurityImpl) (file : Option es_file_t) (fflag : Int) :
    EndpointSecurityImpl :=
  let s := setKind s "open"
  let s := setParam s "filename" (getEsFile file)
  let s := setParam s "fflag" (getBitmask env.value_map_open (toUInt32 fflag))
  setFilename (touchParam s "filename") (readParam s "filename")

def on_create (env : Env) (s : EndpointSecurityImpl) (event : es_event_create_t) :
    EndpointSecurityImpl × Option String :=
  let s := setKind s "create"
  if event.destination_type = ES_DESTINATION_TYPE_EXISTING_FILE then
    (on_open env s event.destination.existing_file ((512 ||| 2 ||| 1024 : Nat) : Int), none)
  else if event.destination_type = ES_DESTINATION_TYPE_NEW_PATH then
    let s := setParam s "target_dir" (getEsFile event.destination.new_path.dir)
    let s := setParam s "target_name" (getEsStringToken event.destination.new_path.filename)
    let s := setFilename (touchParam s "target_name") (readParam s "target_name")
    (setParam s "mode" (to_string_u event.destination.new_path.mode), none)
  else (s, some "on_create() unknown destination")

def on_deleteextattr (s : EndpointSecurityImpl) (target : Option es_file_t)
    (extattr : es_string_token_t) : EndpointSecurityImpl :=
  let s := setKind s "deleteextattr"
  let s := setParam s "target" (getEsFile target)
  setParam s "extattr" (getEsStringToken extattr)

def on_dup (s : EndpointSecurityImpl) (target : Option es_file_t) : EndpointSecurityImpl :=
  let s := setKind s "dup"
  let s := setParam s "target" (getEsFile target)
  setFilename (touchParam s "target") (readParam s "target")

def on_exchangedata (s : EndpointSecurityImpl) (file1 file2 : Option es_file_t) :
    EndpointSecurityImpl :=
  let s := setKind s "exchangedata"
  let s := setParam s "file1" (getEsFile file1)
  let s := setParam s "file2" (getEsFile file2)
  setFilename (touchParam s "file2") (readParam s "file2")

/-- The replacement `std::regex_replace(arg, std::regex("\""), "\\\"")`: a backslash goes before
every double quote. -/
def escapeQuotes : List Char → List Char
  | [] => []
  | c :: cs => if c = dquote then backslash :: dquote :: escapeQuotes cs else c :: escapeQuotes cs

/-- The argument loop of `on_exec`, from index `i` on. -/
def execArgsLoop (s : EndpointSecurityImpl) : Nat → List es_string_token_t → EndpointSecurityImpl
  | _, [] => s
  | i, tok :: rest =>
    let arg : String := ⟨escapeQuotes (getEsStringToken tok).data⟩
    let s := if i > 0 then setParam s "target_args" (readParam s "target_args" ++ " ") else s
    let s := setParam s "target_args"
      (readParam s "target_args" ++ (String.singleton dquote ++ arg ++ String.singleton dquote))
    execArgsLoop s (i + 1) rest

/-- The first part of `on_exec`: the kind, the target process and the argument list. -/
def on_exec_decode (env : Env) (s : EndpointSecurityImpl) (event : es_event_exec_t) :
    EndpointSecurityImpl :=
  let s := setKind s "exec"
  let s := getEsProcess env s event.target "target_"
  let s := setParam s "target_args" ""
  let s := setFilename s s.event.process_team_id
  execArgsLoop s 0 event.args

/-- The last part of `on_exec`: "If this is the monitored process, remember it so we receive its
events". -/
def on_exec_track (s : EndpointSecurityImpl) : EndpointSecurityImpl × Option String :=
  if s.monitoredProcessPath ≠ "" then
    let exe := readParam s "target_executable"
    let s := touchParam s "target_executable"
    if exe.length ≥ s.monitoredProcessPath.length
        ∧ substr0 exe s.monitoredProcessPath.length = s.monitoredProcessPath then
      let pidText := readParam s "target_pid"
      let s := touchParam s "target_pid"
      match stoi pidText with
      | some p => ({ s with monitoredProcesses := mapAssign pidLt s.monitoredProcesses p 1 }, none)
      | none => (s, some "stoi")
    else (s, none)
  else (s, none)

def on_exec (env : Env) (s : EndpointSecurityImpl) (event : es_event_exec_t) :
    EndpointSecurityImpl × Option String :=
  on_exec_track (on_exec_decode env s event)

def on_exit (s : EndpointSecurityImpl) (pid : Int) (stat : Int) :
    EndpointSecurityImpl × Option String :=
  let s := setKind s "exit"
  let s := setParam s "stat" (to_string stat)
  let described : Option EndpointSecurityImpl :=
    if WIFEXITED stat then
      some (setParam s "stat_desc" ("normal exit with code " ++ to_string_u (WEXITSTATUS stat)))
    else if WIFSIGNALED stat then
      some (setParam s "stat_desc" ("killed by signal " ++ to_string_u (WTERMSIG stat)
        ++ (if WCOREDUMP stat then " (coredump created)" else "")))
    else none
  match described with
  | none => (s, some "Invalid exit")
  | some s =>
    match mapFind s.monitoredProcesses pid with
    | some _ => ({ s with monitoredProcesses := mapErase s.monitoredProcesses pid }, none)
    | none => (s, none)

def on_fcntl (env : Env) (s : EndpointSecurityImpl) (target : Option es_file_t) (cmd : Int) :
    EndpointSecurityImpl :=
  let s := setKind s "fcntl"
  let s := setParam s "target" (getEsFile target)
  let s := setParam s "cmd" (to_string cmd)
  setParam s "cmd_desc" (getValue env.value_map_fcntl (toUInt32 cmd))

def on_file_provider_materialize (env : Env) (s : EndpointSecurityImpl)
    (instigator : Option es_process_t) (source target : Option es_file_t) :
    EndpointSecurityImpl :=
  let s := setKind s "file_provider_materialize"
  let s := getEsProcess env s instigator "instigator_"
  let s := setParam s "source" (getEsFile source)
  setParam s "target" (getEsFile target)

def on_file_provider_update (s : EndpointSecurityImpl) (source : Option es_file_t)
    (target_path : es_string_token_t) : EndpointSecurityImpl :=
  let s := setKind s "file_provider_update"
  let s := setParam s "source" (getEsFile source)
  setParam s "target_path" (getEsStringToken target_path)

def on_fork (env : Env) (s : EndpointSecurityImpl) (pid : Int) (child : Option es_process_t) :
    EndpointSecurityImpl × Option String :=
  let s := setKind s "fork"
  let s := getEsProcess env s child "child_"
  match mapFind s.monitoredProcesses pid with
  | some _ =>
    let pidText := readParam s "child_pid"
    let s := touchParam s "child_pid"
    match stoi pidText with
    | some c => ({ s with monitoredProcesses := mapAssign pidLt s.monitoredProcesses c 1 }, none)
    | none => (s, some "stoi")
  | none => (s, none)

def on_fsgetpath (s : EndpointSecurityImpl) (target : Option es_file_t) : EndpointSecurityImpl :=
  let s := setKind s "fsgetpath"
  setParam s "target" (getEsFile target)

/-- The five conditional assignments shared by `on_getattrlist` and `on_setattrlist`. -/
def attrlistParams (env : Env) (s : EndpointSecurityImpl) (a : attrlist) : EndpointSecurityImpl :=
  let s := if a.commonattr ≠ 0 then
    setParam s "commonattr" (getBitmask env.value_map_attr_common a.commonattr) else s
  let s := if a.volattr ≠ 0 then
    setParam s "volattr" (getBitmask env.value_map_attr_volume a.volattr) else s
  let s := if a.dirattr ≠ 0 then
    setParam s "dirattr" (getBitmask env.value_map_attr_dir a.dirattr) else s
  let s := if a.fileattr ≠ 0 then
    setParam s "fileattr" (getBitmask env.value_map_attr_file a.fileattr) else s
  if a.forkattr ≠ 0 then
    setParam s "forkattr" (getBitmask env.value_map_attr_fork a.forkattr) else s

def on_getattrlist (env : Env) (s : EndpointSecurityImpl) (target : Option es_file_t)
    (a : attrlist) : EndpointSecurityImpl :=
  let s := setKind s "getattrlist"
  let s := setParam s "target" (getEsFile target)
  attrlistParams env s a

def on_getextattr (s : EndpointSecurityImpl) (target : Option es_file_t)
    (extattr : es_string_token_t) : EndpointSecurityImpl :=
  let s := setKind s "getextattr"
  let s := setParam s "target" (getEsFile target)
  setParam s "extattr" (getEsStringToken extattr)

def on_get_task (env : Env) (s : EndpointSecurityImpl) (target : Option es_process_t) :
    EndpointSecurityImpl :=
  let s := setKind s "get_task"
  let s := getEsProcess env s target "target_"
  setFilename (touchParam s "target_executable") (readParam s "target_executable")

def on_iokit_open (s : EndpointSecurityImpl) (user_client_class : es_string_token_t)
    (user_client_type : Nat) : EndpointSecurityImpl :=
  let s := setKind s "iokit_open"
  let s := setParam s "user_client_class" (getEsStringToken user_client_class)
  let s := setParam s "user_client_type" (to_string_u user_client_type)
  setFilename (touchParam s "user_client_class") (readParam s "user_client_class")

def on_kextload (s : EndpointSecurityImpl) (identifier : es_string_token_t) :
    EndpointSecurityImpl :=
  let s := setKind s "kextload"
  let s := setParam s "identifier" (getEsStringToken identifier)
  setFilename (touchParam s "identifier") (readParam s "identifier")

def on_kextunload (s : EndpointSecurityImpl) (identifier : es_string_token_t) :
    EndpointSecurityImpl :=
  let s := setKind s "kextunload"
  let s := setParam s "identifier" (getEsStringToken identifier)
  setFilename (touchParam s "identifier") (readParam s "identifier")

def on_link (s : EndpointSecurityImpl) (source target_dir : Option es_file_t)
    (target_filename : es_string_token_t) : EndpointSecurityImpl :=
  let s := setKind s "link"
  let s := setParam s "source" (getEsFile source)
  let s := setParam s "target_dir" (getEsFile target_dir)
  let s := setParam s "target_filename" (getEsStringToken target_filename)
  setFilename (touchParam s "identifier") (readParam s "identifier")

def on_listextattr (s : EndpointSecurityImpl) (target : Option es_file_t) :
    EndpointSecurityImpl :=
  let s := setKind s "listextattr"
  setParam s "target" (getEsFile target)

def on_lookup (s : EndpointSecurityImpl) (source_dir : Option es_file_t)
    (relative_target : es_string_token_t) : EndpointSecurityImpl :=
  let s := setKind s "lookup"
  let s := setParam s "source_dir" (getEsFile source_dir)
  setParam s "relative_target" (getEsStringToken relative_target)

/-- The text of a protection word: `protection == 0 ? "PROT_NONE (0)" : getBitmask(...)`. -/
def protText (env : Env) (protection : Int) : String :=
  if protection = 0 then "PROT_NONE (0)"
  else getBitmask env.value_map_mmap_prot (toUInt32 protection)

def on_mmap (env : Env) (s : EndpointSecurityImpl) (source : Option es_file_t) (file_pos : Nat)
    (flags max_protection protection : Int) : EndpointSecurityImpl :=
  let s := setKind s "mmap"
  let s := setParam s "source" (getEsFile source)
  let s := setParam s "file_pos" (to_string_u file_pos)
  let s := setParam s "flags" (getBitmask env.value_map_mmap_flags (toUInt32 flags))
  let s := setParam s "max_protection" (protText env max_protection)
  setParam s "protection" (protText env protection)

def on_mount (s : EndpointSecurityImpl) (fs : statfs) : EndpointSecurityImpl :=
  let s := setKind s "mount"
  let s := getStatFs s fs
  setFilename s (c_str fs.f_mntonname)

def on_mprotect (env : Env) (s : EndpointSecurityImpl) (address size : Nat) (protection : Int) :
    EndpointSecurityImpl :=
  let s := setKind s "mprotect"
  let s := setParam s "address" (to_string_u address)
  let s := setParam s "size" (to_string_u size)
  setParam s "protection" (protText env protection)

def on_proc_check (env : Env) (s : EndpointSecurityImpl) (flavor : Int)
    (target : Option es_process_t) (type : Int) : EndpointSecurityImpl :=
  let s := setKind s "proc_check"
  let s := setParam s "flavor" (to_string flavor)
  let s := match target with
    | some p => getEsProcess env s (some p) "target_"
    | none => s
  setParam s "type" (getValue env.value_map_proc_check_type (toUInt32 type))

def on_pty_close (s : EndpointSecurityImpl) (dev : Int) : EndpointSecurityImpl :=
  let s := setKind s "pty_close"
  setParam s "dev" (to_string dev)

def on_pty_grant (s : EndpointSecurityImpl) (dev : Int) : EndpointSecurityImpl :=
  let s := setKind s "pty_grant"
  setParam s "dev" (to_string dev)

def on_readdir (s : EndpointSecurityImpl) (target : Option es_file_t) : EndpointSecurityImpl :=
  let s := setKind s "readdir"
  setParam s "target" (getEsFile target)

def on_readlink (s : EndpointSecurityImpl) (source : Option es_file_t) : EndpointSecurityImpl :=
  let s := setKind s "readlink"
  setParam s "source" (getEsFile source)

def on_rename (s : EndpointSecurityImpl) (event : es_event_rename_t) :
    EndpointSecurityImpl × Option String :=
  let s := setKind s "rename"
  if event.destination_type = ES_DESTINATION_TYPE_EXISTING_FILE then
    let s := setParam s "existing_file" (getEsFile event.destination.existing_file)
    (setFilename (touchParam s "existing_file") (readParam s "existing_file"), none)
  else if event.destination_type = ES_DESTINATION_TYPE_NEW_PATH then
    let s := setParam s "dir" (getEsFile event.destination.new_path.dir)
    let s := setParam s "filename" (getEsStringToken event.destination.new_path.filename)
    (setFilename (touchParam s "filename") (readParam s "filename"), none)
  else (s, some "on_rename() unknown destination")

def on_setacl (s : EndpointSecurityImpl) (target : Option es_file_t) : EndpointSecurityImpl :=
  let s := setKind s "setacl"
  setParam s "target" (getEsFile target)

def on_setattrlist (env : Env) (s : EndpointSecurityImpl) (target : Option es_file_t)
    (a : attrlist) : EndpointSecurityImpl :=
  let s := setKind s "setattrlist"
  let s := setParam s "target" (getEsFile target)
  attrlistParams env s a

def on_setextattr (s : EndpointSecurityImpl) (target : Option es_file_t)
    (extattr : es_string_token_t) : EndpointSecurityImpl :=
  let s := setKind s "setextattr"
  let s := setParam s "target" (getEsFile target)
  setParam s "extattr" (getEsStringToken extattr)

def on_setflags (s : EndpointSecurityImpl) (target : Option es_file_t) (flags : Nat) :
    EndpointSecurityImpl :=
  let s := setKind s "setflags"
  let s := setParam s "target" (getEsFile target)
  setParam s "flags" (to_string_u flags)

def on_setmode (s : EndpointSecurityImpl) (target : Option es_file_t) (mode : Int) :
    EndpointSecurityImpl :=
  let s := setKind s "setmode"
  let s := setParam s "target" (getEsFile target)
  setParam s "mode" (to_string mode)

def on_setowner (s : EndpointSecurityImpl) (target : Option es_file_t) (uid gid : Int) :
    EndpointSecurityImpl :=
  let s := setKind s "setowner"
  let s := setParam s "target" (getEsFile target)
  let s := setParam s "uid" (to_string uid)
  setParam s "gid" (to_string gid)

def on_settime (s : EndpointSecurityImpl) (_event : es_event_settime_t) : EndpointSecurityImpl :=
  setKind s "settime"

def on_signal (env : Env) (s : EndpointSecurityImpl) (target : Option es_process_t) (sig : Nat) :
    EndpointSecurityImpl :=
  let s := setKind s "signal"
  let s := getEsProcess env s target "target_"
  setParam s "sig" (to_string_u sig)

def on_stat (s : EndpointSecurityImpl) (target : Option es_file_t) : EndpointSecurityImpl :=
  let s := setKind s "stat"
  setParam s "target" (getEsFile target)

def on_truncate (s : EndpointSecurityImpl) (target : Option es_file_t) : EndpointSecurityImpl :=
  let s := setKind s "truncate"
  let s := setParam s "target" (getEsFile target)
  setFilename (touchParam s "target") (readParam s "target")

def on_uipc_bind (s : EndpointSecurityImpl) (dir : Option es_file_t)
    (filename : es_string_token_t) (mode : Nat) : EndpointSecurityImpl :=
  let s := setKind s "uipc_bind"
  let s := setParam s "dir" (getEsFile dir)
  let s := setParam s "filename" (getEsStringToken filename)
  setParam s "mode" (to_string_u mode)

def on_uipc_connect (s : EndpointSecurityImpl) (file : Option es_file_t)
    (domain type protocol : Int) : EndpointSecurityImpl :=
  let s := setKind s "uipc_connect"
  let s := setParam s "file" (getEsFile file)
  let s := setParam s "domain" (to_string domain)
  let s := setParam s "type" (to_string type)
  setParam s "protocol" (to_string protocol)

def on_unlink (s : EndpointSecurityImpl) (target : Option es_file_t) : EndpointSecurityImpl :=
  let s := setKind s "unlink"
  setParam s "target" (getEsFile target)

def on_unmount (s : EndpointSecurityImpl) (fs : statfs) : EndpointSecurityImpl :=
  let s := setKind s "unmount"
  let s := getStatFs s fs
  setFilename s (c_str fs.f_mntonname)

def on_utimes (env : Env) (s : EndpointSecurityImpl) (target : Option es_file_t)
    (mtime atime : timespec) : EndpointSecurityImpl :=
  let s := setKind s "utimes"
  let s := setParam s "target" (getEsFile target)
  let s := setParam s "mtime" (timespecToString env mtime.tv_sec)
  setParam s "atime" (timespecToString env atime.tv_sec)

def on_write (s : EndpointSecurityImpl) (target : Option es_file_t) : EndpointSecurityImpl :=
  let s := setKind s "write"
  let s := setParam s "target" (getEsFile target)
  setFilename (touchParam s "target") (readParam s "target")

/-! ## `on_event` and the handler block of `create` -/

/-- The part of `on_event` that fills the reused event from the message envelope: every field
except `event` is assigned, `parameters` is cleared. -/
def fillEvent (env : Env) (ev : Event) (message : es_message_t) (pid : Int) : Event :=
  { ev with
    parameters := []
    filename := ""
    timestamp := timespecToString env message.time.tv_sec ++ "." ++ to_string message.time.tv_nsec
    time_s := message.time.tv_sec
    time_ns := message.time.tv_nsec
    is_authentication := decide (message.action_type = es_action_type_t.ES_ACTION_TYPE_AUTH)
    process_pid := pid
    process_euid := audit_token_to_euid message.process.audit_token
    process_ruid := audit_token_to_ruid message.process.audit_token
    process_rgid := audit_token_to_rgid message.process.audit_token
    process_egid := audit_token_to_egid message.process.audit_token
    process_ppid := message.process.ppid
    process_oppid := message.process.original_ppid
    process_gid := message.process.group_id
    process_sid := message.process.session_id
    process_csflags := message.process.codesigning_flags
    process_csflags_desc := getBitmask env.value_map_codesign message.process.codesigning_flags
    process_is_platform_binary := message.process.is_platform_binary
    process_is_es_client := message.process.is_es_client
    process_thread_id := message.thread_id
    process_signing_id := getEsStringToken message.process.signing_id
    process_team_id := getEsStringToken message.process.team_id
    process_executable := getEsFile message.process.executable
    process_start_time := timespecToString env message.process.start_time.tv_sec }

/-- The dispatch switch of `on_event`: the decoder of the event type, run on the union member it
reads; the default branch throws. -/
def dispatch (env : Env) (s : EndpointSecurityImpl) (pid : Int) (event_type : es_event_type_t)
    (e : es_events_t) : EndpointSecurityImpl × Option String :=
  match event_type with
  | es_event_type_t.ES_EVENT_TYPE_NOTIFY_ACCESS =>
    (on_access env s e.access.target e.access.mode, none)
  | es_event_type_t.ES_EVENT_TYPE_AUTH_CHDIR | es_event_type_t.ES_EVENT_TYPE_NOTIFY_CHDIR =>
    (on_chdir s e.chdir.target, none)
  | es_event_type_t.ES_EVENT_TYPE_AUTH_CHROOT | es_event_type_t.ES_EVENT_TYPE_NOTIFY_CHROOT =>
    (on_chroot s e.chroot.target, none)
  | es_event_type_t.ES_EVENT_TYPE_AUTH_CLONE | es_event_type_t.ES_EVENT_TYPE_NOTIFY_CLONE =>
    (on_clone s e.clone.source e.clone.target_dir e.clone.target_name, none)
  | es_event_type_t.ES_EVENT_TYPE_NOTIFY_CLOSE =>
    (on_close s e.close.target e.close.modified, none)
  | es_event_type_t.ES_EVENT_TYPE_AUTH_CREATE | es_event_type_t.ES_EVENT_TYPE_NOTIFY_CREATE =>
    on_create env s e.create
  | es_event_type_t.ES_EVENT_TYPE_AUTH_DELETEEXTATTR | es_event_type_t.ES_EVENT_TYPE_NOTIFY_DELETEEXTATTR =>
    (on_deleteextattr s e.deleteextattr.target e.deleteextattr.extattr, none)
  | es_event_type_t.ES_EVENT_TYPE_NOTIFY_DUP =>
    (on_dup s e.dup.target, none)
  | es_event_type_t.ES_EVENT_TYPE_AUTH_EXCHANGEDATA | es_event_type_t.ES_EVENT_TYPE_NOTIFY_EXCHANGEDATA =>
    (on_exchangedata s e.exchangedata.file1 e.exchangedata.file2, none)
  | es_event_type_t.ES_EVENT_TYPE_AUTH_EXEC | es_event_type_t.ES_EVENT_TYPE_NOTIFY_EXEC =>
    on_exec env s e.exec
  | es_event_type_t.ES_EVENT_TYPE_NOTIFY_EXIT =>
    on_exit s pid e.exit.stat
  | es_event_type_t.ES_EVENT_TYPE_AUTH_FCNTL | es_event_type_t.ES_EVENT_TYPE_NOTIFY_FCNTL =>
    (on_fcntl env s e.fcntl.target e.fcntl.cmd, none)
  | es_event_type_t.ES_EVENT_TYPE_AUTH_FILE_PROVIDER_MATERIALIZE | es_event_type_t.ES_EVENT_TYPE_NOTIFY_FILE_PROVIDER_MATERIALIZE =>
    (on_file_provider_materialize env s e.file_provider_materialize.instigator
      e.file_provider_materialize.source e.file_provider_materialize.target, none)
  | es_event_type_t.ES_EVENT_TYPE_AUTH_FILE_PROVIDER_UPDATE | es_event_type_t.ES_EVENT_TYPE_NOTIFY_FILE_PROVIDER_UPDATE =>
    (on_file_provider_update s e.file_provider_update.source
      e.file_provider_update.target_path, none)
  | es_event_type_t.ES_EVENT_TYPE_NOTIFY_FORK =>
    on_fork env s pid e.fork.child
  | es_event_type_t.ES_EVENT_TYPE_AUTH_FSGETPATH | es_event_type_t.ES_EVENT_TYPE_NOTIFY_FSGETPATH =>
    (on_fsgetpath s e.fsgetpath.target, none)
  | es_event_type_t.ES_EVENT_TYPE_AUTH_GETATTRLIST | es_event_type_t.ES_EVENT_TYPE_NOTIFY_GETATTRLIST =>
    (on_getattrlist env s e.getattrlist.target e.getattrlist.attrlist, none)
  | es_event_type_t.ES_EVENT_TYPE_AUTH_GETEXTATTR | es_event_type_t.ES_EVENT_TYPE_NOTIFY_GETEXTATTR =>
    (on_getextattr s e.getextattr.target e.getextattr.extattr, none)
  | es_event_type_t.ES_EVENT_TYPE_AUTH_GET_TASK | es_event_type_t.ES_EVENT_TYPE_NOTIFY_GET_TASK =>
    (on_get_task env s e.get_task.target, none)
  | es_event_type_t.ES_EVENT_TYPE_AUTH_IOKIT_OPEN | es_event_type_t.ES_EVENT_TYPE_NOTIFY_IOKIT_OPEN =>
    (on_iokit_open s e.iokit_open.user_client_class e.iokit_open.user_client_type, none)
  | es_event_type_t.ES_EVENT_TYPE_AUTH_KEXTLOAD | es_event_type_t.ES_EVENT_TYPE_NOTIFY_KEXTLOAD =>
    (on_kextload s e.kextload.identifier, none)
  | es_event_type_t.ES_EVENT_TYPE_NOTIFY_KEXTUNLOAD =>
    (on_kextunload s e.kextunload.identifier, none)
  | es_event_type_t.ES_EVENT_TYPE_AUTH_LINK | es_event_type_t.ES_EVENT_TYPE_NOTIFY_LINK =>
    (on_link s e.link.source e.link.target_dir e.link.target_filename, none)
  | es_event_type_t.ES_EVENT_TYPE_AUTH_LISTEXTATTR | es_event_type_t.ES_EVENT_TYPE_NOTIFY_LISTEXTATTR =>
    (on_listextattr s e.listextattr.target, none)
  | es_event_type_t.ES_EVENT_TYPE_NOTIFY_LOOKUP =>
    (on_lookup s e.lookup.source_dir e.lookup.relative_target, none)
  | es_event_type_t.ES_EVENT_TYPE_AUTH_MMAP | es_event_type_t.ES_EVENT_TYPE_NOTIFY_MMAP =>
    (on_mmap env s e.mmap.source e.mmap.file_pos e.mmap.flags e.mmap.max_protection
      e.mmap.protection, none)
  | es_event_type_t.ES_EVENT_TYPE_AUTH_MOUNT | es_event_type_t.ES_EVENT_TYPE_NOTIFY_MOUNT =>
    (on_mount s e.mount.statfs, none)
  | es_event_type_t.ES_EVENT_TYPE_AUTH_MPROTECT | es_event_type_t.ES_EVENT_TYPE_NOTIFY_MPROTECT =>
    (on_mprotect env s e.mprotect.address e.mprotect.size e.mprotect.protection, none)
  | es_event_type_t.ES_EVENT_TYPE_AUTH_OPEN | es_event_type_t.ES_EVENT_TYPE_NOTIFY_OPEN =>
    (on_open env s e.open_.file e.open_.fflag, none)
  | es_event_type_t.ES_EVENT_TYPE_AUTH_PROC_CHECK | es_event_type_t.ES_EVENT_TYPE_NOTIFY_PROC_CHECK =>
    (on_proc_check env s e.proc_check.flavor e.proc_check.target e.proc_check.type, none)
  | es_event_type_t.ES_EVENT_TYPE_NOTIFY_PTY_CLOSE =>
    (on_pty_close s e.pty_close.dev, none)
  | es_event_type_t.ES_EVENT_TYPE_NOTIFY_PTY_GRANT =>
    (on_pty_grant s e.pty_grant.dev, none)
  | es_event_type_t.ES_EVENT_TYPE_AUTH_READDIR | es_event_type_t.ES_EVENT_TYPE_NOTIFY_READDIR =>
    (on_readdir s e.readdir.target, none)
  | es_event_type_t.ES_EVENT_TYPE_AUTH_READLINK | es_event_type_t.ES_EVENT_TYPE_NOTIFY_READLINK =>
    (on_readlink s e.readlink.source, none)
  | es_event_type_t.ES_EVENT_TYPE_AUTH_RENAME | es_event_type_t.ES_EVENT_TYPE_NOTIFY_RENAME =>
    on_rename s e.rename
  | es_event_type_t.ES_EVENT_TYPE_AUTH_SETACL | es_event_type_t.ES_EVENT_TYPE_NOTIFY_SETACL =>
    (on_setacl s e.setacl.target, none)
  | es_event_type_t.ES_EVENT_TYPE_AUTH_SETATTRLIST | es_event_type_t.ES_EVENT_TYPE_NOTIFY_SETATTRLIST =>
    (on_setattrlist env s e.setattrlist.target e.setattrlist.attrlist, none)
  | es_event_type_t.ES_EVENT_TYPE_AUTH_SETEXTATTR | es_event_type_t.ES_EVENT_TYPE_NOTIFY_SETEXTATTR =>
    (on_setextattr s e.setextattr.target e.setextattr.extattr, none)
  | es_event_type_t.ES_EVENT_TYPE_AUTH_SETFLAGS | es_event_type_t.ES_EVENT_TYPE_NOTIFY_SETFLAGS =>
    (on_setflags s e.setflags.target e.setflags.flags, none)
  | es_event_type_t.ES_EVENT_TYPE_AUTH_SETMODE | es_event_type_t.ES_EVENT_TYPE_NOTIFY_SETMODE =>
    (on_setmode s e.setmode.target e.setmode.mode, none)
  | es_event_type_t.ES_EVENT_TYPE_AUTH_SETOWNER | es_event_type_t.ES_EVENT_TYPE_NOTIFY_SETOWNER =>
    (on_setowner s e.setowner.target e.setowner.uid e.setowner.gid, none)
  | es_event_type_t.ES_EVENT_TYPE_AUTH_SETTIME | es_event_type_t.ES_EVENT_TYPE_NOTIFY_SETTIME =>
    (on_settime s e.settime, none)
  | es_event_type_t.ES_EVENT_TYPE_AUTH_SIGNAL | es_event_type_t.ES_EVENT_TYPE_NOTIFY_SIGNAL =>
    (on_signal env s e.signal.target e.signal.sig, none)
  | es_event_type_t.ES_EVENT_TYPE_NOTIFY_STAT =>
    (on_stat s e.stat.target, none)
  | es_event_type_t.ES_EVENT_TYPE_AUTH_TRUNCATE | es_event_type_t.ES_EVENT_TYPE_NOTIFY_TRUNCATE =>
    (on_truncate s e.truncate.target, none)
  | es_event_type_t.ES_EVENT_TYPE_AUTH_UIPC_BIND | es_event_type_t.ES_EVENT_TYPE_NOTIFY_UIPC_BIND =>
    (on_uipc_bind s e.uipc_bind.dir e.uipc_bind.filename e.uipc_bind.mode, none)
  | es_event_type_t.ES_EVENT_TYPE_AUTH_UIPC_CONNECT | es_event_type_t.ES_EVENT_TYPE_NOTIFY_UIPC_CONNECT =>
    (on_uipc_connect s e.uipc_connect.file e.uipc_connect.domain e.uipc_connect.type
      e.uipc_connect.protocol, none)
  | es_event_type_t.ES_EVENT_TYPE_AUTH_UNLINK | es_event_type_t.ES_EVENT_TYPE_NOTIFY_UNLINK =>
    (on_unlink s e.unlink.target, none)
  | es_event_type_t.ES_EVENT_TYPE_NOTIFY_UNMOUNT =>
    (on_unmount s e.unmount.statfs, none)
  | es_event_type_t.ES_EVENT_TYPE_AUTH_UTIMES | es_event_type_t.ES_EVENT_TYPE_NOTIFY_UTIMES =>
    (on_utimes env s e.utimes.target e.utimes.mtime e.utimes.atime, none)
  | es_event_type_t.ES_EVENT_TYPE_NOTIFY_WRITE =>
    (on_write s e.write.target, none)
  | _ => (s, some "on_event() received unhandled event")

/-- The method `EndpointSecurity::on_event`. -/
def on_event (env : Env) (s : EndpointSecurityImpl) (message : es_message_t) : Outcome :=
  let pid := audit_token_to_pid message.process.audit_token
  let mute : List Effect := [Effect.es_mute_process message.process.audit_token]
  if pid = env.getpid then { impl := s, effects := mute }
  else
    let s := { s with event := fillEvent env s.event message pid }
    if s.event.process_executable = "/Applications/Xcode.app/Contents/Developer/usr/bin/lldb" then
      { impl := s, effects := mute }
    else if s.event.process_executable = "/System/Library/Frameworks/CoreServices.framework/Versions/A/Frameworks/Metadata.framework/Versions/A/Support/mdbulkimport" then
      { impl := s, effects := mute }
    else if s.event.process_executable = "/System/Library/Frameworks/CoreServices.framework/Versions/A/Frameworks/Metadata.framework/Versions/A/Support/mds" then
      { impl := s, effects := mute }
    else if s.event.process_executable = "/usr/sbin/bluetoothd" then
      { impl := s, effects := mute }
    else if s.event.process_executable = "/usr/libexec/airportd" then
      { impl := s, effects := mute }
    else if s.event.process_executable = "/usr/libexec/lsd" then
      { impl := s, effects := mute }
    else
      let r := dispatch env s pid message.event_type message.event
      match r.2 with
      | some err => { impl := r.1, error := some err }
      | none =>
        if r.1.monitoredProcessPath = "" ∨ (mapFind r.1.monitoredProcesses pid).isSome then
          { impl := r.1, effects := [Effect.reportfunc r.1.event] }
        else { impl := r.1 }

/-- The block `EndpointSecurity::create` hands to `es_new_client`: it runs `on_event` and then
answers a message of action type AUTH. An exception of `on_event` leaves the block at once. -/
def handler (env : Env) (s : EndpointSecurityImpl) (message : es_message_t) : Outcome :=
  let r := on_event env s message
  match r.error with
  | some _ => r
  | none =>
    match message.action_type with
    | es_action_type_t.ES_ACTION_TYPE_AUTH =>
      match message.event_type with
      | es_event_type_t.ES_EVENT_TYPE_AUTH_OPEN =>
        { impl := r.impl
          effects := r.effects ++ [Effect.es_respond_flags_result message 2147483647 true]
          error := if env.respond_flags_code message ≠ 0 then
            some "Failed to respond to event: es_respond_auth_result() failed" else none }
      | _ =>
        { impl := r.impl
          effects := r.effects ++ [Effect.es_respond_auth_result message
            es_auth_result_t.ES_AUTH_RESULT_ALLOW true]
          error := if env.respond_auth_code message ≠ 0 then
            some "Failed to respond to event: es_respond_auth_result() failed" else none }
    | es_action_type_t.ES_ACTION_TYPE_NOTIFY => r

/-- The events of a run: the state and the effects after handling the messages in order; the
run stops at the first exception. -/
def run (env : Env) : EndpointSecurityImpl → List es_message_t → Outcome
  | s, [] => { impl := s }
  | s, m :: rest =>
    let r := handler env s m
    match r.error with
    | some _ => r
    | none =>
      let r2 := run env r.impl rest
      { impl := r2.impl, effects := r.effects ++ r2.effects, error := r2.error }

/-- The pid `getEsProcess` writes for a descriptor: the pid of its audit token, and the sentinel
`-1` when the descriptor is absent. -/
def recordedPid (process : Option es_process_t) : Int :=
  match process with
  | some p => audit_token_to_pid p.audit_token
  | none => -1

/-- Whether an event type is one of the two exec types. -/
def es_event_type_t.isExec : es_event_type_t → Bool
  | es_event_type_t.ES_EVENT_TYPE_AUTH_EXEC | es_event_type_t.ES_EVENT_TYPE_NOTIFY_EXEC => true
  | _ => false

/-- Whether an event type is the fork type. -/
def es_event_type_t.isFork : es_event_type_t → Bool
  | es_event_type_t.ES_EVENT_TYPE_NOTIFY_FORK => true
  | _ => false

/-- Whether an event type is the exit type. -/
def es_event_type_t.isExit : es_event_type_t → Bool
  | es_event_type_t.ES_EVENT_TYPE_NOTIFY_EXIT => true
  | _ => false

/-- The six executable paths `on_event` compares the reporting executable with: lldb,
mdbulkimport, mds, bluetoothd, airportd, lsd. -/
def denyList : List String :=
  [ "/Applications/Xcode.app/Contents/Developer/usr/bin/lldb",
    "/System/Library/Frameworks/CoreServices.framework/Versions/A/Frameworks/Metadata.framework/Versions/A/Support/mdbulkimport",
    "/System/Library/Frameworks/CoreServices.framework/Versions/A/Frameworks/Metadata.framework/Versions/A/Support/mds",
    "/usr/sbin/bluetoothd",
    "/usr/libexec/airportd",
    "/usr/libexec/lsd" ]

/-- The condition under which the suppression filter discards a message: the reporting pid is
the agent's own pid, or the reporting executable path equals a deny-listed path. -/
def suppressed (env : Env) (message : es_message_t) : Prop :=
  audit_token_to_pid message.process.audit_token = env.getpid ∨
    getEsFile message.process.executable ∈ denyList

/-- The state in which the dispatch switch starts: the reused event filled from the envelope. -/
def filled (env : Env) (s : EndpointSecurityImpl) (message : es_message_t) :
    EndpointSecurityImpl :=
  { s with event := fillEvent env s.event message (audit_token_to_pid message.process.audit_token) }

/-- The allow response the handler sends for a message: the flags form with all flags for
`ES_EVENT_TYPE_AUTH_OPEN`, the generic allow result for every other type; both cached. -/
def allowResponse (message : es_message_t) : Effect :=
  match message.event_type with
  | es_event_type_t.ES_EVENT_TYPE_AUTH_OPEN =>
    Effect.es_respond_flags_result message 2147483647 true
  | _ => Effect.es_respond_auth_result message es_auth_result_t.ES_AUTH_RESULT_ALLOW true

instance (env : Env) (message : es_message_t) : Decidable (suppressed env message) :=
  inferInstanceAs (Decidable (_ ∨ _))

/-! ## Concrete inputs -/

/-- A file with the given path. -/
def exFile (p : String) : Option es_file_t := some { path := { length := p.length, data := p } }

/-- A process with the given pid and executable path. -/
def exProcess (pid : Nat) (exe : String) : es_process_t :=
  { audit_token := { pid := pid }, executable := exFile exe }

/-- An environment in which the agent has pid 4242. -/
def exEnv : Env := { getpid := 4242 }

/-- The state of an agent started without a filter. -/
def exState : EndpointSecurityImpl := {}

/-- The state of an agent started with the filter `/opt/app`. -/
def exFilterState : EndpointSecurityImpl := { monitoredProcessPath := "/opt/app" }

/-- The state of an agent with the filter `/opt/app` that tracks pid 100. -/
def exTrackedState : EndpointSecurityImpl :=
  { monitoredProcessPath := "/opt/app", monitoredProcesses := [(100, 1)] }

/-- The payload of an open of `/tmp/x` with flags read and create. -/
def exOpenPayload : es_events_t := { open_ := { file := exFile "/tmp/x", fflag := 513 } }

/-- An auth open of `/tmp/x` by pid 50. -/
def exAuthOpen : es_message_t :=
  { process := exProcess 50 "/bin/cat", action_type := es_action_type_t.ES_ACTION_TYPE_AUTH,
    event_type := es_event_type_t.ES_EVENT_TYPE_AUTH_OPEN, event := exOpenPayload }

/-- An auth message whose event type the dispatch switch does not name. -/
def exAuthUnknown : es_message_t :=
  { process := exProcess 50 "/bin/cat", action_type := es_action_type_t.ES_ACTION_TYPE_AUTH,
    event_type := es_event_type_t.OTHER 9999 }

/-- An auth open of `/tmp/x` by the agent itself (pid 4242). -/
def exAuthOpenSelf : es_message_t :=
  { process := exProcess 4242 "/usr/local/bin/maxprocmond",
    action_type := es_action_type_t.ES_ACTION_TYPE_AUTH,
    event_type := es_event_type_t.ES_EVENT_TYPE_AUTH_OPEN, event := exOpenPayload }

/-- A notify fork reported by the deny-listed `/usr/libexec/lsd` (pid 100). -/
def exForkByLsd : es_message_t :=
  { process := exProcess 100 "/usr/libexec/lsd",
    event_type := es_event_type_t.ES_EVENT_TYPE_NOTIFY_FORK,
    event := { fork := { child := some (exProcess 101 "/usr/libexec/lsd") } } }

/-- The payload of an exec whose target is pid 100 running `/opt/app/bin`. -/
def exExecPayload : es_event_exec_t :=
  { target := some (exProcess 100 "/opt/app/bin"),
    args := [{ length := 3, data := "bin" }] }

/-- The payload of an exec whose target is pid 200 running `/opt/app2/bin`. -/
def exExecPayload2 : es_event_exec_t := { target := some (exProcess 200 "/opt/app2/bin") }

/-- A notify exec, reported by pid 50, of `/opt/app/bin` as pid 100. -/
def exExec : es_message_t :=
  { process := exProcess 50 "/bin/sh", event_type := es_event_type_t.ES_EVENT_TYPE_NOTIFY_EXEC,
    event := { exec := exExecPayload } }

/-- A notify fork reported by pid 100 whose child descriptor is absent. -/
def exForkAbsent : es_message_t :=
  { process := exProcess 100 "/opt/app/bin",
    event_type := es_event_type_t.ES_EVENT_TYPE_NOTIFY_FORK,
    event := { fork := { child := none } } }

/-- A notify exit reported by pid 100 with normal exit status 0. -/
def exExit : es_message_t :=
  { process := exProcess 100 "/opt/app/bin",
    event_type := es_event_type_t.ES_EVENT_TYPE_NOTIFY_EXIT, event := { exit := { stat := 0 } } }

/-- A notify open of `/tmp/x` by pid 100. -/
def exNotifyOpen : es_message_t :=
  { process := exProcess 100 "/opt/app/bin",
    event_type := es_event_type_t.ES_EVENT_TYPE_NOTIFY_OPEN, event := exOpenPayload }

/-! ## Ghost views of `getBitmask` and of the argument rendering -/

/-- The table entries whose names the loop of `getBitmask` appends, in the order it visits them:
an entry is taken when the value, as the earlier entries left it, shares a bit with its key, and
the key is then XORed into the value. -/
def getBitmaskSelected : List (Nat × String) → Nat → List (Nat × String)
  | [], _ => []
  | (key, name) :: rest, value =>
    if value &&& key ≠ 0 then (key, name) :: getBitmaskSelected rest (value ^^^ key)
    else getBitmaskSelected rest value

/-- The value left when the loop of `getBitmask` ends: the number of the residual marker. -/
def getBitmaskResidual (map : List (Nat × String)) (value : Nat) : Nat :=
  (getBitmaskLoop map value "").1

/-- The OR of the keys of some table entries. -/
def orKeys (l : List (Nat × String)) : Nat := l.foldr (fun e acc => e.1 ||| acc) 0

/-- The XOR of the keys of some table entries. -/
def xorKeys (l : List (Nat × String)) : Nat := l.foldr (fun e acc => e.1 ^^^ acc) 0

/-- The key order of `std::map<unsigned int, const char *>`. -/
def natLt (a b : Nat) : Bool := decide (a < b)

/-- A table of three single-bit flags. -/
def exFlagTable : List (Nat × String) := [(1, "FREAD"), (2, "FWRITE"), (512, "O_CREAT")]

/-! ## The table of supported events (`esmain.cpp`) -/

/-- The insertion `m.insert({k, v})`: an entry whose key is already present is left alone. -/
def mapInsert {α β : Type} [DecidableEq α] (lt : α → α → Bool) :
    List (α × β) → α → β → List (α × β)
  | [], k, v => [(k, v)]
  | (k', v') :: t, k, v =>
    if k' = k then (k', v') :: t
    else if lt k k' then (k, v) :: (k', v') :: t
    else (k', v') :: mapInsert lt t k v

/-- The initializer list of `supportedEvents`, in source order: the name, the notify type, and
the auth type or `ES_EVENT_TYPE_LAST` when there is no auth event. -/
def supportedEventsInit : List (String × (es_event_type_t × es_event_type_t)) :=
  [
    ("access", (es_event_type_t.ES_EVENT_TYPE_NOTIFY_ACCESS, es_event_type_t.ES_EVENT_TYPE_LAST)),
    ("chdir", (es_event_type_t.ES_EVENT_TYPE_NOTIFY_CHDIR, es_event_type_t.ES_EVENT_TYPE_AUTH_CHDIR)),
    ("chroot", (es_event_type_t.ES_EVENT_TYPE_NOTIFY_CHROOT, es_event_type_t.ES_EVENT_TYPE_AUTH_CHROOT)),
    ("clone", (es_event_type_t.ES_EVENT_TYPE_NOTIFY_CLONE, es_event_type_t.ES_EVENT_TYPE_AUTH_CLONE)),
    ("close", (es_event_type_t.ES_EVENT_TYPE_NOTIFY_CLOSE, es_event_type_t.ES_EVENT_TYPE_LAST)),
    ("create", (es_event_type_t.ES_EVENT_TYPE_NOTIFY_CREATE, es_event_type_t.ES_EVENT_TYPE_AUTH_CREATE)),
    ("deleteextattr", (es_event_type_t.ES_EVENT_TYPE_NOTIFY_DELETEEXTATTR, es_event_type_t.ES_EVENT_TYPE_AUTH_DELETEEXTATTR)),
    ("dup", (es_event_type_t.ES_EVENT_TYPE_NOTIFY_DUP, es_event_type_t.ES_EVENT_TYPE_LAST)),
    ("exchangedata", (es_event_type_t.ES_EVENT_TYPE_NOTIFY_EXCHANGEDATA, es_event_type_t.ES_EVENT_TYPE_AUTH_EXCHANGEDATA)),
    ("exec", (es_event_type_t.ES_EVENT_TYPE_NOTIFY_EXEC, es_event_type_t.ES_EVENT_TYPE_AUTH_EXEC)),
    ("exit", (es_event_type_t.ES_EVENT_TYPE_NOTIFY_EXIT, es_event_type_t.ES_EVENT_TYPE_LAST)),
    ("fcntl", (es_event_type_t.ES_EVENT_TYPE_NOTIFY_FCNTL, es_event_type_t.ES_EVENT_TYPE_AUTH_FCNTL)),
    ("file_provider_materialize", (es_event_type_t.ES_EVENT_TYPE_NOTIFY_FILE_PROVIDER_MATERIALIZE, es_event_type_t.ES_EVENT_TYPE_AUTH_FILE_PROVIDER_MATERIALIZE)),
    ("file_provider_update", (es_event_type_t.ES_EVENT_TYPE_NOTIFY_FILE_PROVIDER_UPDATE, es_event_type_t.ES_EVENT_TYPE_AUTH_FILE_PROVIDER_UPDATE)),
    ("fork", (es_event_type_t.ES_EVENT_TYPE_NOTIFY_FORK, es_event_type_t.ES_EVENT_TYPE_LAST)),
    ("fsgetpath", (es_event_type_t.ES_EVENT_TYPE_NOTIFY_FSGETPATH, es_event_type_t.ES_EVENT_TYPE_AUTH_FSGETPATH)),
    ("getattrlist", (es_event_type_t.ES_EVENT_TYPE_NOTIFY_GETATTRLIST, es_event_type_t.ES_EVENT_TYPE_AUTH_GETATTRLIST)),
    ("getextattr", (es_event_type_t.ES_EVENT_TYPE_NOTIFY_GETEXTATTR, es_event_type_t.ES_EVENT_TYPE_AUTH_GETEXTATTR)),
    ("get_task", (es_event_type_t.ES_EVENT_TYPE_NOTIFY_GET_TASK, es_event_type_t.ES_EVENT_TYPE_AUTH_GET_TASK)),
    ("iokit_open", (es_event_type_t.ES_EVENT_TYPE_NOTIFY_IOKIT_OPEN, es_event_type_t.ES_EVENT_TYPE_AUTH_IOKIT_OPEN)),
    ("kextload", (es_event_type_t.ES_EVENT_TYPE_NOTIFY_KEXTLOAD, es_event_type_t.ES_EVENT_TYPE_AUTH_KEXTLOAD)),
    ("kextunload", (es_event_type_t.ES_EVENT_TYPE_NOTIFY_KEXTUNLOAD, es_event_type_t.ES_EVENT_TYPE_LAST)),
    ("link", (es_event_type_t.ES_EVENT_TYPE_NOTIFY_LINK, es_event_type_t.ES_EVENT_TYPE_AUTH_LINK)),
    ("listextattr", (es_event_type_t.ES_EVENT_TYPE_NOTIFY_LISTEXTATTR, es_event_type_t.ES_EVENT_TYPE_AUTH_LISTEXTATTR)),
    ("lookup", (es_event_type_t.ES_EVENT_TYPE_NOTIFY_LOOKUP, es_event_type_t.ES_EVENT_TYPE_LAST)),
    ("mmap", (es_event_type_t.ES_EVENT_TYPE_NOTIFY_MMAP, es_event_type_t.ES_EVENT_TYPE_AUTH_MMAP)),
    ("mount", (es_event_type_t.ES_EVENT_TYPE_NOTIFY_MOUNT, es_event_type_t.ES_EVENT_TYPE_AUTH_MOUNT)),
    ("mprotect", (es_event_type_t.ES_EVENT_TYPE_NOTIFY_MPROTECT, es_event_type_t.ES_EVENT_TYPE_AUTH_MPROTECT)),
    ("open", (es_event_type_t.ES_EVENT_TYPE_NOTIFY_OPEN, es_event_type_t.ES_EVENT_TYPE_AUTH_OPEN)),
    ("proc_check", (es_event_type_t.ES_EVENT_TYPE_NOTIFY_PROC_CHECK, es_event_type_t.ES_EVENT_TYPE_AUTH_PROC_CHECK)),
    ("pty_close", (es_event_type_t.ES_EVENT_TYPE_NOTIFY_PTY_CLOSE, es_event_type_t.ES_EVENT_TYPE_LAST)),
    ("pty_grant", (es_event_type_t.ES_EVENT_TYPE_NOTIFY_PTY_GRANT, es_event_type_t.ES_EVENT_TYPE_LAST)),
    ("readdir", (es_event_type_t.ES_EVENT_TYPE_NOTIFY_READDIR, es_event_type_t.ES_EVENT_TYPE_AUTH_READDIR)),
    ("readlink", (es_event_type_t.ES_EVENT_TYPE_NOTIFY_READLINK, es_event_type_t.ES_EVENT_TYPE_AUTH_READLINK)),
    ("rename", (es_event_type_t.ES_EVENT_TYPE_NOTIFY_RENAME, es_event_type_t.ES_EVENT_TYPE_AUTH_RENAME)),
    ("setacl", (es_event_type_t.ES_EVENT_TYPE_NOTIFY_SETACL, es_event_type_t.ES_EVENT_TYPE_AUTH_SETACL)),
    ("setattrlist", (es_event_type_t.ES_EVENT_TYPE_NOTIFY_SETATTRLIST, es_event_type_t.ES_EVENT_TYPE_AUTH_SETATTRLIST)),
    ("setextattr", (es_event_type_t.ES_EVENT_TYPE_NOTIFY_SETEXTATTR, es_event_type_t.ES_EVENT_TYPE_AUTH_SETEXTATTR)),
    ("setflags", (es_event_type_t.ES_EVENT_TYPE_NOTIFY_SETFLAGS, es_event_type_t.ES_EVENT_TYPE_AUTH_SETFLAGS)),
    ("setmode", (es_event_type_t.ES_EVENT_TYPE_NOTIFY_SETMODE, es_event_type_t.ES_EVENT_TYPE_AUTH_SETMODE)),
    ("setowner", (es_event_type_t.ES_EVENT_TYPE_NOTIFY_SETOWNER, es_event_type_t.ES_EVENT_TYPE_AUTH_SETOWNER)),
    ("settime", (es_event_type_t.ES_EVENT_TYPE_NOTIFY_SETTIME, es_event_type_t.ES_EVENT_TYPE_AUTH_SETTIME)),
    ("signal", (es_event_type_t.ES_EVENT_TYPE_NOTIFY_SIGNAL, es_event_type_t.ES_EVENT_TYPE_AUTH_SIGNAL)),
    ("stat", (es_event_type_t.ES_EVENT_TYPE_NOTIFY_STAT, es_event_type_t.ES_EVENT_TYPE_LAST)),
    ("truncate", (es_event_type_t.ES_EVENT_TYPE_NOTIFY_TRUNCATE, es_event_type_t.ES_EVENT_TYPE_AUTH_TRUNCATE)),
    ("uipc_bind", (es_event_type_t.ES_EVENT_TYPE_NOTIFY_UIPC_BIND, es_event_type_t.ES_EVENT_TYPE_AUTH_UIPC_BIND)),
    ("uipc_connect", (es_event_type_t.ES_EVENT_TYPE_NOTIFY_UIPC_CONNECT, es_event_type_t.ES_EVENT_TYPE_AUTH_UIPC_CONNECT)),
    ("unlink", (es_event_type_t.ES_EVENT_TYPE_NOTIFY_UNLINK, es_event_type_t.ES_EVENT_TYPE_AUTH_UNLINK)),
    ("unmount", (es_event_type_t.ES_EVENT_TYPE_NOTIFY_UNMOUNT, es_event_type_t.ES_EVENT_TYPE_LAST)),
    ("utimes", (es_event_type_t.ES_EVENT_TYPE_NOTIFY_UTIMES, es_event_type_t.ES_EVENT_TYPE_AUTH_UTIMES)),
    ("write", (es_event_type_t.ES_EVENT_TYPE_NOTIFY_WRITE, es_event_type_t.ES_EVENT_TYPE_LAST)) ]

/-- The map `supportedEvents`: the initializer list inserted entry by entry. -/
def supportedEvents : List (String × (es_event_type_t × es_event_type_t)) :=
  supportedEventsInit.foldl (fun m e => mapInsert strLt m e.1 e.2) []

/-- Whether an event type is the placeholder `ES_EVENT_TYPE_LAST`. -/
def es_event_type_t.isLast : es_event_type_t → Bool
  | es_event_type_t.ES_EVENT_TYPE_LAST => true
  | _ => false

/-- Whether an event type is one of the case labels of the dispatch switch of `on_event`. -/
def es_event_type_t.handledBySwitch : es_event_type_t → Bool
  | es_event_type_t.ES_EVENT_TYPE_NOTIFY_ACCESS
  | es_event_type_t.ES_EVENT_TYPE_AUTH_CHDIR | es_event_type_t.ES_EVENT_TYPE_NOTIFY_CHDIR
  | es_event_type_t.ES_EVENT_TYPE_AUTH_CHROOT | es_event_type_t.ES_EVENT_TYPE_NOTIFY_CHROOT
  | es_event_type_t.ES_EVENT_TYPE_AUTH_CLONE | es_event_type_t.ES_EVENT_TYPE_NOTIFY_CLONE
  | es_event_type_t.ES_EVENT_TYPE_NOTIFY_CLOSE
  | es_event_type_t.ES_EVENT_TYPE_AUTH_CREATE | es_event_type_t.ES_EVENT_TYPE_NOTIFY_CREATE
  | es_event_type_t.ES_EVENT_TYPE_AUTH_DELETEEXTATTR | es_event_type_t.ES_EVENT_TYPE_NOTIFY_DELETEEXTATTR
  | es_event_type_t.ES_EVENT_TYPE_NOTIFY_DUP
  | es_event_type_t.ES_EVENT_TYPE_AUTH_EXCHANGEDATA | es_event_type_t.ES_EVENT_TYPE_NOTIFY_EXCHANGEDATA
  | es_event_type_t.ES_EVENT_TYPE_AUTH_EXEC | es_event_type_t.ES_EVENT_TYPE_NOTIFY_EXEC
  | es_event_type_t.ES_EVENT_TYPE_NOTIFY_EXIT
  | es_event_type_t.ES_EVENT_TYPE_AUTH_FCNTL | es_event_type_t.ES_EVENT_TYPE_NOTIFY_FCNTL
  | es_event_type_t.ES_EVENT_TYPE_AUTH_FILE_PROVIDER_MATERIALIZE | es_event_type_t.ES_EVENT_TYPE_NOTIFY_FILE_PROVIDER_MATERIALIZE
  | es_event_type_t.ES_EVENT_TYPE_AUTH_FILE_PROVIDER_UPDATE | es_event_type_t.ES_EVENT_TYPE_NOTIFY_FILE_PROVIDER_UPDATE
  | es_event_type_t.ES_EVENT_TYPE_NOTIFY_FORK
  | es_event_type_t.ES_EVENT_TYPE_AUTH_FSGETPATH | es_event_type_t.ES_EVENT_TYPE_NOTIFY_FSGETPATH
  | es_event_type_t.ES_EVENT_TYPE_AUTH_GETATTRLIST | es_event_type_t.ES_EVENT_TYPE_NOTIFY_GETATTRLIST
  | es_event_type_t.ES_EVENT_TYPE_AUTH_GETEXTATTR | es_event_type_t.ES_EVENT_TYPE_NOTIFY_GETEXTATTR
  | es_event_type_t.ES_EVENT_TYPE_AUTH_GET_TASK | es_event_type_t.ES_EVENT_TYPE_NOTIFY_GET_TASK
  | es_event_type_t.ES_EVENT_TYPE_AUTH_IOKIT_OPEN | es_event_type_t.ES_EVENT_TYPE_NOTIFY_IOKIT_OPEN
  | es_event_type_t.ES_EVENT_TYPE_AUTH_KEXTLOAD | es_event_type_t.ES_EVENT_TYPE_NOTIFY_KEXTLOAD
  | es_event_type_t.ES_EVENT_TYPE_NOTIFY_KEXTUNLOAD
  | es_event_type_t.ES_EVENT_TYPE_AUTH_LINK | es_event_type_t.ES_EVENT_TYPE_NOTIFY_LINK
  | es_event_type_t.ES_EVENT_TYPE_AUTH_LISTEXTATTR | es_event_type_t.ES_EVENT_TYPE_NOTIFY_LISTEXTATTR
  | es_event_type_t.ES_EVENT_TYPE_NOTIFY_LOOKUP
  | es_event_type_t.ES_EVENT_TYPE_AUTH_MMAP | es_event_type_t.ES_EVENT_TYPE_NOTIFY_MMAP
  | es_event_type_t.ES_EVENT_TYPE_AUTH_MOUNT | es_event_type_t.ES_EVENT_TYPE_NOTIFY_MOUNT
  | es_event_type_t.ES_EVENT_TYPE_AUTH_MPROTECT | es_event_type_t.ES_EVENT_TYPE_NOTIFY_MPROTECT
  | es_event_type_t.ES_EVENT_TYPE_AUTH_OPEN | es_event_type_t.ES_EVENT_TYPE_NOTIFY_OPEN
  | es_event_type_t.ES_EVENT_TYPE_AUTH_PROC_CHECK | es_event_type_t.ES_EVENT_TYPE_NOTIFY_PROC_CHECK
  | es_event_type_t.ES_EVENT_TYPE_NOTIFY_PTY_CLOSE
  | es_event_type_t.ES_EVENT_TYPE_NOTIFY_PTY_GRANT
  | es_event_type_t.ES_EVENT_TYPE_AUTH_READDIR | es_event_type_t.ES_EVENT_TYPE_NOTIFY_READDIR
  | es_event_type_t.ES_EVENT_TYPE_AUTH_READLINK | es_event_type_t.ES_EVENT_TYPE_NOTIFY_READLINK
  | es_event_type_t.ES_EVENT_TYPE_AUTH_RENAME | es_event_type_t.ES_EVENT_TYPE_NOTIFY_RENAME
  | es_event_type_t.ES_EVENT_TYPE_AUTH_SETACL | es_event_type_t.ES_EVENT_TYPE_NOTIFY_SETACL
  | es_event_type_t.ES_EVENT_TYPE_AUTH_SETATTRLIST | es_event_type_t.ES_EVENT_TYPE_NOTIFY_SETATTRLIST
  | es_event_type_t.ES_EVENT_TYPE_AUTH_SETEXTATTR | es_event_type_t.ES_EVENT_TYPE_NOTIFY_SETEXTATTR
  | es_event_type_t.ES_EVENT_TYPE_AUTH_SETFLAGS | es_event_type_t.ES_EVENT_TYPE_NOTIFY_SETFLAGS
  | es_event_type_t.ES_EVENT_TYPE_AUTH_SETMODE | es_event_type_t.ES_EVENT_TYPE_NOTIFY_SETMODE
  | es_event_type_t.ES_EVENT_TYPE_AUTH_SETOWNER | es_event_type_t.ES_EVENT_TYPE_NOTIFY_SETOWNER
  | es_event_type_t.ES_EVENT_TYPE_AUTH_SETTIME | es_event_type_t.ES_EVENT_TYPE_NOTIFY_SETTIME
  | es_event_type_t.ES_EVENT_TYPE_AUTH_SIGNAL | es_event_type_t.ES_EVENT_TYPE_NOTIFY_SIGNAL
  | es_event_type_t.ES_EVENT_TYPE_NOTIFY_STAT
  | es_event_type_t.ES_EVENT_TYPE_AUTH_TRUNCATE | es_event_type_t.ES_EVENT_TYPE_NOTIFY_TRUNCATE
  | es_event_type_t.ES_EVENT_TYPE_AUTH_UIPC_BIND | es_event_type_t.ES_EVENT_TYPE_NOTIFY_UIPC_BIND
  | es_event_type_t.ES_EVENT_TYPE_AUTH_UIPC_CONNECT | es_event_type_t.ES_EVENT_TYPE_NOTIFY_UIPC_CONNECT
  | es_event_type_t.ES_EVENT_TYPE_AUTH_UNLINK | es_event_type_t.ES_EVENT_TYPE_NOTIFY_UNLINK
  | es_event_type_t.ES_EVENT_TYPE_NOTIFY_UNMOUNT
  | es_event_type_t.ES_EVENT_TYPE_AUTH_UTIMES | es_event_type_t.ES_EVENT_TYPE_NOTIFY_UTIMES
  | es_event_type_t.ES_EVENT_TYPE_NOTIFY_WRITE => true
  | _ => false

/-- The name of the decoder the dispatch switch calls for an event type (`on_<name>`), the empty
string for a type the switch does not name. -/
def es_event_type_t.decoderName : es_event_type_t → String
  | es_event_type_t.ES_EVENT_TYPE_NOTIFY_ACCESS => "access"
  | es_event_type_t.ES_EVENT_TYPE_AUTH_CHDIR | es_event_type_t.ES_EVENT_TYPE_NOTIFY_CHDIR => "chdir"
  | es_event_type_t.ES_EVENT_TYPE_AUTH_CHROOT | es_event_type_t.ES_EVENT_TYPE_NOTIFY_CHROOT => "chroot"
  | es_event_type_t.ES_EVENT_TYPE_AUTH_CLONE | es_event_type_t.ES_EVENT_TYPE_NOTIFY_CLONE => "clone"
  | es_event_type_t.ES_EVENT_TYPE_NOTIFY_CLOSE => "close"
  | es_event_type_t.ES_EVENT_TYPE_AUTH_CREATE | es_event_type_t.ES_EVENT_TYPE_NOTIFY_CREATE => "create"
  | es_event_type_t.ES_EVENT_TYPE_AUTH_DELETEEXTATTR | es_event_type_t.ES_EVENT_TYPE_NOTIFY_DELETEEXTATTR => "deleteextattr"
  | es_event_type_t.ES_EVENT_TYPE_NOTIFY_DUP => "dup"
  | es_event_type_t.ES_EVENT_TYPE_AUTH_EXCHANGEDATA | es_event_type_t.ES_EVENT_TYPE_NOTIFY_EXCHANGEDATA => "exchangedata"
  | es_event_type_t.ES_EVENT_TYPE_AUTH_EXEC | es_event_type_t.ES_EVENT_TYPE_NOTIFY_EXEC => "exec"
  | es_event_type_t.ES_EVENT_TYPE_NOTIFY_EXIT => "exit"
  | es_event_type_t.ES_EVENT_TYPE_AUTH_FCNTL | es_event_type_t.ES_EVENT_TYPE_NOTIFY_FCNTL => "fcntl"
  | es_event_type_t.ES_EVENT_TYPE_AUTH_FILE_PROVIDER_MATERIALIZE | es_event_type_t.ES_EVENT_TYPE_NOTIFY_FILE_PROVIDER_MATERIALIZE => "file_provider_materialize"
  | es_event_type_t.ES_EVENT_TYPE_AUTH_FILE_PROVIDER_UPDATE | es_event_type_t.ES_EVENT_TYPE_NOTIFY_FILE_PROVIDER_UPDATE => "file_provider_update"
  | es_event_type_t.ES_EVENT_TYPE_NOTIFY_FORK => "fork"
  | es_event_type_t.ES_EVENT_TYPE_AUTH_FSGETPATH | es_event_type_t.ES_EVENT_TYPE_NOTIFY_FSGETPATH => "fsgetpath"
  | es_event_type_t.ES_EVENT_TYPE_AUTH_GETATTRLIST | es_event_type_t.ES_EVENT_TYPE_NOTIFY_GETATTRLIST => "getattrlist"
  | es_event_type_t.ES_EVENT_TYPE_AUTH_GETEXTATTR | es_event_type_t.ES_EVENT_TYPE_NOTIFY_GETEXTATTR => "getextattr"
  | es_event_type_t.ES_EVENT_TYPE_AUTH_GET_TASK | es_event_type_t.ES_EVENT_TYPE_NOTIFY_GET_TASK => "get_task"
  | es_event_type_t.ES_EVENT_TYPE_AUTH_IOKIT_OPEN | es_event_type_t.ES_EVENT_TYPE_NOTIFY_IOKIT_OPEN => "iokit_open"
  | es_event_type_t.ES_EVENT_TYPE_AUTH_KEXTLOAD | es_event_type_t.ES_EVENT_TYPE_NOTIFY_KEXTLOAD => "kextload"
  | es_event_type_t.ES_EVENT_TYPE_NOTIFY_KEXTUNLOAD => "kextunload"
  | es_event_type_t.ES_EVENT_TYPE_AUTH_LINK | es_event_type_t.ES_EVENT_TYPE_NOTIFY_LINK => "link"
  | es_event_type_t.ES_EVENT_TYPE_AUTH_LISTEXTATTR | es_event_type_t.ES_EVENT_TYPE_NOTIFY_LISTEXTATTR => "listextattr"
  | es_event_type_t.ES_EVENT_TYPE_NOTIFY_LOOKUP => "lookup"
  | es_event_type_t.ES_EVENT_TYPE_AUTH_MMAP | es_event_type_t.ES_EVENT_TYPE_NOTIFY_MMAP => "mmap"
  | es_event_type_t.ES_EVENT_TYPE_AUTH_MOUNT | es_event_type_t.ES_EVENT_TYPE_NOTIFY_MOUNT => "mount"
  | es_event_type_t.ES_EVENT_TYPE_AUTH_MPROTECT | es_event_type_t.ES_EVENT_TYPE_NOTIFY_MPROTECT => "mprotect"
  | es_event_type_t.ES_EVENT_TYPE_AUTH_OPEN | es_event_type_t.ES_EVENT_TYPE_NOTIFY_OPEN => "open"
  | es_event_type_t.ES_EVENT_TYPE_AUTH_PROC_CHECK | es_event_type_t.ES_EVENT_TYPE_NOTIFY_PROC_CHECK => "proc_check"
  | es_event_type_t.ES_EVENT_TYPE_NOTIFY_PTY_CLOSE => "pty_close"
  | es_event_type_t.ES_EVENT_TYPE_NOTIFY_PTY_GRANT => "pty_grant"
  | es_event_type_t.ES_EVENT_TYPE_AUTH_READDIR | es_event_type_t.ES_EVENT_TYPE_NOTIFY_READDIR => "readdir"
  | es_event_type_t.ES_EVENT_TYPE_AUTH_READLINK | es_event_type_t.ES_EVENT_TYPE_NOTIFY_READLINK => "readlink"
  | es_event_type_t.ES_EVENT_TYPE_AUTH_RENAME | es_event_type_t.ES_EVENT_TYPE_NOTIFY_RENAME => "rename"
  | es_event_type_t.ES_EVENT_TYPE_AUTH_SETACL | es_event_type_t.ES_EVENT_TYPE_NOTIFY_SETACL => "setacl"
  | es_event_type_t.ES_EVENT_TYPE_AUTH_SETATTRLIST | es_event_type_t.ES_EVENT_TYPE_NOTIFY_SETATTRLIST => "setattrlist"
  | es_event_type_t.ES_EVENT_TYPE_AUTH_SETEXTATTR | es_event_type_t.ES_EVENT_TYPE_NOTIFY_SETEXTATTR => "setextattr"
  | es_event_type_t.ES_EVENT_TYPE_AUTH_SETFLAGS | es_event_type_t.ES_EVENT_TYPE_NOTIFY_SETFLAGS => "setflags"
  | es_event_type_t.ES_EVENT_TYPE_AUTH_SETMODE | es_event_type_t.ES_EVENT_TYPE_NOTIFY_SETMODE => "setmode"
  | es_event_type_t.ES_EVENT_TYPE_AUTH_SETOWNER | es_event_type_t.ES_EVENT_TYPE_NOTIFY_SETOWNER => "setowner"
  | es_event_type_t.ES_EVENT_TYPE_AUTH_SETTIME | es_event_type_t.ES_EVENT_TYPE_NOTIFY_SETTIME => "settime"
  | es_event_type_t.ES_EVENT_TYPE_AUTH_SIGNAL | es_event_type_t.ES_EVENT_TYPE_NOTIFY_SIGNAL => "signal"
  | es_event_type_t.ES_EVENT_TYPE_NOTIFY_STAT => "stat"
  | es_event_type_t.ES_EVENT_TYPE_AUTH_TRUNCATE | es_event_type_t.ES_EVENT_TYPE_NOTIFY_TRUNCATE => "truncate"
  | es_event_type_t.ES_EVENT_TYPE_AUTH_UIPC_BIND | es_event_type_t.ES_EVENT_TYPE_NOTIFY_UIPC_BIND => "uipc_bind"
  | es_event_type_t.ES_EVENT_TYPE_AUTH_UIPC_CONNECT | es_event_type_t.ES_EVENT_TYPE_NOTIFY_UIPC_CONNECT => "uipc_connect"
  | es_event_type_t.ES_EVENT_TYPE_AUTH_UNLINK | es_event_type_t.ES_EVENT_TYPE_NOTIFY_UNLINK => "unlink"
  | es_event_type_t.ES_EVENT_TYPE_NOTIFY_UNMOUNT => "unmount"
  | es_event_type_t.ES_EVENT_TYPE_AUTH_UTIMES | es_event_type_t.ES_EVENT_TYPE_NOTIFY_UTIMES => "utimes"
  | es_event_type_t.ES_EVENT_TYPE_NOTIFY_WRITE => "write"
  | _ => ""

/-- Whether an event type is one of the two create types. -/
def es_event_type_t.isCreate : es_event_type_t → Bool
  | es_event_type_t.ES_EVENT_TYPE_AUTH_CREATE | es_event_type_t.ES_EVENT_TYPE_NOTIFY_CREATE => true
  | _ => false

/-- Whether an event type is one of the two rename types. -/
def es_event_type_t.isRename : es_event_type_t → Bool
  | es_event_type_t.ES_EVENT_TYPE_AUTH_RENAME | es_event_type_t.ES_EVENT_TYPE_NOTIFY_RENAME => true
  | _ => false

/-- A notify create, reported by pid 50, whose destination is the existing file `/tmp/x`. -/
def exCreateExisting : es_message_t :=
  { process := exProcess 50 "/bin/cat",
    event_type := es_event_type_t.ES_EVENT_TYPE_NOTIFY_CREATE,
    event := { create := { destination_type := ES_DESTINATION_TYPE_EXISTING_FILE,
                           destination := { existing_file := exFile "/tmp/x" } } } }

/-- A notify create, reported by pid 50, whose destination tag is neither known variant. -/
def exCreateBadTag : es_message_t :=
  { process := exProcess 50 "/bin/cat",
    event_type := es_event_type_t.ES_EVENT_TYPE_NOTIFY_CREATE,
    event := { create := { destination_type := 7 } } }

/-- A state with its selective-tracking part replaced: the same event, another filter path and
tracked set. -/
def withTracker (s : EndpointSecurityImpl) (path : String) (mon : List (Int × Int)) :
    EndpointSecurityImpl :=
  { s with monitoredProcessPath := path, monitoredProcesses := mon }

/-! ## The argument rendering and the process keys, as the specification words them -/

/-- An argument with every double-quote character replaced by backslash + double quote. -/
def escapedArg (a : String) : String :=
  ⟨(a.data.map (fun c => if c = dquote then [backslash, dquote] else [c])).flatten⟩

/-- An argument escaped and wrapped in double quotes. -/
def quotedArg (a : String) : String :=
  String.singleton dquote ++ escapedArg a ++ String.singleton dquote

/-- The arguments, each escaped and quoted, joined by single spaces. -/
def renderedArgs (args : List String) : String := " ".intercalate (args.map quotedArg)

/-- The key suffixes under which `getEsProcess` writes a present descriptor. -/
def processInfoSuffixes : List String :=
  ["pid", "euid", "ruid", "rgid", "egid", "ppid", "oppid", "gid", "sid", "csflags",
    "csflags_desc", "is_platform_binary", "is_es_client", "signing_id", "team_id", "executable"]

/-- A notify proc_check reported by pid 50 whose target descriptor is absent. -/
def exProcCheckAbsent : es_message_t :=
  { process := exProcess 50 "/bin/ps",
    event_type := es_event_type_t.ES_EVENT_TYPE_NOTIFY_PROC_CHECK,
    event := { proc_check := { flavor := 2, target := none, type := 3 } } }

/-- A notify get_task reported by pid 50 whose target descriptor is absent. -/
def exGetTaskAbsent : es_message_t :=
  { process := exProcess 50 "/usr/bin/lldb",
    event_type := es_event_type_t.ES_EVENT_TYPE_NOTIFY_GET_TASK,
    event := { get_task := { target := none } } }

/-- A notify signal (15) reported by pid 50 whose target descriptor is absent. -/
def exSignalAbsent : es_message_t :=
  { process := exProcess 50 "/bin/kill",
    event_type := es_event_type_t.ES_EVENT_TYPE_NOTIFY_SIGNAL,
    event := { signal := { target := none, sig := 15 } } }

/-- The payload of an exec of `/bin/echo` with the arguments `echo` and `say "hi"`. -/
def exExecArgs : es_event_exec_t :=
  { target := some (exProcess 300 "/bin/echo"),
    args := [{ length := 4, data := "echo" },
             { length := 8, data := String.mk [Char.ofNat 115, Char.ofNat 97, Char.ofNat 121,
                 Char.ofNat 32, Char.ofNat 34, Char.ofNat 104, Char.ofNat 105, Char.ofNat 34] }] }

/-! ## The reporting callback (`esmain.cpp`) -/

/-- A call on the prepared `INSERT` statement of the sink. `sqlite3_bind_double` is recorded with
the value of the Record field it is given. -/
inductive SqliteCall
  | sqlite3_bind_text (column : Nat) (text : String)
  | sqlite3_bind_double (column : Nat) (value : Int)
  | sqlite3_step
  | sqlite3_reset
  deriving DecidableEq

/-- What one call of `event_callback` does: its calls on the statement, the text it writes to
`std::cout`, and the value it returns. -/
structure CallbackOutcome where
  calls : List SqliteCall
  cout : String
  result : Int

/-- The function `event_callback` (under its lock): the five columns are bound, the statement is
stepped and reset, and the record is printed. -/
def event_callback (event : Event) : CallbackOutcome :=
  let calls : List SqliteCall :=
    [ SqliteCall.sqlite3_bind_text 1 event.event,
      SqliteCall.sqlite3_bind_double 2 event.time_s,
      SqliteCall.sqlite3_bind_double 3 event.time_ns,
      SqliteCall.sqlite3_bind_text 4 event.process_executable,
      (if event.filename.length = 0 then SqliteCall.sqlite3_bind_text 5 "<missing>"
        else SqliteCall.sqlite3_bind_text 5 event.filename),
      SqliteCall.sqlite3_step,
      SqliteCall.sqlite3_reset ]
  let out := "event : " ++ event.event ++ "\n" ++ "  time: " ++ event.timestamp ++ "\n"
  let out := event.parameters.foldl (fun o k => o ++ "  " ++ k.1 ++ " : " ++ k.2 ++ "\n") out
  let out := out ++ " process:\n"
    ++ "        PID : " ++ to_string event.process_pid ++ "\n"
    ++ "       EUID : " ++ to_string_u event.process_euid ++ "\n"
    ++ "       EGID : " ++ to_string_u event.process_egid ++ "\n"
    ++ "       PPID : " ++ to_string event.process_ppid ++ "\n"
  let out := if event.process_ruid ≠ event.process_euid then
    out ++ "       RUID : " ++ to_string_u event.process_ruid ++ "\n" else out
  let out := if event.process_rgid ≠ event.process_egid then
    out ++ "       RGID : " ++ to_string_u event.process_rgid ++ "\n" else out
  let out := if event.process_oppid ≠ event.process_ppid then
    out ++ "      OPPID : " ++ to_string event.process_oppid ++ "\n" else out
  let out := out
    ++ "        GID : " ++ to_string event.process_gid ++ "\n"
    ++ "        SID : " ++ to_string event.process_sid ++ "\n"
    ++ "   threadid : " ++ to_string event.process_sid ++ "\n"
    ++ "       path : " ++ event.process_executable ++ "\n"
    ++ "    csflags : " ++ event.process_csflags_desc ++ "\n"
    ++ "    sign_id : " ++ event.process_signing_id ++ "\n"
    ++ "    started : " ++ event.process_start_time ++ "\n"
    ++ "      extra : " ++ (if event.process_is_platform_binary then "(platform_binary) " else "")
    ++ (if event.process_is_es_client then "(es_client) " else "") ++ "\n"
  let out := if event.process_team_id ≠ "" then
    out ++ "    team_id : " ++ event.process_team_id ++ "\n" else out
  { calls := calls, cout := out ++ "\n", result := 0 }

/-- The value `event_callback` binds to a text column, if it binds one. -/
def boundText (calls : List SqliteCall) (column : Nat) : Option String :=
  calls.findSome? (fun c =>
    match c with
    | SqliteCall.sqlite3_bind_text col text => if col = column then some text else none
    | _ => none)

/-- The value `event_callback` binds to a numeric column, if it binds one. -/
def boundDouble (calls : List SqliteCall) (column : Nat) : Option Int :=
  calls.findSome? (fun c =>
    match c with
    | SqliteCall.sqlite3_bind_double col value => if col = column then some value else none
    | _ => none)

/-! ## The `-e` option of `es_main` (`esmain.cpp`) -/

/-- A number that tells the enumerators apart, for the `==` of `std::find`: the position of the
enumerator in the declaration of `es_event_type_t` above (not the raw value of the framework),
and `91 + raw` for an unnamed enumerator. -/
def es_event_type_t.ordinal : es_event_type_t → Nat
  | es_event_type_t.ES_EVENT_TYPE_NOTIFY_ACCESS => 0
  | es_event_type_t.ES_EVENT_TYPE_AUTH_CHDIR => 1
  | es_event_type_t.ES_EVENT_TYPE_NOTIFY_CHDIR => 2
  | es_event_type_t.ES_EVENT_TYPE_AUTH_CHROOT => 3
  | es_event_type_t.ES_EVENT_TYPE_NOTIFY_CHROOT => 4
  | es_event_type_t.ES_EVENT_TYPE_AUTH_CLONE => 5
  | es_event_type_t.ES_EVENT_TYPE_NOTIFY_CLONE => 6
  | es_event_type_t.ES_EVENT_TYPE_NOTIFY_CLOSE => 7
  | es_event_type_t.ES_EVENT_TYPE_AUTH_CREATE => 8
  | es_event_type_t.ES_EVENT_TYPE_NOTIFY_CREATE => 9
  | es_event_type_t.ES_EVENT_TYPE_AUTH_DELETEEXTATTR => 10
  | es_event_type_t.ES_EVENT_TYPE_NOTIFY_DELETEEXTATTR => 11
  | es_event_type_t.ES_EVENT_TYPE_NOTIFY_DUP => 12
  | es_event_type_t.ES_EVENT_TYPE_AUTH_EXCHANGEDATA => 13
  | es_event_type_t.ES_EVENT_TYPE_NOTIFY_EXCHANGEDATA => 14
  | es_event_type_t.ES_EVENT_TYPE_AUTH_EXEC => 15
  | es_event_type_t.ES_EVENT_TYPE_NOTIFY_EXEC => 16
  | es_event_type_t.ES_EVENT_TYPE_NOTIFY_EXIT => 17
  | es_event_type_t.ES_EVENT_TYPE_AUTH_FCNTL => 18
  | es_event_type_t.ES_EVENT_TYPE_NOTIFY_FCNTL => 19
  | es_event_type_t.ES_EVENT_TYPE_AUTH_FILE_PROVIDER_MATERIALIZE => 20
  | es_event_type_t.ES_EVENT_TYPE_NOTIFY_FILE_PROVIDER_MATERIALIZE => 21
  | es_event_type_t.ES_EVENT_TYPE_AUTH_FILE_PROVIDER_UPDATE => 22
  | es_event_type_t.ES_EVENT_TYPE_NOTIFY_FILE_PROVIDER_UPDATE => 23
  | es_event_type_t.ES_EVENT_TYPE_NOTIFY_FORK => 24
  | es_event_type_t.ES_EVENT_TYPE_AUTH_FSGETPATH => 25
  | es_event_type_t.ES_EVENT_TYPE_NOTIFY_FSGETPATH => 26
  | es_event_type_t.ES_EVENT_TYPE_AUTH_GETATTRLIST => 27
  | es_event_type_t.ES_EVENT_TYPE_NOTIFY_GETATTRLIST => 28
  | es_event_type_t.ES_EVENT_TYPE_AUTH_GETEXTATTR => 29
  | es_event_type_t.ES_EVENT_TYPE_NOTIFY_GETEXTATTR => 30
  | es_event_type_t.ES_EVENT_TYPE_AUTH_GET_TASK => 31
  | es_event_type_t.ES_EVENT_TYPE_NOTIFY_GET_TASK => 32
  | es_event_type_t.ES_EVENT_TYPE_AUTH_IOKIT_OPEN => 33
  | es_event_type_t.ES_EVENT_TYPE_NOTIFY_IOKIT_OPEN => 34
  | es_event_type_t.ES_EVENT_TYPE_AUTH_KEXTLOAD => 35
  | es_event_type_t.ES_EVENT_TYPE_NOTIFY_KEXTLOAD => 36
  | es_event_type_t.ES_EVENT_TYPE_NOTIFY_KEXTUNLOAD => 37
  | es_event_type_t.ES_EVENT_TYPE_AUTH_LINK => 38
  | es_event_type_t.ES_EVENT_TYPE_NOTIFY_LINK => 39
  | es_event_type_t.ES_EVENT_TYPE_AUTH_LISTEXTATTR => 40
  | es_event_type_t.ES_EVENT_TYPE_NOTIFY_LISTEXTATTR => 41
  | es_event_type_t.ES_EVENT_TYPE_NOTIFY_LOOKUP => 42
  | es_event_type_t.ES_EVENT_TYPE_AUTH_MMAP => 43
  | es_event_type_t.ES_EVENT_TYPE_NOTIFY_MMAP => 44
  | es_event_type_t.ES_EVENT_TYPE_AUTH_MOUNT => 45
  | es_event_type_t.ES_EVENT_TYPE_NOTIFY_MOUNT => 46
  | es_event_type_t.ES_EVENT_TYPE_AUTH_MPROTECT => 47
  | es_event_type_t.ES_EVENT_TYPE_NOTIFY_MPROTECT => 48
  | es_event_type_t.ES_EVENT_TYPE_AUTH_OPEN => 49
  | es_event_type_t.ES_EVENT_TYPE_NOTIFY_OPEN => 50
  | es_event_type_t.ES_EVENT_TYPE_AUTH_PROC_CHECK => 51
  | es_event_type_t.ES_EVENT_TYPE_NOTIFY_PROC_CHECK => 52
  | es_event_type_t.ES_EVENT_TYPE_NOTIFY_PTY_CLOSE => 53
  | es_event_type_t.ES_EVENT_TYPE_NOTIFY_PTY_GRANT => 54
  | es_event_type_t.ES_EVENT_TYPE_AUTH_READDIR => 55
  | es_event_type_t.ES_EVENT_TYPE_NOTIFY_READDIR => 56
  | es_event_type_t.ES_EVENT_TYPE_AUTH_READLINK => 57
  | es_event_type_t.ES_EVENT_TYPE_NOTIFY_READLINK => 58
  | es_event_type_t.ES_EVENT_TYPE_AUTH_RENAME => 59
  | es_event_type_t.ES_EVENT_TYPE_NOTIFY_RENAME => 60
  | es_event_type_t.ES_EVENT_TYPE_AUTH_SETACL => 61
  | es_event_type_t.ES_EVENT_TYPE_NOTIFY_SETACL => 62
  | es_event_type_t.ES_EVENT_TYPE_AUTH_SETATTRLIST => 63
  | es_event_type_t.ES_EVENT_TYPE_NOTIFY_SETATTRLIST => 64
  | es_event_type_t.ES_EVENT_TYPE_AUTH_SETEXTATTR => 65
  | es_event_type_t.ES_EVENT_TYPE_NOTIFY_SETEXTATTR => 66
  | es_event_type_t.ES_EVENT_TYPE_AUTH_SETFLAGS => 67
  | es_event_type_t.ES_EVENT_TYPE_NOTIFY_SETFLAGS => 68
  | es_event_type_t.ES_EVENT_TYPE_AUTH_SETMODE => 69
  | es_event_type_t.ES_EVENT_TYPE_NOTIFY_SETMODE => 70
  | es_event_type_t.ES_EVENT_TYPE_AUTH_SETOWNER => 71
  | es_event_type_t.ES_EVENT_TYPE_NOTIFY_SETOWNER => 72
  | es_event_type_t.ES_EVENT_TYPE_AUTH_SETTIME => 73
  | es_event_type_t.ES_EVENT_TYPE_NOTIFY_SETTIME => 74
  | es_event_type_t.ES_EVENT_TYPE_AUTH_SIGNAL => 75
  | es_event_type_t.ES_EVENT_TYPE_NOTIFY_SIGNAL => 76
  | es_event_type_t.ES_EVENT_TYPE_NOTIFY_STAT => 77
  | es_event_type_t.ES_EVENT_TYPE_AUTH_TRUNCATE => 78
  | es_event_type_t.ES_EVENT_TYPE_NOTIFY_TRUNCATE => 79
  | es_event_type_t.ES_EVENT_TYPE_AUTH_UIPC_BIND => 80
  | es_event_type_t.ES_EVENT_TYPE_NOTIFY_UIPC_BIND => 81
  | es_event_type_t.ES_EVENT_TYPE_AUTH_UIPC_CONNECT => 82
  | es_event_type_t.ES_EVENT_TYPE_NOTIFY_UIPC_CONNECT => 83
  | es_event_type_t.ES_EVENT_TYPE_AUTH_UNLINK => 84
  | es_event_type_t.ES_EVENT_TYPE_NOTIFY_UNLINK => 85
  | es_event_type_t.ES_EVENT_TYPE_NOTIFY_UNMOUNT => 86
  | es_event_type_t.ES_EVENT_TYPE_AUTH_UTIMES => 87
  | es_event_type_t.ES_EVENT_TYPE_NOTIFY_UTIMES => 88
  | es_event_type_t.ES_EVENT_TYPE_NOTIFY_WRITE => 89
  | es_event_type_t.ES_EVENT_TYPE_LAST => 90
  | es_event_type_t.OTHER raw => 91 + raw

/-- The tokens of a `-e` argument as the `while ( offset < arg.length() )` loop cuts them: the
text between commas; after a final comma the loop ends without an empty token. `cur` is the
token being read, `none` at the start of a token. -/
def eventTokens : List Char → Option (List Char) → List String
  | [], none => []
  | [], some cur => [String.mk cur]
  | c :: cs, none => if c = ',' then "" :: eventTokens cs none else eventTokens cs (some [c])
  | c :: cs, some cur =>
    if c = ',' then String.mk cur :: eventTokens cs none else eventTokens cs (some (cur ++ [c]))

/-- The loop that strips the leading `+` and `-` of a token ("could be -+open to remove auth open
event"): the rest of the token, `authevent` and `remove`. -/
def stripSigns : List Char → Bool → Bool → List Char × Bool × Bool
  | [], authevent, remove => ([], authevent, remove)
  | c :: cs, authevent, remove =>
    if c = '+' then stripSigns cs true remove
    else if c = '-' then stripSigns cs authevent true
    else (c :: cs, authevent, remove)

/-- The pair `std::find` + `erase`: the list without the first element equal to `t`, `none` when
there is none. -/
def eraseFound (t : es_event_type_t) : List es_event_type_t → Option (List es_event_type_t)
  | [] => none
  | x :: xs => if x.ordinal = t.ordinal then some xs else (eraseFound t xs).map (fun r => x :: r)

/-- The body of the token loop of `es_main`, for one token `ev`: the subscriptions after it;
`none` stands for `exit( 1 )` after a message on `std::cerr`. The messages printed under
`verbose` are not recorded. -/
def es_main_token (subscriptions : List es_event_type_t) (ev : String) :
    Option (List es_event_type_t) :=
  if ev = "all" then some (subscriptions ++ supportedEvents.map (fun e => e.2.1))
  else if ev = "+all" then some (subscriptions ++ supportedEvents.map (fun e => e.2.2))
  else
    let r := stripSigns ev.data false false
    match mapFind supportedEvents (String.mk r.1) with
    | none => none
    | some it =>
      let t := if r.2.1 then it.2 else it.1
      if r.2.2 then eraseFound t subscriptions else some (subscriptions ++ [t])

/-- The token loop over the tokens of one argument. -/
def es_main_tokens : List es_event_type_t → List String → Option (List es_event_type_t)
  | subscriptions, [] => some subscriptions
  | subscriptions, ev :: rest =>
    match es_main_token subscriptions ev with
    | none => none
    | some subscriptions => es_main_tokens subscriptions rest

/-- The `-e` branch of `es_main` for the argument `arg`: "Parse the event list, if any". -/
def es_main_events (subscriptions : List es_event_type_t) (arg : String) :
    Option (List es_event_type_t) :=
  es_main_tokens subscriptions (eventTokens arg.data none)

/-! ## More concrete inputs -/

/-- An environment whose open-flag table is `exFlagTable`. -/
def exEnvOpen : Env := { getpid := 4242, value_map_open := exFlagTable }

/-- A notify link, reported by pid 50, of `/tmp/a` as `/tmp/d/b`. -/
def exLink : es_message_t :=
  { process := exProcess 50 "/bin/ln",
    event_type := es_event_type_t.ES_EVENT_TYPE_NOTIFY_LINK,
    event := { link := { source := exFile "/tmp/a", target_dir := exFile "/tmp/d",
                         target_filename := { length := 1, data := "b" } } } }

/-- The sixteen values `getEsProcess` writes for a present descriptor, by key suffix. -/
def processInfoFields (env : Env) (p : es_process_t) : List (String × String) :=
  [ ("pid", to_string (audit_token_to_pid p.audit_token)),
    ("euid", to_string_u (audit_token_to_euid p.audit_token)),
    ("ruid", to_string_u (audit_token_to_ruid p.audit_token)),
    ("rgid", to_string_u (audit_token_to_rgid p.audit_token)),
    ("egid", to_string_u (audit_token_to_egid p.audit_token)),
    ("ppid", to_string p.ppid),
    ("oppid", to_string p.original_ppid),
    ("gid", to_string p.group_id),
    ("sid", to_string p.session_id),
    ("csflags", to_string_u p.codesigning_flags),
    ("csflags_desc", getBitmask env.value_map_codesign p.codesigning_flags),
    ("is_platform_binary", if p.is_platform_binary then "true" else "false"),
    ("is_es_client", if p.is_es_client then "true" else "false"),
    ("signing_id", getEsStringToken p.signing_id),
    ("team_id", getEsStringToken p.team_id),
    ("executable", getEsFile p.executable) ]

/-- Whether an event type is one of the two open types. -/
def es_event_type_t.isOpen : es_event_type_t → Bool
  | es_event_type_t.ES_EVENT_TYPE_AUTH_OPEN | es_event_type_t.ES_EVENT_TYPE_NOTIFY_OPEN => true
  | _ => false

/-- Whether an event type is one of the two link types. -/
def es_event_type_t.isLink : es_event_type_t → Bool
  | es_event_type_t.ES_EVENT_TYPE_AUTH_LINK | es_event_type_t.ES_EVENT_TYPE_NOTIFY_LINK => true
  | _ => false

/-- The function `help`: the text it writes to `std::cout`. An event is marked `[+]` when the
second component of its entry is not `ES_EVENT_TYPE_LAST`. -/
def help (exe : String) : String :=
  let out := "Usage: " ++ exe ++ "[options]\n"
    ++ "  -e <event> an event to listen for. Can be used multiple times. -e all lists to all events\n"
    ++ "               for example, -e chdir -e +open -e close\n"
    ++ "              + in front of event means it will be handled as auth event\n"
    ++ " -p <path>   only monitor processes started from this path (including subpaths)\n"
    ++ "  --test-max-clients   tests you how many clients you can create\n"
  let out := out ++ "\nEvents you can listen to:\n"
  supportedEvents.foldl (fun o e =>
    if e.2.2.ordinal ≠ es_event_type_t.ES_EVENT_TYPE_LAST.ordinal then
      o ++ "    [+]" ++ e.1 ++ "\n"
    else o ++ "      " ++ e.1 ++ "\n") out

/-- What follows the closing quote of an argument in the rendering, as characters: nothing after
the last argument, otherwise a space and the next argument, escaped, between double quotes, and
so on. -/
def renderedTail : List (List Char) → List Char
  | [] => []
  | a :: r => ' ' :: dquote :: (escapeQuotes a ++ dquote :: renderedTail r)

/-- The payload of an exec of `/bin/echo` whose argument tokens carry bytes after the NUL. -/
def exExecArgsPadded : es_event_exec_t :=
  { target := some (exProcess 301 "/bin/echo"),
    args := [{ length := 6, data := String.mk [Char.ofNat 101, Char.ofNat 99, Char.ofNat 104,
                 Char.ofNat 111, Char.ofNat 0, Char.ofNat 120] },
             { length := 8, data := String.mk [Char.ofNat 115, Char.ofNat 97, Char.ofNat 121,
                 Char.ofNat 32, Char.ofNat 34, Char.ofNat 104, Char.ofNat 105, Char.ofNat 34] }] }

/-- A notify open of `/tmp/x` with the flag word 0x602, reported by pid 50 like `exCreateExisting`. -/
def exOpenForCreate : es_message_t :=
  { process := exProcess 50 "/bin/cat",
    event_type := es_event_type_t.ES_EVENT_TYPE_NOTIFY_OPEN,
    event := { open_ := { file := exFile "/tmp/x", fflag := 1538 } } }

/-! # Theorems -/

/-! ## Facts about the `std::map` model -/

theorem mapFind_mapAssign {α β : Type} [DecidableEq α] (lt : α → α → Bool)
    (m : List (α × β)) (k j : α) (v : β) :
    mapFind (mapAssign lt m k v) j = if k = j then some v else mapFind m j := by
  induction m with
  | nil => simp [mapAssign, mapFind]
  | cons hd t ih =>
    obtain ⟨k', v'⟩ := hd
    by_cases h1 : k' = k
    · subst h1
      by_cases h : k' = j <;> simp [mapAssign, mapFind, h]
    · by_cases h2 : lt k k' = true
      · simp [mapAssign, mapFind, h1, h2]
      · by_cases h3 : k' = j
        · subst h3
          have h4 : ¬ k = k' := fun h => h1 h.symm
          simp [mapAssign, mapFind, h1, h2, h4]
        · simp [mapAssign, mapFind, h1, h2, h3, ih]

theorem mapFind_mapAssign_self {α β : Type} [DecidableEq α] (lt : α → α → Bool)
    (m : List (α × β)) (k : α) (v : β) : mapFind (mapAssign lt m k v) k = some v := by
  simp [mapFind_mapAssign]

theorem mapFind_mapAssign_ne {α β : Type} [DecidableEq α] (lt : α → α → Bool)
    (m : List (α × β)) (k j : α) (v : β) (h : k ≠ j) :
    mapFind (mapAssign lt m k v) j = mapFind m j := by
  simp [mapFind_mapAssign, h]

theorem mapFind_mapErase_ne {α β : Type} [DecidableEq α]
    (m : List (α × β)) (k j : α) (h : k ≠ j) :
    mapFind (mapErase m k) j = mapFind m j := by
  induction m with
  | nil => rfl
  | cons hd t ih =>
    obtain ⟨k', v'⟩ := hd
    by_cases h1 : k' = k
    · subst h1
      simp [mapErase, mapFind, h]
    · by_cases h3 : k' = j
      · subst h3
        simp [mapErase, mapFind, h1]
      · simp [mapErase, mapFind, h1, h3, ih]

theorem mapFind_none_of_lt (m : List (Int × Int)) (k : Int)
    (h : ∀ a ∈ m.map Prod.fst, pidLt k a = true) : mapFind m k = none := by
  induction m with
  | nil => rfl
  | cons hd t ih =>
    obtain ⟨k', v'⟩ := hd
    have h1 : pidLt k k' = true := h k' (by simp)
    have h2 : k' ≠ k := by
      intro e
      subst e
      simp [pidLt] at h1
    simp only [mapFind, h2, if_false]
    exact ih (fun a ha => h a (by simp at ha ⊢; exact Or.inr ha))

theorem mapFind_mapErase_self (m : List (Int × Int)) (k : Int) (hok : mapOk pidLt m) :
    mapFind (mapErase m k) k = none := by
  induction m with
  | nil => rfl
  | cons hd t ih =>
    obtain ⟨k', v'⟩ := hd
    have hok2 : mapOk pidLt t := (List.pairwise_cons.mp hok).2
    by_cases h1 : k' = k
    · subst h1
      simp only [mapErase, if_true]
      exact mapFind_none_of_lt t k' (List.pairwise_cons.mp hok).1
    · simp only [mapErase, h1, if_false, mapFind]
      exact ih hok2

theorem mapOk_mapAssign (m : List (Int × Int)) (k v : Int) (hok : mapOk pidLt m) :
    mapOk pidLt (mapAssign pidLt m k v) := by
  induction m with
  | nil => simp [mapAssign, mapOk]
  | cons hd t ih =>
    obtain ⟨k', v'⟩ := hd
    have hp := List.pairwise_cons.mp hok
    by_cases h1 : k' = k
    · subst h1
      simpa [mapAssign, mapOk] using hok
    · by_cases h2 : pidLt k k' = true
      · simp only [mapAssign, h1, h2, if_false, if_true, mapOk, List.map_cons, List.pairwise_cons]
        refine ⟨?_, hp⟩
        intro a ha
        rcases List.mem_cons.mp ha with rfl | ha
        · exact h2
        · have := hp.1 a ha
          simp [pidLt] at this h2 ⊢
          omega
      · simp only [mapAssign, h1, h2, if_false, Bool.false_eq_true, mapOk, List.map_cons,
          List.pairwise_cons]
        refine ⟨?_, ih hp.2⟩
        intro a ha
        simp only [List.mem_map] at ha
        obtain ⟨⟨a1, a2⟩, hmem, rfl⟩ := ha
        have hkey : a1 = k ∨ a1 ∈ t.map Prod.fst := by
          clear ih hok hp
          induction t with
          | nil =>
            simp [mapAssign] at hmem
            exact Or.inl hmem.1
          | cons hd2 t2 ih2 =>
            obtain ⟨k2, v2⟩ := hd2
            by_cases e1 : k2 = k
            · simp [mapAssign, e1] at hmem
              rcases hmem with ⟨rfl, _⟩ | hmem
              · exact Or.inl rfl
              · exact Or.inr (by simp; exact Or.inr ⟨a2, hmem⟩)
            · by_cases e2 : pidLt k k2 = true
              · simp [mapAssign, e1, e2] at hmem
                rcases hmem with ⟨rfl, _⟩ | ⟨rfl, _⟩ | hmem
                · exact Or.inl rfl
                · exact Or.inr (by simp)
                · exact Or.inr (by simp; exact Or.inr ⟨a2, hmem⟩)
              · simp [mapAssign, e1, e2] at hmem
                rcases hmem with ⟨rfl, _⟩ | hmem
                · exact Or.inr (by simp)
                · rcases ih2 hmem with h | h
                  · exact Or.inl h
                  · exact Or.inr (by simp at h ⊢; exact Or.inr h)
        rcases hkey with rfl | hk
        · simp [pidLt] at h2 ⊢
          omega
        · exact hp.1 a1 hk

theorem mapOk_mapErase (m : List (Int × Int)) (k : Int) (hok : mapOk pidLt m) :
    mapOk pidLt (mapErase m k) := by
  induction m with
  | nil => simpa [mapErase] using hok
  | cons hd t ih =>
    obtain ⟨k', v'⟩ := hd
    have hp := List.pairwise_cons.mp hok
    by_cases h1 : k' = k
    · simpa [mapErase, h1] using hp.2
    · simp only [mapErase, h1, if_false, mapOk, List.map_cons, List.pairwise_cons]
      refine ⟨?_, ih hp.2⟩
      intro a ha
      apply hp.1 a
      clear ih hok hp
      induction t with
      | nil => simp [mapErase] at ha
      | cons hd2 t2 ih2 =>
        obtain ⟨k2, v2⟩ := hd2
        by_cases e1 : k2 = k
        · simp [mapErase, e1] at ha
          simp
          exact Or.inr ha
        · simp [mapErase, e1] at ha
          rcases ha with rfl | ha
          · simp
          · have := ih2 (by simpa using ha)
            simp at this ⊢
            exact Or.inr this

/-! ## Facts about `std::to_string` and `std::stoi` -/

theorem isdigit_digitChar (d : Nat) (h : d < 10) : isdigit (digitChar d) = true := by
  interval_cases d <;> decide

theorem digitChar_value (d : Nat) (h : d < 10) : (digitChar d).toNat - 48 = d := by
  interval_cases d <;> decide

theorem digitsValue_append (l : List Char) (c : Char) :
    digitsValue (l ++ [c]) = 10 * digitsValue l + (c.toNat - 48) := by
  simp [digitsValue, List.foldl_append]

theorem decimalDigits_spec (fuel : Nat) : ∀ n : Nat, n < fuel →
    decimalDigits fuel n ≠ [] ∧ (∀ c ∈ decimalDigits fuel n, isdigit c = true) ∧
      digitsValue (decimalDigits fuel n) = n := by
  induction fuel with
  | zero => intro n h; omega
  | succ f ih =>
    intro n hn
    by_cases h10 : n < 10
    · simp only [decimalDigits, h10, if_true]
      refine ⟨by simp, ?_, ?_⟩
      · intro c hc
        simp only [List.mem_singleton] at hc
        subst hc
        exact isdigit_digitChar n h10
      · simp [digitsValue, digitChar_value n h10]
    · simp only [decimalDigits, h10, if_false]
      have hlt : n / 10 < f := by omega
      obtain ⟨_, hall, hval⟩ := ih (n / 10) hlt
      refine ⟨by simp, ?_, ?_⟩
      · intro c hc
        rcases List.mem_append.mp hc with hc | hc
        · exact hall c hc
        · simp only [List.mem_singleton] at hc
          subst hc
          exact isdigit_digitChar (n % 10) (by omega)
      · rw [digitsValue_append, hval, digitChar_value (n % 10) (by omega)]
        omega

theorem isspace_of_isdigit (c : Char) (h : isdigit c = true) : isspace c = false := by
  have h1 : 48 ≤ c.toNat := by
    simp only [isdigit, Bool.and_eq_true, decide_eq_true_eq] at h
    exact h.1
  have hne : ∀ d : Char, d.toNat < 48 → c ≠ d := by
    intro d hd e
    subst e
    omega
  simp only [isspace, Bool.or_eq_false_iff, decide_eq_false_iff_not]
  refine ⟨⟨⟨⟨⟨?_, ?_⟩, ?_⟩, ?_⟩, ?_⟩, ?_⟩ <;> exact hne _ (by decide)

theorem sign_of_isdigit (c : Char) (h : isdigit c = true) : c ≠ '-' ∧ c ≠ '+' := by
  have h1 : 48 ≤ c.toNat := by
    simp only [isdigit, Bool.and_eq_true, decide_eq_true_eq] at h
    exact h.1
  have hne : ∀ d : Char, d.toNat < 48 → c ≠ d := by
    intro d hd e
    subst e
    omega
  exact ⟨hne _ (by decide), hne _ (by decide)⟩

/-- Reading back a run of digits: `stoi` on the digits of `n`, with or without a minus sign. -/
theorem stoi_digits (l : List Char) (hne : l ≠ []) (hall : ∀ c ∈ l, isdigit c = true) :
    stoi ⟨l⟩ = (if (digitsValue l : Int) < 2147483648 then some (digitsValue l : Int) else none) ∧
    stoi ⟨'-' :: l⟩ =
      (if (digitsValue l : Int) ≤ 2147483648 then some (-(digitsValue l : Int)) else none) := by
  obtain ⟨c, t, rfl⟩ := List.exists_cons_of_ne_nil hne
  have hc : isdigit c = true := hall c (by simp)
  have hsp := isspace_of_isdigit c hc
  have hsg := sign_of_isdigit c hc
  have htw : List.takeWhile isdigit (c :: t) = c :: t :=
    List.takeWhile_eq_self_iff.mpr hall
  constructor
  · simp only [stoi, List.dropWhile_cons, hsp, hsg.1, hsg.2, if_false, htw, Bool.false_eq_true]
    simp only [reduceCtorEq, if_false]
    by_cases hr : (digitsValue (c :: t) : Int) < 2147483648
    · have h0 : (-2147483648 : Int) ≤ (digitsValue (c :: t) : Int) := by omega
      simp [hr, h0]
    · simp [hr]
  · have hm : isspace '-' = false := by decide
    simp only [stoi, List.dropWhile_cons, hm, if_true, htw, Bool.false_eq_true, if_false]
    simp only [reduceCtorEq, if_false, if_true]
    by_cases hr : (digitsValue (c :: t) : Int) ≤ 2147483648
    · have h0 : (-2147483648 : Int) ≤ -(digitsValue (c :: t) : Int) := by omega
      have h1 : -(digitsValue (c :: t) : Int) < 2147483648 := by omega
      simp [hr, h0, h1]
    · have h0 : ¬ (-2147483648 : Int) ≤ -(digitsValue (c :: t) : Int) := by omega
      simp [hr, h0]

theorem stoi_to_string (i : Int) (hlo : -2147483648 ≤ i) (hhi : i < 2147483648) :
    stoi (to_string i) = some i := by
  obtain ⟨hne, hall, hval⟩ := decimalDigits_spec (i.natAbs + 1) i.natAbs (by omega)
  obtain ⟨hpos, hneg⟩ := stoi_digits _ hne hall
  by_cases h : i < 0
  · simp only [to_string, h, if_true]
    rw [hneg, hval]
    have e : ((i.natAbs : Nat) : Int) = -i := by omega
    rw [e]
    have : -i ≤ 2147483648 := by omega
    simp [this]
  · simp only [to_string, h, if_false, to_string_u]
    rw [hpos, hval]
    have e : ((i.natAbs : Nat) : Int) = i := by omega
    rw [e]
    simp [hhi]

theorem toInt32_range (n : Nat) : -2147483648 ≤ toInt32 n ∧ toInt32 n < 2147483648 := by
  unfold toInt32
  split <;> omega

theorem stoi_to_string_pid (t : audit_token_t) :
    stoi (to_string (audit_token_to_pid t)) = some (audit_token_to_pid t) :=
  stoi_to_string _ (toInt32_range _).1 (toInt32_range _).2

theorem stoi_minus_one : stoi "-1" = some (-1) := by decide

/-- The prefix test of `on_exec` is the literal string-prefix relation. -/
theorem prefix_test_iff (exe filter : String) :
    (exe.length ≥ filter.length ∧ substr0 exe filter.length = filter) ↔
      filter.data <+: exe.data := by
  constructor
  · rintro ⟨_, h2⟩
    have h3 : exe.data.take filter.data.length = filter.data := by
      exact congrArg String.data h2
    rw [← h3]
    exact List.take_prefix _ _
  · intro h
    have hlen : filter.data.length ≤ exe.data.length := h.length_le
    refine ⟨hlen, ?_⟩
    apply String.ext
    show exe.data.take filter.data.length = filter.data
    exact (List.prefix_iff_eq_take.mp h).symm

/-! ## Facts about the decoders that touch the tracked set -/

theorem getEsProcess_frame (env : Env) (s : EndpointSecurityImpl) (process : Option es_process_t)
    (pfx : String) :
    (getEsProcess env s process pfx).monitoredProcesses = s.monitoredProcesses ∧
    (getEsProcess env s process pfx).monitoredProcessPath = s.monitoredProcessPath := by
  cases process with
  | none => exact ⟨rfl, rfl⟩
  | some p => constructor <;> simp only [getEsProcess, setParam]

theorem execArgsLoop_frame (args : List es_string_token_t) :
    ∀ (s : EndpointSecurityImpl) (i : Nat),
      (execArgsLoop s i args).monitoredProcesses = s.monitoredProcesses ∧
      (execArgsLoop s i args).monitoredProcessPath = s.monitoredProcessPath ∧
      ∀ k : String, k ≠ "target_args" →
        mapFind (execArgsLoop s i args).event.parameters k = mapFind s.event.parameters k := by
  induction args with
  | nil => intro s i; exact ⟨rfl, rfl, fun _ _ => rfl⟩
  | cons tok rest ih =>
    intro s i
    simp only [execArgsLoop]
    obtain ⟨h1, h2, h3⟩ := ih
      (setParam (if i > 0 then setParam s "target_args" (readParam s "target_args" ++ " ") else s)
        "target_args"
        (readParam (if i > 0 then setParam s "target_args" (readParam s "target_args" ++ " ")
          else s) "target_args" ++
          (String.singleton dquote ++ ⟨escapeQuotes (getEsStringToken tok).data⟩ ++
            String.singleton dquote))) (i + 1)
    refine ⟨?_, ?_, ?_⟩
    · rw [h1]; split <;> rfl
    · rw [h2]; split <;> rfl
    · intro k hk
      rw [h3 k hk]
      have hk2 : ¬ "target_args" = k := fun e => hk e.symm
      split <;> simp [setParam, mapFind_mapAssign, hk2]

theorem getEsProcess_target_pid (env : Env) (s : EndpointSecurityImpl) (p : es_process_t) :
    mapFind (getEsProcess env s (some p) "target_").event.parameters "target_pid"
      = some (to_string (audit_token_to_pid p.audit_token)) := by
  simp [getEsProcess, setParam, mapFind_mapAssign]

theorem getEsProcess_target_executable (env : Env) (s : EndpointSecurityImpl) (p : es_process_t) :
    mapFind (getEsProcess env s (some p) "target_").event.parameters "target_executable"
      = some (getEsFile p.executable) := by
  simp [getEsProcess, setParam, mapFind_mapAssign]

theorem getEsProcess_child_pid (env : Env) (s : EndpointSecurityImpl) (p : es_process_t) :
    mapFind (getEsProcess env s (some p) "child_").event.parameters "child_pid"
      = some (to_string (audit_token_to_pid p.audit_token)) := by
  simp [getEsProcess, setParam, mapFind_mapAssign]

theorem getEsProcess_none_child_pid (env : Env) (s : EndpointSecurityImpl) :
    mapFind (getEsProcess env s none "child_").event.parameters "child_pid" = some "-1" := by
  simp [getEsProcess, setParam, mapFind_mapAssign]

theorem getEsProcess_none_target (env : Env) (s : EndpointSecurityImpl) :
    mapFind (getEsProcess env s none "target_").event.parameters "target_pid" = some "-1" ∧
    mapFind (getEsProcess env s none "target_").event.parameters "target_executable"
      = mapFind s.event.parameters "target_executable" := by
  simp [getEsProcess, setParam, mapFind_mapAssign]

theorem mapErase_of_not_found {α β : Type} [DecidableEq α] (m : List (α × β)) (k : α)
    (h : mapFind m k = none) : mapErase m k = m := by
  induction m with
  | nil => rfl
  | cons hd t ih =>
    obtain ⟨k', v'⟩ := hd
    by_cases h1 : k' = k
    · simp [mapFind, h1] at h
    · simp only [mapFind, h1, if_false] at h
      simp [mapErase, h1, ih h]

theorem on_exec_decode_frame (env : Env) (s : EndpointSecurityImpl) (ev : es_event_exec_t) :
    (on_exec_decode env s ev).monitoredProcesses = s.monitoredProcesses ∧
    (on_exec_decode env s ev).monitoredProcessPath = s.monitoredProcessPath := by
  unfold on_exec_decode
  simp only []
  obtain ⟨hm, hp, _⟩ := execArgsLoop_frame ev.args
    (setFilename (setParam (getEsProcess env (setKind s "exec") ev.target "target_")
      "target_args" "")
      (setParam (getEsProcess env (setKind s "exec") ev.target "target_")
      "target_args" "").event.process_team_id) 0
  rw [hm, hp]
  exact getEsProcess_frame env (setKind s "exec") ev.target "target_"

theorem on_exec_decode_find (env : Env) (s : EndpointSecurityImpl) (ev : es_event_exec_t)
    (k : String) (hk : k ≠ "target_args") :
    mapFind (on_exec_decode env s ev).event.parameters k
      = mapFind (getEsProcess env (setKind s "exec") ev.target "target_").event.parameters k := by
  unfold on_exec_decode
  simp only []
  obtain ⟨_, _, h⟩ := execArgsLoop_frame ev.args
    (setFilename (setParam (getEsProcess env (setKind s "exec") ev.target "target_")
      "target_args" "")
      (setParam (getEsProcess env (setKind s "exec") ev.target "target_")
      "target_args" "").event.process_team_id) 0
  rw [h k hk]
  have hk2 : ¬ "target_args" = k := fun e => hk e.symm
  simp [setFilename, setParam, mapFind_mapAssign, hk2]

/-- What the tracking part of `on_exec` does, from the two parameters it reads. -/
theorem on_exec_track_spec (s : EndpointSecurityImpl) (exe : String) (pid : Int)
    (hexe : mapFind s.event.parameters "target_executable" = some exe)
    (hpid : mapFind s.event.parameters "target_pid" = some (to_string pid))
    (hr : stoi (to_string pid) = some pid) :
    (on_exec_track s).2 = none ∧
    (on_exec_track s).1.monitoredProcessPath = s.monitoredProcessPath ∧
    (on_exec_track s).1.monitoredProcesses =
      if s.monitoredProcessPath ≠ "" ∧ s.monitoredProcessPath.data <+: exe.data then
        mapAssign pidLt s.monitoredProcesses pid 1
      else s.monitoredProcesses := by
  have hread1 : readParam s "target_executable" = exe := by
    simp [readParam, mapAt, hexe]
  have htouch1 : touchParam s "target_executable" = s := by
    simp [touchParam, mapTouch, hexe]
  have hread2 : readParam s "target_pid" = to_string pid := by
    simp [readParam, mapAt, hpid]
  have htouch2 : touchParam s "target_pid" = s := by
    simp [touchParam, mapTouch, hpid]
  unfold on_exec_track
  simp only [hread1, htouch1, hread2, htouch2, hr]
  by_cases hF : s.monitoredProcessPath = ""
  · simp [hF]
  · by_cases hpre : s.monitoredProcessPath.data <+: exe.data
    · have htest := (prefix_test_iff exe s.monitoredProcessPath).mpr hpre
      simp [hF, hpre, htest]
    · have htest : ¬ (exe.length ≥ s.monitoredProcessPath.length ∧
          substr0 exe s.monitoredProcessPath.length = s.monitoredProcessPath) :=
        fun h => hpre ((prefix_test_iff _ _).mp h)
      simp [hF, hpre, htest]

/-- What `on_exec` does to the tracked set when the target descriptor is present. -/
theorem on_exec_present (env : Env) (s : EndpointSecurityImpl) (ev : es_event_exec_t)
    (p : es_process_t) (h : ev.target = some p) :
    (on_exec env s ev).2 = none ∧
    (on_exec env s ev).1.monitoredProcessPath = s.monitoredProcessPath ∧
    (on_exec env s ev).1.monitoredProcesses =
      if s.monitoredProcessPath ≠ "" ∧
          s.monitoredProcessPath.data <+: (getEsFile p.executable).data then
        mapAssign pidLt s.monitoredProcesses (audit_token_to_pid p.audit_token) 1
      else s.monitoredProcesses := by
  have hexe := on_exec_decode_find env s ev "target_executable" (by decide)
  have hpid := on_exec_decode_find env s ev "target_pid" (by decide)
  rw [h, getEsProcess_target_executable] at hexe
  rw [h, getEsProcess_target_pid] at hpid
  obtain ⟨h1, h2, h3⟩ := on_exec_track_spec (on_exec_decode env s ev) _ _ hexe hpid
    (stoi_to_string_pid p.audit_token)
  obtain ⟨hm, hp⟩ := on_exec_decode_frame env s ev
  rw [hm, hp] at h3
  rw [hp] at h2
  exact ⟨h1, h2, h3⟩

theorem length_pos_of_ne_empty (f : String) (h : f ≠ "") : 0 < f.length := by
  have : f.data ≠ [] := by
    intro e
    apply h
    exact String.ext e
  exact List.length_pos.mpr this

/-- An exec whose target descriptor is absent never changes the tracked set, provided the
parameters do not already hold a `target_executable` (they are cleared before dispatch). -/
theorem on_exec_absent (env : Env) (s : EndpointSecurityImpl) (ev : es_event_exec_t)
    (h : ev.target = none)
    (hno : mapFind s.event.parameters "target_executable" = none) :
    (on_exec env s ev).2 = none ∧
    (on_exec env s ev).1.monitoredProcessPath = s.monitoredProcessPath ∧
    (on_exec env s ev).1.monitoredProcesses = s.monitoredProcesses := by
  have hexe := on_exec_decode_find env s ev "target_executable" (by decide)
  rw [h, (getEsProcess_none_target env (setKind s "exec")).2] at hexe
  have hexe2 : mapFind (on_exec_decode env s ev).event.parameters "target_executable" = none := by
    rw [hexe]; exact hno
  obtain ⟨hm, hp⟩ := on_exec_decode_frame env s ev
  have hread : readParam (on_exec_decode env s ev) "target_executable" = "" := by
    simp [readParam, mapAt, hexe2]
  unfold on_exec on_exec_track
  by_cases hF : s.monitoredProcessPath = ""
  · simp [hp, hF, hm]
  · have hlen := length_pos_of_ne_empty _ hF
    have hnot : ¬ ("".length ≥ s.monitoredProcessPath.length) := by
      have : "".length = 0 := rfl
      omega
    simp only [hp, hread, touchParam, ne_eq, hF, not_false_eq_true, if_true, hnot, false_and,
      if_false, hm, and_self]

theorem on_fork_spec (env : Env) (s : EndpointSecurityImpl) (pid : Int)
    (child : Option es_process_t) :
    (on_fork env s pid child).2 = none ∧
    (on_fork env s pid child).1.monitoredProcessPath = s.monitoredProcessPath ∧
    (on_fork env s pid child).1.monitoredProcesses =
      if (mapFind s.monitoredProcesses pid).isSome then
        mapAssign pidLt s.monitoredProcesses (recordedPid child) 1
      else s.monitoredProcesses := by
  obtain ⟨hm, hp0⟩ := getEsProcess_frame env (setKind s "fork") child "child_"
  have hp : (getEsProcess env (setKind s "fork") child "child_").monitoredProcessPath
      = s.monitoredProcessPath := hp0
  clear hp0
  have hm2 : (getEsProcess env (setKind s "fork") child "child_").monitoredProcesses
      = s.monitoredProcesses := hm
  have hfind : mapFind (getEsProcess env (setKind s "fork") child "child_").event.parameters
      "child_pid" = some (to_string (recordedPid child)) := by
    cases child with
    | none => exact getEsProcess_none_child_pid env _
    | some p => exact getEsProcess_child_pid env _ p
  have hr : stoi (to_string (recordedPid child)) = some (recordedPid child) := by
    cases child with
    | none => exact stoi_minus_one
    | some p => exact stoi_to_string_pid p.audit_token
  unfold on_fork
  simp only []
  generalize getEsProcess env (setKind s "fork") child "child_" = s2 at hm2 hp hfind ⊢
  have hread : readParam s2 "child_pid" = to_string (recordedPid child) := by
    simp [readParam, mapAt, hfind]
  have htouch : touchParam s2 "child_pid" = s2 := by
    simp [touchParam, mapTouch, hfind]
  rw [hm2, hread, htouch, hr]
  cases hf : mapFind s.monitoredProcesses pid with
  | none => simp [hp, hm2]
  | some v => simp [hp, hm2]

theorem on_exit_spec (s : EndpointSecurityImpl) (pid stat : Int) :
    (on_exit s pid stat).1.monitoredProcessPath = s.monitoredProcessPath ∧
    (_WSTATUS stat ≠ 127 → (on_exit s pid stat).2 = none ∧
      (on_exit s pid stat).1.monitoredProcesses = mapErase s.monitoredProcesses pid) ∧
    (_WSTATUS stat = 127 → (on_exit s pid stat).2 = some "Invalid exit" ∧
      (on_exit s pid stat).1.monitoredProcesses = s.monitoredProcesses) := by
  unfold on_exit
  by_cases h0 : _WSTATUS stat = 0
  · have h127 : _WSTATUS stat ≠ 127 := by omega
    simp only [WIFEXITED, h0, decide_True, if_true]
    cases hf : mapFind s.monitoredProcesses pid with
    | none =>
      simp [setParam, setKind, hf, h0, mapErase_of_not_found _ _ hf]
    | some v =>
      simp [setParam, setKind, hf, h0]
  · by_cases h127 : _WSTATUS stat = 127
    · simp [WIFEXITED, WIFSIGNALED, h0, h127, setParam, setKind]
    · simp only [WIFEXITED, WIFSIGNALED, h0, h127, decide_False, if_false, ne_eq, not_false_eq_true,
        decide_True, Bool.and_self, if_true]
      cases hf : mapFind s.monitoredProcesses pid with
      | none =>
        simp [setParam, setKind, hf, h0, h127, mapErase_of_not_found _ _ hf]
      | some v =>
        simp [setParam, setKind, hf, h0, h127]

/-! ## The dispatch switch and the tracked set -/

@[simp] theorem setKind_mon (s : EndpointSecurityImpl) (n : String) :
    (setKind s n).monitoredProcesses = s.monitoredProcesses := rfl

@[simp] theorem setKind_path (s : EndpointSecurityImpl) (n : String) :
    (setKind s n).monitoredProcessPath = s.monitoredProcessPath := rfl

@[simp] theorem setFilename_mon (s : EndpointSecurityImpl) (n : String) :
    (setFilename s n).monitoredProcesses = s.monitoredProcesses := rfl

@[simp] theorem setFilename_path (s : EndpointSecurityImpl) (n : String) :
    (setFilename s n).monitoredProcessPath = s.monitoredProcessPath := rfl

@[simp] theorem setParam_mon (s : EndpointSecurityImpl) (k v : String) :
    (setParam s k v).monitoredProcesses = s.monitoredProcesses := rfl

@[simp] theorem setParam_path (s : EndpointSecurityImpl) (k v : String) :
    (setParam s k v).monitoredProcessPath = s.monitoredProcessPath := rfl

@[simp] theorem touchParam_mon (s : EndpointSecurityImpl) (k : String) :
    (touchParam s k).monitoredProcesses = s.monitoredProcesses := rfl

@[simp] theorem touchParam_path (s : EndpointSecurityImpl) (k : String) :
    (touchParam s k).monitoredProcessPath = s.monitoredProcessPath := rfl

@[simp] theorem getEsProcess_mon (env : Env) (s : EndpointSecurityImpl)
    (process : Option es_process_t) (pfx : String) :
    (getEsProcess env s process pfx).monitoredProcesses = s.monitoredProcesses :=
  (getEsProcess_frame env s process pfx).1

@[simp] theorem getEsProcess_path (env : Env) (s : EndpointSecurityImpl)
    (process : Option es_process_t) (pfx : String) :
    (getEsProcess env s process pfx).monitoredProcessPath = s.monitoredProcessPath :=
  (getEsProcess_frame env s process pfx).2

theorem ite_setParam_mon (c : Prop) [Decidable c] (s : EndpointSecurityImpl) (k v : String) :
    (if c then setParam s k v else s).monitoredProcesses = s.monitoredProcesses := by
  split <;> rfl

theorem ite_setParam_path (c : Prop) [Decidable c] (s : EndpointSecurityImpl) (k v : String) :
    (if c then setParam s k v else s).monitoredProcessPath = s.monitoredProcessPath := by
  split <;> rfl

@[simp] theorem attrlistParams_mon (env : Env) (s : EndpointSecurityImpl) (a : attrlist) :
    (attrlistParams env s a).monitoredProcesses = s.monitoredProcesses := by
  simp only [attrlistParams, ite_setParam_mon]

@[simp] theorem attrlistParams_path (env : Env) (s : EndpointSecurityImpl) (a : attrlist) :
    (attrlistParams env s a).monitoredProcessPath = s.monitoredProcessPath := by
  simp only [attrlistParams, ite_setParam_path]

@[simp] theorem getStatFs_mon (s : EndpointSecurityImpl) (fs : statfs) :
    (getStatFs s fs).monitoredProcesses = s.monitoredProcesses := rfl

@[simp] theorem getStatFs_path (s : EndpointSecurityImpl) (fs : statfs) :
    (getStatFs s fs).monitoredProcessPath = s.monitoredProcessPath := rfl

theorem on_exec_track_path (s : EndpointSecurityImpl) :
    (on_exec_track s).1.monitoredProcessPath = s.monitoredProcessPath := by
  unfold on_exec_track
  simp only []
  split
  · split
    · split <;> rfl
    · rfl
  · rfl

theorem on_exec_path (env : Env) (s : EndpointSecurityImpl) (ev : es_event_exec_t) :
    (on_exec env s ev).1.monitoredProcessPath = s.monitoredProcessPath := by
  unfold on_exec
  rw [on_exec_track_path]
  exact (on_exec_decode_frame env s ev).2

theorem on_create_frame (env : Env) (s : EndpointSecurityImpl) (ev : es_event_create_t) :
    (on_create env s ev).1.monitoredProcesses = s.monitoredProcesses ∧
    (on_create env s ev).1.monitoredProcessPath = s.monitoredProcessPath := by
  unfold on_create
  split_ifs <;> simp [on_open]

theorem on_rename_frame (s : EndpointSecurityImpl) (ev : es_event_rename_t) :
    (on_rename s ev).1.monitoredProcesses = s.monitoredProcesses ∧
    (on_rename s ev).1.monitoredProcessPath = s.monitoredProcessPath := by
  unfold on_rename
  split_ifs <;> simp

theorem on_create_path (env : Env) (s : EndpointSecurityImpl) (ev : es_event_create_t) :
    (on_create env s ev).1.monitoredProcessPath = s.monitoredProcessPath :=
  (on_create_frame env s ev).2

theorem on_create_mon (env : Env) (s : EndpointSecurityImpl) (ev : es_event_create_t) :
    (on_create env s ev).1.monitoredProcesses = s.monitoredProcesses :=
  (on_create_frame env s ev).1

theorem on_rename_path (s : EndpointSecurityImpl) (ev : es_event_rename_t) :
    (on_rename s ev).1.monitoredProcessPath = s.monitoredProcessPath :=
  (on_rename_frame s ev).2

theorem on_rename_mon (s : EndpointSecurityImpl) (ev : es_event_rename_t) :
    (on_rename s ev).1.monitoredProcesses = s.monitoredProcesses :=
  (on_rename_frame s ev).1

theorem on_exit_path (s : EndpointSecurityImpl) (pid stat : Int) :
    (on_exit s pid stat).1.monitoredProcessPath = s.monitoredProcessPath :=
  (on_exit_spec s pid stat).1

theorem on_fork_path (env : Env) (s : EndpointSecurityImpl) (pid : Int)
    (child : Option es_process_t) :
    (on_fork env s pid child).1.monitoredProcessPath = s.monitoredProcessPath :=
  (on_fork_spec env s pid child).2.1

theorem on_proc_check_frame (env : Env) (s : EndpointSecurityImpl) (flavor : Int)
    (target : Option es_process_t) (type : Int) :
    (on_proc_check env s flavor target type).monitoredProcesses = s.monitoredProcesses ∧
    (on_proc_check env s flavor target type).monitoredProcessPath = s.monitoredProcessPath := by
  cases target <;> simp [on_proc_check]

theorem on_proc_check_mon (env : Env) (s : EndpointSecurityImpl) (flavor : Int)
    (target : Option es_process_t) (type : Int) :
    (on_proc_check env s flavor target type).monitoredProcesses = s.monitoredProcesses :=
  (on_proc_check_frame env s flavor target type).1

theorem on_proc_check_path (env : Env) (s : EndpointSecurityImpl) (flavor : Int)
    (target : Option es_process_t) (type : Int) :
    (on_proc_check env s flavor target type).monitoredProcessPath = s.monitoredProcessPath :=
  (on_proc_check_frame env s flavor target type).2

set_option maxHeartbeats 1000000 in
/-- The dispatch switch never changes the configured filter path. -/
theorem dispatch_path (env : Env) (s : EndpointSecurityImpl) (pid : Int) (t : es_event_type_t)
    (e : es_events_t) :
    (dispatch env s pid t e).1.monitoredProcessPath = s.monitoredProcessPath := by
  cases t <;>
    simp only [dispatch, on_create_path, on_rename_path, on_exit_path, on_fork_path, on_exec_path,
        on_access, on_chdir, on_chroot, on_clone, on_close, on_deleteextattr, on_dup,
        on_exchangedata, on_fcntl, on_file_provider_materialize, on_file_provider_update,
        on_fsgetpath, on_getattrlist, on_getextattr, on_get_task, on_iokit_open, on_kextload,
        on_kextunload, on_link, on_listextattr, on_lookup, on_mmap, on_mount, on_mprotect, on_open,
        on_proc_check_path, on_pty_close, on_pty_grant, on_readdir, on_readlink, on_setacl,
        on_setattrlist, on_setextattr, on_setflags, on_setmode, on_setowner, on_settime, on_signal,
        on_stat, on_truncate, on_uipc_bind, on_uipc_connect, on_unlink, on_unmount, on_utimes,
        on_write, setKind_path, setParam_path, setFilename_path, touchParam_path,
        getEsProcess_path, attrlistParams_path, getStatFs_path]

set_option maxHeartbeats 1000000 in
/-- Only exec, fork and exit events can change the tracked set. -/
theorem dispatch_mon_other (env : Env) (s : EndpointSecurityImpl) (pid : Int)
    (t : es_event_type_t) (e : es_events_t)
    (h1 : t.isExec = false) (h2 : t.isFork = false) (h3 : t.isExit = false) :
    (dispatch env s pid t e).1.monitoredProcesses = s.monitoredProcesses := by
  cases t <;>
    first
    | exact absurd h1 (by decide)
    | exact absurd h2 (by decide)
    | exact absurd h3 (by decide)
    | simp only [dispatch, on_create_mon, on_rename_mon,
        on_access, on_chdir, on_chroot, on_clone, on_close, on_deleteextattr, on_dup,
        on_exchangedata, on_fcntl, on_file_provider_materialize, on_file_provider_update,
        on_fsgetpath, on_getattrlist, on_getextattr, on_get_task, on_iokit_open, on_kextload,
        on_kextunload, on_link, on_listextattr, on_lookup, on_mmap, on_mount, on_mprotect, on_open,
        on_proc_check_mon, on_pty_close, on_pty_grant, on_readdir, on_readlink, on_setacl,
        on_setattrlist, on_setextattr, on_setflags, on_setmode, on_setowner, on_settime, on_signal,
        on_stat, on_truncate, on_uipc_bind, on_uipc_connect, on_unlink, on_unmount, on_utimes,
        on_write, setKind_mon, setParam_mon, setFilename_mon, touchParam_mon,
        getEsProcess_mon, attrlistParams_mon, getStatFs_mon]

/-! ## `on_event` and the handler, case by case -/

theorem on_event_self (env : Env) (s : EndpointSecurityImpl) (m : es_message_t)
    (h : audit_token_to_pid m.process.audit_token = env.getpid) :
    on_event env s m =
      { impl := s, effects := [Effect.es_mute_process m.process.audit_token], error := none } := by
  simp [on_event, h]

theorem on_event_deny (env : Env) (s : EndpointSecurityImpl) (m : es_message_t)
    (h1 : audit_token_to_pid m.process.audit_token ≠ env.getpid)
    (h2 : getEsFile m.process.executable ∈ denyList) :
    on_event env s m =
      { impl := filled env s m, effects := [Effect.es_mute_process m.process.audit_token],
        error := none } := by
  have hexe : (fillEvent env s.event m (audit_token_to_pid m.process.audit_token)).process_executable
      = getEsFile m.process.executable := rfl
  simp only [denyList, List.mem_cons, List.mem_singleton, List.not_mem_nil, or_false] at h2
  unfold on_event
  simp only [h1, if_false, hexe, filled]
  rcases h2 with h | h | h | h | h | h <;> simp [h]

theorem on_event_pass (env : Env) (s : EndpointSecurityImpl) (m : es_message_t)
    (h : ¬ suppressed env m) :
    on_event env s m =
      match (dispatch env (filled env s m) (audit_token_to_pid m.process.audit_token)
          m.event_type m.event).2 with
      | some err =>
        { impl := (dispatch env (filled env s m) (audit_token_to_pid m.process.audit_token)
            m.event_type m.event).1, effects := [], error := some err }
      | none =>
        if (dispatch env (filled env s m) (audit_token_to_pid m.process.audit_token)
              m.event_type m.event).1.monitoredProcessPath = "" ∨
            (mapFind (dispatch env (filled env s m) (audit_token_to_pid m.process.audit_token)
              m.event_type m.event).1.monitoredProcesses
              (audit_token_to_pid m.process.audit_token)).isSome then
          { impl := (dispatch env (filled env s m) (audit_token_to_pid m.process.audit_token)
              m.event_type m.event).1,
            effects := [Effect.reportfunc (dispatch env (filled env s m)
              (audit_token_to_pid m.process.audit_token) m.event_type m.event).1.event],
            error := none }
        else
          { impl := (dispatch env (filled env s m) (audit_token_to_pid m.process.audit_token)
              m.event_type m.event).1, effects := [], error := none } := by
  have hexe : (fillEvent env s.event m (audit_token_to_pid m.process.audit_token)).process_executable
      = getEsFile m.process.executable := rfl
  simp only [suppressed, denyList, List.mem_cons, List.mem_singleton, List.not_mem_nil, or_false,
    not_or] at h
  obtain ⟨h1, h2, h3, h4, h5, h6, h7⟩ := h
  unfold on_event
  simp only [h1, if_false, hexe, h2, h3, h4, h5, h6, h7, filled]

/-- The outcome of `on_event` on a message the suppression filter lets through. -/
theorem on_event_pass_fields (env : Env) (s : EndpointSecurityImpl) (m : es_message_t)
    (h : ¬ suppressed env m) :
    (on_event env s m).impl = (dispatch env (filled env s m)
      (audit_token_to_pid m.process.audit_token) m.event_type m.event).1 ∧
    (on_event env s m).error = (dispatch env (filled env s m)
      (audit_token_to_pid m.process.audit_token) m.event_type m.event).2 ∧
    (on_event env s m).effects =
      if (on_event env s m).error = none ∧
          ((on_event env s m).impl.monitoredProcessPath = "" ∨
            (mapFind (on_event env s m).impl.monitoredProcesses
              (audit_token_to_pid m.process.audit_token)).isSome) then
        [Effect.reportfunc (on_event env s m).impl.event]
      else [] := by
  rw [on_event_pass env s m h]
  generalize dispatch env (filled env s m) (audit_token_to_pid m.process.audit_token)
    m.event_type m.event = r
  obtain ⟨r1, r2⟩ := r
  cases r2 with
  | some err => simp
  | none =>
    simp only []
    split <;> simp_all

theorem on_event_effects_no_respond (env : Env) (s : EndpointSecurityImpl) (m : es_message_t) :
    (on_event env s m).effects.filter Effect.isRespond = [] := by
  by_cases h : suppressed env m
  · by_cases h1 : audit_token_to_pid m.process.audit_token = env.getpid
    · rw [on_event_self env s m h1]
      rfl
    · have h2 : getEsFile m.process.executable ∈ denyList := by
        rcases h with h | h
        · exact absurd h h1
        · exact h
      rw [on_event_deny env s m h1 h2]
      rfl
  · rw [(on_event_pass_fields env s m h).2.2]
    split <;> rfl

theorem handler_impl (env : Env) (s : EndpointSecurityImpl) (m : es_message_t) :
    (handler env s m).impl = (on_event env s m).impl := by
  unfold handler
  simp only []
  split
  · rfl
  · split
    · split <;> rfl
    · rfl

theorem handler_of_error (env : Env) (s : EndpointSecurityImpl) (m : es_message_t) (e : String)
    (h : (on_event env s m).error = some e) : handler env s m = on_event env s m := by
  unfold handler
  simp only [h]

theorem handler_of_notify (env : Env) (s : EndpointSecurityImpl) (m : es_message_t)
    (h : m.action_type = es_action_type_t.ES_ACTION_TYPE_NOTIFY) :
    handler env s m = on_event env s m := by
  unfold handler
  simp only [h]
  split <;> rfl

theorem handler_of_auth (env : Env) (s : EndpointSecurityImpl) (m : es_message_t)
    (ha : m.action_type = es_action_type_t.ES_ACTION_TYPE_AUTH)
    (h : (on_event env s m).error = none) :
    (handler env s m).effects = (on_event env s m).effects ++ [allowResponse m] := by
  unfold handler allowResponse
  simp only [h, ha]
  split <;> rfl

/-! ## The authorization responder (C1 to C3) -/

theorem isRespond_allowResponse (m : es_message_t) : (allowResponse m).isRespond = true := by
  unfold allowResponse
  split <;> rfl

theorem handler_responds_of_auth (env : Env) (s : EndpointSecurityImpl) (m : es_message_t)
    (ha : m.action_type = es_action_type_t.ES_ACTION_TYPE_AUTH)
    (h : (on_event env s m).error = none) :
    (handler env s m).effects.filter Effect.isRespond = [allowResponse m] := by
  rw [handler_of_auth env s m ha h, List.filter_append, on_event_effects_no_respond]
  simp [List.filter, isRespond_allowResponse]

/-- C1: for every message of action type AUTH on which `on_event` does not fail, the handler makes
exactly one respond call, after everything `on_event` did (forwarded to the sink or not): the
cached flags form with value 0x7FFFFFFF for `ES_EVENT_TYPE_AUTH_OPEN`, the cached generic allow
result for every other type. For a message of action type NOTIFY it makes no respond call. -/
theorem auth_answered_once_with_allow (env : Env) (s : EndpointSecurityImpl) (m : es_message_t) :
    (m.action_type = es_action_type_t.ES_ACTION_TYPE_AUTH → (on_event env s m).error = none →
      (handler env s m).effects = (on_event env s m).effects ++ [allowResponse m] ∧
      (handler env s m).effects.filter Effect.isRespond = [allowResponse m] ∧
      (on_event env s m).effects.filter Effect.isRespond = []) ∧
    (m.action_type = es_action_type_t.ES_ACTION_TYPE_NOTIFY →
      (handler env s m).effects.filter Effect.isRespond = []) := by
  constructor
  · intro ha h
    exact ⟨handler_of_auth env s m ha h, handler_responds_of_auth env s m ha h,
      on_event_effects_no_respond env s m⟩
  · intro hn
    rw [handler_of_notify env s m hn]
    exact on_event_effects_no_respond env s m

/-- Witness of C1: the auth open of `/tmp/x` by pid 50 is answered with the flags form, and the
notify open by pid 100 is not answered. -/
theorem auth_answered_once_with_allow_witness :
    (handler exEnv exState exAuthOpen).effects.filter Effect.isRespond
        = [Effect.es_respond_flags_result exAuthOpen 2147483647 true] ∧
      (handler exEnv exState exNotifyOpen).effects.filter Effect.isRespond = [] :=
  ⟨((auth_answered_once_with_allow exEnv exState exAuthOpen).1 rfl (by decide)).2.1,
    (auth_answered_once_with_allow exEnv exState exNotifyOpen).2 rfl⟩

/-- Counterexample to C2: an auth message of an event type the dispatch switch does not name
makes `on_event` throw, and the handler ends without any respond call. -/
theorem auth_unknown_type_not_answered :
    exAuthUnknown.action_type = es_action_type_t.ES_ACTION_TYPE_AUTH ∧
      (handler exEnv exState exAuthUnknown).error = some "on_event() received unhandled event" ∧
      ¬ (((handler exEnv exState exAuthUnknown).effects.filter Effect.isRespond).length = 1) := by
  decide

/-- C2, amended: an auth message on which `on_event` does not fail is answered exactly once; when
decoding fails the handler ends with the decode error and makes no respond call. -/
theorem auth_answered_iff_decoded (env : Env) (s : EndpointSecurityImpl) (m : es_message_t)
    (ha : m.action_type = es_action_type_t.ES_ACTION_TYPE_AUTH) :
    ((on_event env s m).error = none →
      ((handler env s m).effects.filter Effect.isRespond).length = 1) ∧
    (∀ e : String, (on_event env s m).error = some e →
      (handler env s m).error = some e ∧
      (handler env s m).effects.filter Effect.isRespond = []) := by
  constructor
  · intro h
    rw [handler_responds_of_auth env s m ha h]
    rfl
  · intro e he
    rw [handler_of_error env s m e he]
    exact ⟨he, on_event_effects_no_respond env s m⟩

/-- Witness of C2, amended: the auth open by pid 50 decodes and is answered once. -/
theorem auth_answered_iff_decoded_witness :
    exAuthOpen.action_type = es_action_type_t.ES_ACTION_TYPE_AUTH ∧
      (on_event exEnv exState exAuthOpen).error = none ∧
      ((handler exEnv exState exAuthOpen).effects.filter Effect.isRespond).length = 1 :=
  ⟨rfl, by decide, (auth_answered_iff_decoded exEnv exState exAuthOpen rfl).1 (by decide)⟩

/-- Counterexample to C3: the auth open reported by the agent's own pid is discarded by the
suppression filter, and the handler still makes a respond call for it. -/
theorem suppressed_auth_open_is_answered :
    suppressed exEnv exAuthOpenSelf ∧
      exAuthOpenSelf.action_type = es_action_type_t.ES_ACTION_TYPE_AUTH ∧
      (handler exEnv exState exAuthOpenSelf).effects.any Effect.isRespond = true := by
  decide

/-- C3, amended: for every auth message the suppression filter discards, the effect trace of the
handler is the mute instruction followed by exactly one allow response. -/
theorem suppressed_auth_muted_then_answered (env : Env) (s : EndpointSecurityImpl)
    (m : es_message_t) (hs : suppressed env m)
    (ha : m.action_type = es_action_type_t.ES_ACTION_TYPE_AUTH) :
    (handler env s m).effects = [Effect.es_mute_process m.process.audit_token, allowResponse m] ∧
    (handler env s m).effects.filter Effect.isRespond = [allowResponse m] := by
  have hsup : (on_event env s m).effects = [Effect.es_mute_process m.process.audit_token] ∧
      (on_event env s m).error = none := by
    by_cases h1 : audit_token_to_pid m.process.audit_token = env.getpid
    · rw [on_event_self env s m h1]
      exact ⟨rfl, rfl⟩
    · have h2 : getEsFile m.process.executable ∈ denyList := by
        rcases hs with h | h
        · exact absurd h h1
        · exact h
      rw [on_event_deny env s m h1 h2]
      exact ⟨rfl, rfl⟩
  refine ⟨?_, handler_responds_of_auth env s m ha hsup.2⟩
  rw [handler_of_auth env s m ha hsup.2, hsup.1]
  rfl

/-- Witness of C3, amended: the auth open reported by the agent itself. -/
theorem suppressed_auth_muted_then_answered_witness :
    suppressed exEnv exAuthOpenSelf ∧
      (handler exEnv exState exAuthOpenSelf).effects
        = [Effect.es_mute_process exAuthOpenSelf.process.audit_token,
            Effect.es_respond_flags_result exAuthOpenSelf 2147483647 true] :=
  ⟨by decide, (suppressed_auth_muted_then_answered exEnv exState exAuthOpenSelf (by decide) rfl).1⟩

/-! ## The suppression filter (C4) -/

/-- C4: for every message whose reporting pid is the agent's own pid, or whose reporting
executable path equals one of the six deny-listed paths, `on_event` issues exactly one mute
instruction, for the reporting process's audit token, and nothing else (the sink is not called);
it does not fail; the state it leaves is the state before or that state with the event filled
from the envelope (no decoder ran: the kind is untouched, the parameters are untouched or
empty); the tracked set and the filter path are unchanged. -/
theorem suppressed_message_only_muted (env : Env) (s : EndpointSecurityImpl) (m : es_message_t)
    (hs : suppressed env m) :
    (on_event env s m).effects = [Effect.es_mute_process m.process.audit_token] ∧
    (on_event env s m).error = none ∧
    ((on_event env s m).impl = s ∨ (on_event env s m).impl = filled env s m) ∧
    (on_event env s m).impl.event.event = s.event.event ∧
    ((on_event env s m).impl.event.parameters = s.event.parameters ∨
      (on_event env s m).impl.event.parameters = []) ∧
    (on_event env s m).impl.monitoredProcesses = s.monitoredProcesses ∧
    (on_event env s m).impl.monitoredProcessPath = s.monitoredProcessPath := by
  by_cases h1 : audit_token_to_pid m.process.audit_token = env.getpid
  · rw [on_event_self env s m h1]
    exact ⟨rfl, rfl, Or.inl rfl, rfl, Or.inl rfl, rfl, rfl⟩
  · have h2 : getEsFile m.process.executable ∈ denyList := by
      rcases hs with h | h
      · exact absurd h h1
      · exact h
    rw [on_event_deny env s m h1 h2]
    exact ⟨rfl, rfl, Or.inr rfl, rfl, Or.inr rfl, rfl, rfl⟩

/-- Witness of C4: a fork reported by the deny-listed `lsd` (pid 100, tracked) is muted and
leaves the tracked set as it was. -/
theorem suppressed_message_only_muted_witness :
    suppressed exEnv exForkByLsd ∧
      (on_event exEnv exTrackedState exForkByLsd).effects
        = [Effect.es_mute_process exForkByLsd.process.audit_token] ∧
      (on_event exEnv exTrackedState exForkByLsd).impl.monitoredProcesses = [(100, 1)] :=
  ⟨by decide, (suppressed_message_only_muted exEnv exTrackedState exForkByLsd (by decide)).1,
    (suppressed_message_only_muted exEnv exTrackedState exForkByLsd (by decide)).2.2.2.2.2.1⟩

/-! ## The process-tree tracker (C5 to C9) -/

/-- C5: with a non-empty filter F, an exec whose target process is present, with pid p and
executable path E, leaves p in the tracked set whenever F is a literal string prefix of E (no
path-segment boundary is required), and leaves the tracked set unchanged when F is not a prefix
of E; the exec decoder does not fail. -/
theorem exec_tracks_prefixed_target (env : Env) (s : EndpointSecurityImpl)
    (ev : es_event_exec_t) (p : es_process_t) (h : ev.target = some p)
    (hF : s.monitoredProcessPath ≠ "") :
    (on_exec env s ev).2 = none ∧
    (s.monitoredProcessPath.data <+: (getEsFile p.executable).data →
      (on_exec env s ev).1.monitoredProcesses
        = mapAssign pidLt s.monitoredProcesses (audit_token_to_pid p.audit_token) 1 ∧
      mapFind (on_exec env s ev).1.monitoredProcesses (audit_token_to_pid p.audit_token)
        = some 1) ∧
    (¬ s.monitoredProcessPath.data <+: (getEsFile p.executable).data →
      (on_exec env s ev).1.monitoredProcesses = s.monitoredProcesses) := by
  obtain ⟨h1, _, h3⟩ := on_exec_present env s ev p h
  refine ⟨h1, ?_, ?_⟩
  · intro hpre
    have e : (on_exec env s ev).1.monitoredProcesses
        = mapAssign pidLt s.monitoredProcesses (audit_token_to_pid p.audit_token) 1 := by
      rw [h3]
      simp [hF, hpre]
    exact ⟨e, by rw [e, mapFind_mapAssign_self]⟩
  · intro hpre
    rw [h3]
    simp [hpre]

/-- Witness of C5: the filter `/opt/app` is a literal prefix of `/opt/app2/bin`, so the exec of
`/opt/app2/bin` as pid 200 makes pid 200 tracked. -/
theorem exec_tracks_prefixed_target_witness :
    exFilterState.monitoredProcessPath ≠ "" ∧
      "/opt/app".data <+: "/opt/app2/bin".data ∧
      mapFind (on_exec exEnv exFilterState exExecPayload2).1.monitoredProcesses 200 = some 1 :=
  ⟨by decide, by decide,
    ((exec_tracks_prefixed_target exEnv exFilterState exExecPayload2
      (exProcess 200 "/opt/app2/bin") rfl (by decide)).2.1 (by decide)).2⟩

/-- C6: for every tracked set and every fork reported by pid P with a present child descriptor of
pid C: if P is tracked then after the event C is tracked and P is still tracked; if P is not
tracked the set is unchanged. The fork decoder does not fail. -/
theorem fork_tracks_child_of_tracked_parent (env : Env) (s : EndpointSecurityImpl) (pid : Int)
    (child : Option es_process_t) (c : es_process_t) (h : child = some c) :
    (on_fork env s pid child).2 = none ∧
    ((mapFind s.monitoredProcesses pid).isSome →
      mapFind (on_fork env s pid child).1.monitoredProcesses (audit_token_to_pid c.audit_token)
        = some 1 ∧
      (mapFind (on_fork env s pid child).1.monitoredProcesses pid).isSome) ∧
    (mapFind s.monitoredProcesses pid = none →
      (on_fork env s pid child).1.monitoredProcesses = s.monitoredProcesses) := by
  obtain ⟨h1, _, h3⟩ := on_fork_spec env s pid child
  subst h
  refine ⟨h1, ?_, ?_⟩
  · intro ht
    rw [h3]
    simp only [ht, if_true, recordedPid, mapFind_mapAssign, if_pos]
    refine ⟨trivial, ?_⟩
    split
    · rfl
    · exact ht
  · intro hn
    rw [h3]
    simp [hn]

/-- Witness of C6: pid 100 is tracked and forks pid 101. -/
theorem fork_tracks_child_of_tracked_parent_witness :
    (mapFind exTrackedState.monitoredProcesses 100).isSome ∧
      mapFind (on_fork exEnv exTrackedState 100 (some (exProcess 101 "/opt/app/bin"))).1.monitoredProcesses
        (audit_token_to_pid (exProcess 101 "/opt/app/bin").audit_token) = some 1 :=
  ⟨by decide,
    ((fork_tracks_child_of_tracked_parent exEnv exTrackedState 100
      (some (exProcess 101 "/opt/app/bin")) (exProcess 101 "/opt/app/bin") rfl).2.1
        (by decide)).1⟩

/-- Counterexample to C7: pid 100 is tracked and reports an exit whose wait status is 0x7f (the
stopped encoding); the exit decoder throws before the removal and pid 100 stays tracked. -/
theorem exit_stopped_status_keeps_pid :
    mapFind exTrackedState.monitoredProcesses 100 = some 1 ∧
      (on_exit exTrackedState 100 127).2 = some "Invalid exit" ∧
      mapFind (on_exit exTrackedState 100 127).1.monitoredProcesses 100 = some 1 := by
  decide

/-- C7, amended: for every tracked set (a `std::map`, keys strictly ascending) and every exit
event reported by P whose wait status denotes a normal exit or a termination by signal (its low
seven bits are not 0x7f), the decoder does not fail and P is absent from the tracked set
afterwards. -/
theorem exit_removes_pid (s : EndpointSecurityImpl) (pid stat : Int)
    (hok : mapOk pidLt s.monitoredProcesses) (hstat : _WSTATUS stat ≠ 127) :
    (on_exit s pid stat).2 = none ∧
    mapFind (on_exit s pid stat).1.monitoredProcesses pid = none := by
  obtain ⟨h1, h2⟩ := (on_exit_spec s pid stat).2.1 hstat
  refine ⟨h1, ?_⟩
  rw [h2]
  exact mapFind_mapErase_self _ _ hok

/-- Witness of C7, amended: tracked pid 100 exits with status 0. -/
theorem exit_removes_pid_witness :
    mapOk pidLt exTrackedState.monitoredProcesses ∧ _WSTATUS 0 ≠ 127 ∧
      mapFind (on_exit exTrackedState 100 0).1.monitoredProcesses 100 = none :=
  ⟨by simp [mapOk, exTrackedState], by decide,
    (exit_removes_pid exTrackedState 100 0 (by simp [mapOk, exTrackedState]) (by decide)).2⟩

theorem dispatch_of_isExec (env : Env) (s : EndpointSecurityImpl) (pid : Int)
    (t : es_event_type_t) (e : es_events_t) (h : t.isExec = true) :
    dispatch env s pid t e = on_exec env s e.exec := by
  cases t <;>
    first
    | exact absurd h (by decide)
    | rfl
    | simp [es_event_type_t.isExec, es_event_type_t.isFork, es_event_type_t.isExit] at h

theorem dispatch_of_isFork (env : Env) (s : EndpointSecurityImpl) (pid : Int)
    (t : es_event_type_t) (e : es_events_t) (h : t.isFork = true) :
    dispatch env s pid t e = on_fork env s pid e.fork.child := by
  cases t <;>
    first
    | exact absurd h (by decide)
    | rfl
    | simp [es_event_type_t.isExec, es_event_type_t.isFork, es_event_type_t.isExit] at h

theorem dispatch_of_isExit (env : Env) (s : EndpointSecurityImpl) (pid : Int)
    (t : es_event_type_t) (e : es_events_t) (h : t.isExit = true) :
    dispatch env s pid t e = on_exit s pid e.exit.stat := by
  cases t <;>
    first
    | exact absurd h (by decide)
    | rfl
    | simp [es_event_type_t.isExec, es_event_type_t.isFork, es_event_type_t.isExit] at h

/-- The change of the tracked set by the dispatch switch, started on cleared parameters. -/
theorem dispatch_mon_cases (env : Env) (s : EndpointSecurityImpl) (pid : Int)
    (t : es_event_type_t) (e : es_events_t) (hclear : s.event.parameters = []) :
    (dispatch env s pid t e).1.monitoredProcesses = s.monitoredProcesses ∨
    (t.isExec = true ∧ s.monitoredProcessPath ≠ "" ∧
      ∃ p : es_process_t, e.exec.target = some p ∧
        s.monitoredProcessPath.data <+: (getEsFile p.executable).data ∧
        (dispatch env s pid t e).1.monitoredProcesses
          = mapAssign pidLt s.monitoredProcesses (audit_token_to_pid p.audit_token) 1) ∨
    (t.isFork = true ∧ (mapFind s.monitoredProcesses pid).isSome ∧
      (dispatch env s pid t e).1.monitoredProcesses
        = mapAssign pidLt s.monitoredProcesses (recordedPid e.fork.child) 1) ∨
    (t.isExit = true ∧ (mapFind s.monitoredProcesses pid).isSome ∧
      (dispatch env s pid t e).1.monitoredProcesses = mapErase s.monitoredProcesses pid) := by
  by_cases hx : t.isExec = true
  · rw [dispatch_of_isExec env s pid t e hx]
    cases htar : e.exec.target with
    | none =>
      left
      exact (on_exec_absent env s e.exec htar (by rw [hclear]; rfl)).2.2
    | some p =>
      obtain ⟨_, _, h3⟩ := on_exec_present env s e.exec p htar
      by_cases hc : s.monitoredProcessPath ≠ "" ∧
          s.monitoredProcessPath.data <+: (getEsFile p.executable).data
      · right; left
        refine ⟨hx, hc.1, p, rfl, hc.2, ?_⟩
        rw [h3, if_pos hc]
      · left
        rw [h3, if_neg hc]
  · by_cases hf : t.isFork = true
    · rw [dispatch_of_isFork env s pid t e hf]
      obtain ⟨_, _, h3⟩ := on_fork_spec env s pid e.fork.child
      by_cases hc : (mapFind s.monitoredProcesses pid).isSome
      · right; right; left
        refine ⟨hf, hc, ?_⟩
        rw [h3, if_pos hc]
      · left
        rw [h3, if_neg hc]
    · by_cases he : t.isExit = true
      · rw [dispatch_of_isExit env s pid t e he]
        by_cases hst : _WSTATUS e.exit.stat = 127
        · left
          exact ((on_exit_spec s pid e.exit.stat).2.2 hst).2
        · have h3 := ((on_exit_spec s pid e.exit.stat).2.1 hst).2
          cases hfind : mapFind s.monitoredProcesses pid with
          | none =>
            left
            rw [h3, mapErase_of_not_found _ _ hfind]
          | some v =>
            right; right; right
            exact ⟨he, by simp [hfind], h3⟩
      · left
        exact dispatch_mon_other env s pid t e (by simpa using hx) (by simpa using hf)
          (by simpa using he)

/-- A message the suppression filter discards leaves the tracked set and the filter alone. -/
theorem on_event_suppressed_frame (env : Env) (s : EndpointSecurityImpl) (m : es_message_t)
    (hs : suppressed env m) :
    (on_event env s m).impl.monitoredProcesses = s.monitoredProcesses ∧
    (on_event env s m).impl.monitoredProcessPath = s.monitoredProcessPath := by
  by_cases h1 : audit_token_to_pid m.process.audit_token = env.getpid
  · rw [on_event_self env s m h1]
    exact ⟨rfl, rfl⟩
  · have h2 : getEsFile m.process.executable ∈ denyList := by
      rcases hs with h | h
      · exact absurd h h1
      · exact h
    rw [on_event_deny env s m h1 h2]
    exact ⟨rfl, rfl⟩

/-- The handler keeps the representation invariant of the tracked set. -/
theorem handler_preserves_mapOk (env : Env) (s : EndpointSecurityImpl) (m : es_message_t)
    (hok : mapOk pidLt s.monitoredProcesses) :
    mapOk pidLt (handler env s m).impl.monitoredProcesses := by
  rw [handler_impl]
  by_cases hs : suppressed env m
  · rw [(on_event_suppressed_frame env s m hs).1]
    exact hok
  · rw [(on_event_pass_fields env s m hs).1]
    rcases dispatch_mon_cases env (filled env s m) (audit_token_to_pid m.process.audit_token)
      m.event_type m.event rfl with h | ⟨_, _, p, _, _, h⟩ | ⟨_, _, h⟩ | ⟨_, _, h⟩
    · rw [h]; exact hok
    · rw [h]; exact mapOk_mapAssign _ _ _ hok
    · rw [h]; exact mapOk_mapAssign _ _ _ hok
    · rw [h]; exact mapOk_mapErase _ _ hok

/-- C8: for every message and every tracked set, the set after the handler differs from the set
before only by one of three transitions: (i) an exec event adds the pid of its (present) target,
and only if the filter is non-empty and a prefix of the target's executable path; (ii) a fork
event adds the child's recorded pid (the pid of the child descriptor, the sentinel -1 when it is
absent), and only if the reporting pid was already tracked; (iii) an exit event removes the
reporting pid, which was tracked. Events of every other kind leave the set unchanged, and no
event changes the filter. -/
theorem tracked_set_changes_only_by_exec_fork_exit (env : Env) (s : EndpointSecurityImpl)
    (m : es_message_t) :
    ((handler env s m).impl.monitoredProcesses = s.monitoredProcesses ∨
      (m.event_type.isExec = true ∧ s.monitoredProcessPath ≠ "" ∧
        ∃ p : es_process_t, m.event.exec.target = some p ∧
          s.monitoredProcessPath.data <+: (getEsFile p.executable).data ∧
          (handler env s m).impl.monitoredProcesses
            = mapAssign pidLt s.monitoredProcesses (audit_token_to_pid p.audit_token) 1) ∨
      (m.event_type.isFork = true ∧
        (mapFind s.monitoredProcesses (audit_token_to_pid m.process.audit_token)).isSome ∧
        (handler env s m).impl.monitoredProcesses
          = mapAssign pidLt s.monitoredProcesses (recordedPid m.event.fork.child) 1) ∨
      (m.event_type.isExit = true ∧
        (mapFind s.monitoredProcesses (audit_token_to_pid m.process.audit_token)).isSome ∧
        (handler env s m).impl.monitoredProcesses
          = mapErase s.monitoredProcesses (audit_token_to_pid m.process.audit_token))) ∧
    (m.event_type.isExec = false → m.event_type.isFork = false → m.event_type.isExit = false →
      (handler env s m).impl.monitoredProcesses = s.monitoredProcesses) ∧
    (handler env s m).impl.monitoredProcessPath = s.monitoredProcessPath := by
  rw [handler_impl]
  by_cases hs : suppressed env m
  · obtain ⟨hm, hp⟩ := on_event_suppressed_frame env s m hs
    exact ⟨Or.inl hm, fun _ _ _ => hm, hp⟩
  · rw [(on_event_pass_fields env s m hs).1]
    refine ⟨dispatch_mon_cases env (filled env s m) _ m.event_type m.event rfl, ?_, ?_⟩
    · intro h1 h2 h3
      exact dispatch_mon_other env (filled env s m) _ m.event_type m.event h1 h2 h3
    · exact dispatch_path env (filled env s m) _ m.event_type m.event

/-- Witness of C8: a notify open is neither exec, fork nor exit and leaves the tracked set of
the tracking agent as it was. -/
theorem tracked_set_changes_only_by_exec_fork_exit_witness :
    (handler exEnv exTrackedState exNotifyOpen).impl.monitoredProcesses = [(100, 1)] :=
  (tracked_set_changes_only_by_exec_fork_exit exEnv exTrackedState exNotifyOpen).2.1 rfl rfl rfl

/-- C9, the code at the failing input: with the filter `/opt/app`, the exec of `/opt/app/bin` as
pid 100 followed by a fork of pid 100 whose child descriptor is absent leaves the negative pid
-1 in the tracked set, and no event failed. -/
theorem absent_fork_child_tracks_minus_one :
    (run exEnv exFilterState [exExec, exForkAbsent]).error = none ∧
      (run exEnv exFilterState [exExec, exForkAbsent]).impl.monitoredProcesses
        = [(-1, 1), (100, 1)] ∧
      mapFind (run exEnv exFilterState [exExec, exForkAbsent]).impl.monitoredProcesses (-1)
        = some 1 := by
  decide

/-! ## The forwarding gate (C10) -/

/-- C10: for every message that passes the suppression filter and decodes without failure: if no
filter path is configured the record is handed to the sink exactly once; if a filter is
configured the record is handed to the sink (once) exactly when the reporting pid is in the
tracked set as it stands after this event's own tracker update, and otherwise the sink is not
called. The record handed over is the event as the decoder left it. -/
theorem record_forwarded_iff_gate_open (env : Env) (s : EndpointSecurityImpl) (m : es_message_t)
    (hs : ¬ suppressed env m) (hok : (on_event env s m).error = none) :
    (s.monitoredProcessPath = "" →
      (on_event env s m).effects = [Effect.reportfunc (on_event env s m).impl.event]) ∧
    (s.monitoredProcessPath ≠ "" →
      ((mapFind (on_event env s m).impl.monitoredProcesses
          (audit_token_to_pid m.process.audit_token)).isSome →
        (on_event env s m).effects = [Effect.reportfunc (on_event env s m).impl.event]) ∧
      (mapFind (on_event env s m).impl.monitoredProcesses
          (audit_token_to_pid m.process.audit_token) = none →
        (on_event env s m).effects = [])) := by
  obtain ⟨himpl, _, heff⟩ := on_event_pass_fields env s m hs
  have hpath : (on_event env s m).impl.monitoredProcessPath = s.monitoredProcessPath := by
    rw [himpl]
    exact dispatch_path env (filled env s m) _ m.event_type m.event
  rw [hpath] at heff
  refine ⟨?_, ?_⟩
  · intro hF
    rw [heff]
    simp [hok, hF]
  · intro hF
    refine ⟨?_, ?_⟩
    · intro ht
      rw [heff]
      simp [hok, ht]
    · intro hn
      rw [heff]
      simp [hok, hF, hn]

/-- Witness of C10: with the filter `/opt/app` and pid 100 tracked, the exit of pid 100 removes
it before the gate is tested, so the exit record is not handed to the sink. -/
theorem record_forwarded_iff_gate_open_witness :
    ¬ suppressed exEnv exExit ∧ (on_event exEnv exTrackedState exExit).error = none ∧
      exTrackedState.monitoredProcessPath ≠ "" ∧
      (on_event exEnv exTrackedState exExit).effects = [] :=
  ⟨by decide, by decide, by decide,
    ((record_forwarded_iff_gate_open exEnv exTrackedState exExit (by decide) (by decide)).2
      (by decide)).2 (by decide)⟩

/-! ## The bitmask and enum codec (C11 to C13) -/

/-- The text the loop builds from a start text and the names it appends. -/
theorem getBitmaskLoop_eq (t : List (Nat × String)) : ∀ (v : Nat) (res : String),
    getBitmaskLoop t v res =
      (getBitmaskResidual t v,
        ((getBitmaskSelected t v).map Prod.snd).foldl
          (fun r n => (if r ≠ "" then r ++ "|" else r) ++ n) res) := by
  induction t with
  | nil => intro v res; rfl
  | cons hd rest ih =>
    obtain ⟨k, n⟩ := hd
    intro v res
    by_cases h : v &&& k ≠ 0
    · simp only [getBitmaskLoop, getBitmaskSelected, getBitmaskResidual, if_pos h]
      rw [ih, ih (v ^^^ k) ((if "" ≠ "" then "" ++ "|" else "") ++ n)]
      rfl
    · simp only [getBitmaskLoop, getBitmaskSelected, getBitmaskResidual, if_neg h]
      rw [ih, ih v ""]

theorem string_append_ne_empty (a b : String) (h : b ≠ "") : a ++ b ≠ "" := by
  intro e
  apply h
  have := congrArg String.data e
  simp only [String.data_append] at this
  apply String.ext
  exact (List.append_eq_nil.mp this).2

theorem foldl_names_eq_go (names : List String) (hne : ∀ n ∈ names, n ≠ "") :
    ∀ res : String, res ≠ "" →
      names.foldl (fun r n => (if r ≠ "" then r ++ "|" else r) ++ n) res
        = String.intercalate.go res "|" names := by
  induction names with
  | nil => intro res _; rfl
  | cons a as ih =>
    intro res hres
    simp only [List.foldl_cons, hres, ne_eq, not_false_eq_true, if_true, String.intercalate.go]
    exact ih (fun n hn => hne n (List.mem_cons_of_mem _ hn)) _
      (string_append_ne_empty _ _ (hne a (List.mem_cons_self _ _)))

theorem foldl_names_eq_intercalate (names : List String) (hne : ∀ n ∈ names, n ≠ "") :
    names.foldl (fun r n => (if r ≠ "" then r ++ "|" else r) ++ n) ""
      = "|".intercalate names := by
  cases names with
  | nil => rfl
  | cons a as =>
    have ha : a ≠ "" := hne a (List.mem_cons_self _ _)
    have e : (if "" ≠ "" then "" ++ "|" else "") ++ a = a := by
      apply String.ext
      simp
    simp only [List.foldl_cons, String.intercalate, e]
    exact foldl_names_eq_go as (fun n hn => hne n (List.mem_cons_of_mem _ hn)) a ha

theorem getBitmaskResidual_cons (k : Nat) (n : String) (rest : List (Nat × String)) (v : Nat) :
    getBitmaskResidual ((k, n) :: rest) v =
      if v &&& k ≠ 0 then getBitmaskResidual rest (v ^^^ k) else getBitmaskResidual rest v := by
  by_cases h : v &&& k ≠ 0
  · simp only [getBitmaskResidual, getBitmaskLoop, if_pos h]
    rw [getBitmaskLoop_eq]
    rfl
  · simp only [getBitmaskResidual, getBitmaskLoop, if_neg h]

theorem getBitmask_xor (t : List (Nat × String)) : ∀ v : Nat,
    xorKeys (getBitmaskSelected t v) ^^^ getBitmaskResidual t v = v := by
  induction t with
  | nil => intro v; simp [getBitmaskSelected, getBitmaskResidual, getBitmaskLoop, xorKeys]
  | cons hd rest ih =>
    obtain ⟨k, n⟩ := hd
    intro v
    rw [getBitmaskResidual_cons]
    by_cases h : v &&& k ≠ 0
    · simp only [getBitmaskSelected, if_pos h, xorKeys, List.foldr_cons]
      have := ih (v ^^^ k)
      simp only [xorKeys] at this
      rw [Nat.xor_assoc, this, Nat.xor_comm v k, ← Nat.xor_assoc, Nat.xor_self, Nat.zero_xor]
    · simp only [getBitmaskSelected, if_neg h]
      exact ih v

theorem testBit_of_and_two_pow_ne_zero (v j : Nat) (h : v &&& 2 ^ j ≠ 0) : v.testBit j = true := by
  by_contra hb
  apply h
  apply Nat.eq_of_testBit_eq
  intro i
  simp only [Nat.testBit_and, Nat.testBit_two_pow, Nat.zero_testBit]
  by_cases e : j = i
  · subst e
    simp [hb]
  · simp [e]

theorem two_pow_or_xor (v j : Nat) (h : v &&& 2 ^ j ≠ 0) : 2 ^ j ||| (v ^^^ 2 ^ j) = v := by
  have hb := testBit_of_and_two_pow_ne_zero v j h
  apply Nat.eq_of_testBit_eq
  intro i
  simp only [Nat.testBit_or, Nat.testBit_xor, Nat.testBit_two_pow]
  by_cases e : j = i
  · subst e
    simp [hb]
  · simp [e]

theorem getBitmask_or (t : List (Nat × String)) (hpow : ∀ e ∈ t, ∃ j : Nat, e.1 = 2 ^ j) :
    ∀ v : Nat, orKeys (getBitmaskSelected t v) ||| getBitmaskResidual t v = v := by
  induction t with
  | nil => intro v; simp [getBitmaskSelected, getBitmaskResidual, getBitmaskLoop, orKeys]
  | cons hd rest ih =>
    obtain ⟨k, n⟩ := hd
    intro v
    have ih2 := ih (fun e he => hpow e (List.mem_cons_of_mem _ he))
    rw [getBitmaskResidual_cons]
    by_cases h : v &&& k ≠ 0
    · obtain ⟨j, hj⟩ := hpow (k, n) (List.mem_cons_self _ _)
      simp only at hj
      subst hj
      simp only [getBitmaskSelected, if_pos h, orKeys, List.foldr_cons]
      have := ih2 (v ^^^ 2 ^ j)
      simp only [orKeys] at this
      rw [Nat.or_assoc, this]
      exact two_pow_or_xor v j h
    · simp only [getBitmaskSelected, if_neg h]
      exact ih2 v

theorem getBitmask_none_selected (t : List (Nat × String)) (v : Nat)
    (h : ∀ e ∈ t, v &&& e.1 = 0) :
    getBitmaskSelected t v = [] ∧ getBitmaskResidual t v = v := by
  induction t with
  | nil => exact ⟨rfl, rfl⟩
  | cons hd rest ih =>
    obtain ⟨k, n⟩ := hd
    have hk : ¬ (v &&& k ≠ 0) := by
      have := h (k, n) (List.mem_cons_self _ _)
      simpa using this
    rw [getBitmaskResidual_cons]
    simp only [getBitmaskSelected, if_neg hk]
    exact ih (fun e he => h e (List.mem_cons_of_mem _ he))

/-- Counterexample to C11: with the two-bit key 3 and the value 1 the loop selects the key,
XORs it into the value and leaves the residual 2; consumed OR residual is 3, not 1. -/
theorem getBitmask_multibit_key_breaks_or :
    getBitmask [(3, "RW")] 1 = "RW [2?] (1)" ∧
      getBitmaskSelected [(3, "RW")] 1 = [(3, "RW")] ∧
      getBitmaskResidual [(3, "RW")] 1 = 2 ∧
      orKeys (getBitmaskSelected [(3, "RW")] 1) ||| getBitmaskResidual [(3, "RW")] 1 ≠ 1 := by
  decide

/-- C11, amended: for every table whose keys are single bits (powers of two) and every value v,
the OR of the keys whose names were appended, ORed with the residual, is v; when no key shares
a bit with v (in particular for v = 0) nothing is selected and the whole value is the residual.
For an arbitrary table the XOR of the selected keys, XORed with the residual, is v. -/
theorem getBitmask_consumed_or_residual (table : List (Nat × String)) (v : Nat) :
    ((∀ e ∈ table, ∃ j : Nat, e.1 = 2 ^ j) →
      orKeys (getBitmaskSelected table v) ||| getBitmaskResidual table v = v) ∧
    ((∀ e ∈ table, v &&& e.1 = 0) →
      getBitmaskSelected table v = [] ∧ getBitmaskResidual table v = v) ∧
    getBitmaskSelected table 0 = [] ∧ getBitmaskResidual table 0 = 0 ∧
    xorKeys (getBitmaskSelected table v) ^^^ getBitmaskResidual table v = v :=
  ⟨fun hpow => getBitmask_or table hpow v, getBitmask_none_selected table v,
    (getBitmask_none_selected table 0 (fun _ _ => Nat.zero_and _)).1,
    (getBitmask_none_selected table 0 (fun _ _ => Nat.zero_and _)).2,
    getBitmask_xor table v⟩

theorem exFlagTable_single_bits : ∀ e ∈ exFlagTable, ∃ j : Nat, e.1 = 2 ^ j := by
  intro e he
  simp only [exFlagTable, List.mem_cons, List.mem_singleton, List.not_mem_nil, or_false] at he
  rcases he with rfl | rfl | rfl
  · exact ⟨0, rfl⟩
  · exact ⟨1, rfl⟩
  · exact ⟨9, rfl⟩

/-- Witness of C11, amended: the flags read and create (513) against a table of single bits. -/
theorem getBitmask_consumed_or_residual_witness :
    (∀ e ∈ exFlagTable, ∃ j : Nat, e.1 = 2 ^ j) ∧
      orKeys (getBitmaskSelected exFlagTable 513) ||| getBitmaskResidual exFlagTable 513 = 513 :=
  ⟨exFlagTable_single_bits,
    (getBitmask_consumed_or_residual exFlagTable 513).1 exFlagTable_single_bits⟩

theorem getBitmaskSelected_sublist (t : List (Nat × String)) : ∀ v : Nat,
    (getBitmaskSelected t v).Sublist t := by
  induction t with
  | nil => intro v; exact List.Sublist.slnil
  | cons hd rest ih =>
    obtain ⟨k, n⟩ := hd
    intro v
    by_cases h : v &&& k ≠ 0
    · simp only [getBitmaskSelected, if_pos h]
      exact (ih _).cons₂ _
    · simp only [getBitmaskSelected, if_neg h]
      exact (ih _).cons _

theorem getBitmask_eq_names (table : List (Nat × String)) (v : Nat)
    (hne : ∀ e ∈ table, e.2 ≠ "") :
    getBitmask table v =
      "|".intercalate ((getBitmaskSelected table v).map Prod.snd)
        ++ (if getBitmaskResidual table v ≠ 0 then
              " [" ++ to_string_u (getBitmaskResidual table v) ++ "?] ("
            else " (")
        ++ to_string_u v ++ ")" := by
  have hsel : ∀ n ∈ (getBitmaskSelected table v).map Prod.snd, n ≠ "" := by
    intro n hn
    obtain ⟨e, he, rfl⟩ := List.mem_map.mp hn
    exact hne e ((getBitmaskSelected_sublist table v).subset he)
  unfold getBitmask
  simp only [getBitmaskLoop_eq, foldl_names_eq_intercalate _ hsel]
  split <;> simp only [String.append_assoc]

theorem getBitmask_suffix (table : List (Nat × String)) (v : Nat) :
    ("(" ++ to_string_u v ++ ")").data <:+ (getBitmask table v).data := by
  have key : ∃ pre : String, getBitmask table v = pre ++ ("(" ++ to_string_u v ++ ")") := by
    unfold getBitmask
    simp only []
    generalize getBitmaskLoop table v "" = r
    split
    · refine ⟨r.2 ++ (" [" ++ to_string_u r.1 ++ "?] "), ?_⟩
      apply String.ext
      simp only [String.data_append, List.append_assoc]
      rfl
    · refine ⟨r.2 ++ " ", ?_⟩
      apply String.ext
      simp only [String.data_append, List.append_assoc]
      rfl
  obtain ⟨pre, h⟩ := key
  rw [h, String.data_append]
  exact List.suffix_append _ _

theorem getBitmask_zero (table : List (Nat × String)) : getBitmask table 0 = " (0)" := by
  obtain ⟨h1, h2⟩ := getBitmask_none_selected table 0 (fun _ _ => Nat.zero_and _)
  unfold getBitmask
  simp only [getBitmaskLoop_eq, h1, h2]
  decide

theorem getBitmask_marker (table : List (Nat × String)) (v : Nat) :
    getBitmask table v =
      (getBitmaskLoop table v "").2
        ++ (if getBitmaskResidual table v ≠ 0 then
              " [" ++ to_string_u (getBitmaskResidual table v) ++ "?] ("
            else " (")
        ++ to_string_u v ++ ")" := by
  unfold getBitmask getBitmaskResidual
  simp only []
  split <;> simp only [String.append_assoc]

/-- Counterexample to C12: a table entry may carry the empty name. With the names "" and "A"
selected the output is "A (3)", not the names joined by the bar; with "A" and "" selected the
name part "A|" ends in a bar. -/
theorem getBitmask_empty_name_breaks_join :
    getBitmaskSelected [(1, ""), (2, "A")] 3 = [(1, ""), (2, "A")] ∧
      getBitmask [(1, ""), (2, "A")] 3 = "A (3)" ∧
      getBitmask [(1, ""), (2, "A")] 3 ≠ "|".intercalate ["", "A"] ++ " (" ++ to_string_u 3 ++ ")" ∧
      getBitmask [(1, "A"), (2, "")] 3 = "A| (3)" := by
  decide

/-- C12, amended: for every table whose names are non-empty and every value v, the output of
`getBitmask` is the selected names joined by the bar, followed by " [r?] (" when the value r left
after the loop is non-zero and by " (" when it is zero, followed by the decimal of v and ")".
For every table: the selected entries come in table order (ascending keys for a `std::map`), the
text the loop built is followed by the residual marker exactly when r is non-zero, the output
ends with "(" + decimal(v) + ")", and for v = 0 the output is exactly " (0)". -/
theorem getBitmask_output_format (table : List (Nat × String)) (v : Nat) :
    ((∀ e ∈ table, e.2 ≠ "") →
      getBitmask table v =
        "|".intercalate ((getBitmaskSelected table v).map Prod.snd)
          ++ (if getBitmaskResidual table v ≠ 0 then
                " [" ++ to_string_u (getBitmaskResidual table v) ++ "?] ("
              else " (")
          ++ to_string_u v ++ ")") ∧
    (getBitmaskSelected table v).Sublist table ∧
    (mapOk natLt table →
      ((getBitmaskSelected table v).map Prod.fst).Pairwise (fun a b => a < b)) ∧
    getBitmask table v =
      (getBitmaskLoop table v "").2
        ++ (if getBitmaskResidual table v ≠ 0 then
              " [" ++ to_string_u (getBitmaskResidual table v) ++ "?] ("
            else " (")
        ++ to_string_u v ++ ")" ∧
    ("(" ++ to_string_u v ++ ")").data <:+ (getBitmask table v).data ∧
    getBitmask table 0 = " (0)" := by
  refine ⟨getBitmask_eq_names table v, getBitmaskSelected_sublist table v, ?_,
    getBitmask_marker table v, getBitmask_suffix table v, getBitmask_zero table⟩
  intro hok
  have hsub : ((getBitmaskSelected table v).map Prod.fst).Sublist (table.map Prod.fst) :=
    (getBitmaskSelected_sublist table v).map _
  have hp : (table.map Prod.fst).Pairwise (fun a b => a < b) := by
    refine List.Pairwise.imp ?_ hok
    intro a b h
    simpa [natLt] using h
  exact hp.sublist hsub

/-- Witness of C12, amended: read and create (513) against the table of three flags. -/
theorem getBitmask_output_format_witness :
    (∀ e ∈ exFlagTable, e.2 ≠ "") ∧ getBitmask exFlagTable 513 = "FREAD|O_CREAT (513)" ∧
      getBitmask exFlagTable 518 = "FWRITE|O_CREAT [4?] (518)" := by
  have h : ∀ e ∈ exFlagTable, e.2 ≠ "" := by decide
  refine ⟨h, ?_, ?_⟩
  · rw [(getBitmask_output_format exFlagTable 513).1 h]
    decide
  · decide

/-- C13: for every table and value v, `getValue` returns "[?] (" + decimal(v) + ")" when v is
not a key of the table, and name + " (" + decimal(v) + ")" when the table maps v to name. -/
theorem getValue_exact_lookup (table : List (Nat × String)) (v : Nat) :
    (v ∉ table.map Prod.fst → getValue table v = "[?] (" ++ to_string_u v ++ ")") ∧
    (∀ name : String, mapFind table v = some name →
      getValue table v = name ++ " (" ++ to_string_u v ++ ")") := by
  constructor
  · intro h
    have hnone : mapFind table v = none := by
      induction table with
      | nil => rfl
      | cons hd t ih =>
        obtain ⟨k, n⟩ := hd
        simp only [List.map_cons, List.mem_cons, not_or] at h
        have hk : ¬ k = v := fun e => h.1 e.symm
        simp only [mapFind, hk, if_false]
        exact ih h.2
    simp only [getValue, hnone]
    apply String.ext
    simp only [String.data_append, List.append_assoc]
    rfl
  · intro name h
    simp only [getValue, h, String.append_assoc]

/-- Witness of C13: 2 is a key of the table, 3 is not (no bit decomposition). -/
theorem getValue_exact_lookup_witness :
    (3 ∉ exFlagTable.map Prod.fst) ∧ getValue exFlagTable 3 = "[?] (3)" ∧
      mapFind exFlagTable 2 = some "FWRITE" ∧ getValue exFlagTable 2 = "FWRITE (2)" :=
  ⟨by decide,
    ((getValue_exact_lookup exFlagTable 3).1 (by decide)).trans (by decide),
    by decide,
    ((getValue_exact_lookup exFlagTable 2).2 "FWRITE" (by decide)).trans (by decide)⟩

/-! ## The kind of a record and the dispatch switch (C14 to C16) -/

@[simp] theorem setKind_kind (s : EndpointSecurityImpl) (n : String) :
    (setKind s n).event.event = n := rfl

@[simp] theorem setParam_kind (s : EndpointSecurityImpl) (k v : String) :
    (setParam s k v).event.event = s.event.event := rfl

@[simp] theorem setFilename_kind (s : EndpointSecurityImpl) (v : String) :
    (setFilename s v).event.event = s.event.event := rfl

@[simp] theorem touchParam_kind (s : EndpointSecurityImpl) (k : String) :
    (touchParam s k).event.event = s.event.event := rfl

@[simp] theorem getEsProcess_kind (env : Env) (s : EndpointSecurityImpl)
    (process : Option es_process_t) (pfx : String) :
    (getEsProcess env s process pfx).event.event = s.event.event := by
  cases process with
  | none => rfl
  | some p => simp only [getEsProcess, setParam_kind]

@[simp] theorem getStatFs_kind (s : EndpointSecurityImpl) (fs : statfs) :
    (getStatFs s fs).event.event = s.event.event := rfl

theorem ite_setParam_kind (c : Prop) [Decidable c] (s : EndpointSecurityImpl) (k v : String) :
    (if c then setParam s k v else s).event.event = s.event.event := by
  split <;> rfl

@[simp] theorem attrlistParams_kind (env : Env) (s : EndpointSecurityImpl) (a : attrlist) :
    (attrlistParams env s a).event.event = s.event.event := by
  simp only [attrlistParams, ite_setParam_kind]

theorem execArgsLoop_kind (args : List es_string_token_t) :
    ∀ (s : EndpointSecurityImpl) (i : Nat), (execArgsLoop s i args).event.event = s.event.event := by
  induction args with
  | nil => intro s i; rfl
  | cons tok rest ih =>
    intro s i
    simp only [execArgsLoop]
    rw [ih]
    split <;> rfl

theorem on_exec_track_kind (s : EndpointSecurityImpl) :
    (on_exec_track s).1.event.event = s.event.event := by
  unfold on_exec_track
  simp only []
  split
  · split
    · split <;> rfl
    · rfl
  · rfl

theorem on_exec_kind (env : Env) (s : EndpointSecurityImpl) (ev : es_event_exec_t) :
    (on_exec env s ev).1.event.event = "exec" := by
  unfold on_exec
  rw [on_exec_track_kind]
  unfold on_exec_decode
  simp only [execArgsLoop_kind, setFilename_kind, setParam_kind, getEsProcess_kind, setKind_kind]

theorem on_fork_kind (env : Env) (s : EndpointSecurityImpl) (pid : Int)
    (child : Option es_process_t) : (on_fork env s pid child).1.event.event = "fork" := by
  unfold on_fork
  simp only []
  split
  · split <;> simp only [touchParam_kind, getEsProcess_kind, setKind_kind]
  · simp only [getEsProcess_kind, setKind_kind]

theorem on_exit_kind (s : EndpointSecurityImpl) (pid stat : Int) :
    (on_exit s pid stat).1.event.event = "exit" := by
  unfold on_exit
  simp only []
  split
  · rfl
  · rename_i s2 hs2
    have hk : s2.event.event = "exit" := by
      split at hs2
      · cases hs2; rfl
      · split at hs2
        · cases hs2; rfl
        · cases hs2
    split <;> exact hk

theorem on_create_kind (env : Env) (s : EndpointSecurityImpl) (ev : es_event_create_t) :
    (on_create env s ev).1.event.event =
      if ev.destination_type = ES_DESTINATION_TYPE_EXISTING_FILE then "open" else "create" := by
  unfold on_create
  split_ifs <;> simp [on_open]

theorem on_rename_kind (s : EndpointSecurityImpl) (ev : es_event_rename_t) :
    (on_rename s ev).1.event.event = "rename" := by
  unfold on_rename
  split_ifs <;> simp

theorem on_proc_check_kind (env : Env) (s : EndpointSecurityImpl) (flavor : Int)
    (target : Option es_process_t) (type : Int) :
    (on_proc_check env s flavor target type).event.event = "proc_check" := by
  cases target <;> simp [on_proc_check]

set_option maxHeartbeats 1000000 in
/-- The kind the dispatch switch leaves for an event type it names: the name of the decoder,
except that a create whose destination is an existing file ends with the kind "open". -/
theorem dispatch_kind (env : Env) (s : EndpointSecurityImpl) (pid : Int) (t : es_event_type_t)
    (e : es_events_t) (hh : t.handledBySwitch = true) :
    (dispatch env s pid t e).1.event.event =
      if t.isCreate = true ∧ e.create.destination_type = ES_DESTINATION_TYPE_EXISTING_FILE then
        "open"
      else t.decoderName := by
  cases t <;>
    first
    | exact absurd hh (by decide)
    | (simp only [dispatch, on_create_kind, on_rename_kind, on_exit_kind, on_fork_kind,
        on_exec_kind, on_proc_check_kind,
        on_access, on_chdir, on_chroot, on_clone, on_close, on_deleteextattr, on_dup,
        on_exchangedata, on_fcntl, on_file_provider_materialize, on_file_provider_update,
        on_fsgetpath, on_getattrlist, on_getextattr, on_get_task, on_iokit_open, on_kextload,
        on_kextunload, on_link, on_listextattr, on_lookup, on_mmap, on_mount, on_mprotect, on_open,
        on_pty_close, on_pty_grant, on_readdir, on_readlink, on_setacl,
        on_setattrlist, on_setextattr, on_setflags, on_setmode, on_setowner, on_settime, on_signal,
        on_stat, on_truncate, on_uipc_bind, on_uipc_connect, on_unlink, on_unmount, on_utimes,
        on_write, setKind_kind, setParam_kind, setFilename_kind, touchParam_kind,
        getEsProcess_kind, attrlistParams_kind, getStatFs_kind,
        es_event_type_t.isCreate, es_event_type_t.decoderName, Bool.false_eq_true, false_and,
        if_false, true_and]; done)
    | simp [es_event_type_t.handledBySwitch] at hh

theorem on_create_error (env : Env) (s : EndpointSecurityImpl) (ev : es_event_create_t) :
    (on_create env s ev).2 =
      if ev.destination_type = ES_DESTINATION_TYPE_EXISTING_FILE ∨
          ev.destination_type = ES_DESTINATION_TYPE_NEW_PATH then none
      else some "on_create() unknown destination" := by
  unfold on_create
  simp only []
  by_cases h1 : ev.destination_type = ES_DESTINATION_TYPE_EXISTING_FILE
  · rw [if_pos h1, if_pos (Or.inl h1)]
  · by_cases h2 : ev.destination_type = ES_DESTINATION_TYPE_NEW_PATH
    · rw [if_neg h1, if_pos h2, if_pos (Or.inr h2)]
    · rw [if_neg h1, if_neg h2, if_neg (not_or.mpr ⟨h1, h2⟩)]

theorem on_rename_error (s : EndpointSecurityImpl) (ev : es_event_rename_t) :
    (on_rename s ev).2 =
      if ev.destination_type = ES_DESTINATION_TYPE_EXISTING_FILE ∨
          ev.destination_type = ES_DESTINATION_TYPE_NEW_PATH then none
      else some "on_rename() unknown destination" := by
  unfold on_rename
  simp only []
  by_cases h1 : ev.destination_type = ES_DESTINATION_TYPE_EXISTING_FILE
  · rw [if_pos h1, if_pos (Or.inl h1)]
  · by_cases h2 : ev.destination_type = ES_DESTINATION_TYPE_NEW_PATH
    · rw [if_neg h1, if_pos h2, if_pos (Or.inr h2)]
    · rw [if_neg h1, if_neg h2, if_neg (not_or.mpr ⟨h1, h2⟩)]

theorem on_create_not_unhandled (env : Env) (s : EndpointSecurityImpl) (ev : es_event_create_t) :
    (on_create env s ev).2 ≠ some "on_event() received unhandled event" := by
  rw [on_create_error]
  split <;> decide

theorem on_rename_not_unhandled (s : EndpointSecurityImpl) (ev : es_event_rename_t) :
    (on_rename s ev).2 ≠ some "on_event() received unhandled event" := by
  rw [on_rename_error]
  split <;> decide

theorem on_exit_not_unhandled (s : EndpointSecurityImpl) (pid stat : Int) :
    (on_exit s pid stat).2 ≠ some "on_event() received unhandled event" := by
  by_cases h : _WSTATUS stat = 127
  · rw [((on_exit_spec s pid stat).2.2 h).1]
    decide
  · rw [((on_exit_spec s pid stat).2.1 h).1]
    decide

theorem on_fork_not_unhandled (env : Env) (s : EndpointSecurityImpl) (pid : Int)
    (child : Option es_process_t) :
    (on_fork env s pid child).2 ≠ some "on_event() received unhandled event" := by
  rw [(on_fork_spec env s pid child).1]
  decide

theorem on_exec_not_unhandled (env : Env) (s : EndpointSecurityImpl) (ev : es_event_exec_t) :
    (on_exec env s ev).2 ≠ some "on_event() received unhandled event" := by
  unfold on_exec on_exec_track
  simp only []
  split
  · split
    · split <;> simp
    · simp
  · simp

set_option maxHeartbeats 1000000 in
/-- A type the dispatch switch names never reaches its default branch. -/
theorem dispatch_handled (env : Env) (s : EndpointSecurityImpl) (pid : Int)
    (t : es_event_type_t) (e : es_events_t) (hh : t.handledBySwitch = true) :
    (dispatch env s pid t e).2 ≠ some "on_event() received unhandled event" := by
  cases t <;>
    first
    | exact absurd hh (by decide)
    | exact on_create_not_unhandled env s e.create
    | exact on_rename_not_unhandled s e.rename
    | exact on_exit_not_unhandled s pid e.exit.stat
    | exact on_fork_not_unhandled env s pid e.fork.child
    | exact on_exec_not_unhandled env s e.exec
    | exact (fun h => Option.noConfusion h)
    | simp [es_event_type_t.handledBySwitch] at hh

/-- A type the dispatch switch does not name takes its default branch, which throws. -/
theorem dispatch_unhandled (env : Env) (s : EndpointSecurityImpl) (pid : Int)
    (t : es_event_type_t) (e : es_events_t) (hh : t.handledBySwitch = false) :
    dispatch env s pid t e = (s, some "on_event() received unhandled event") := by
  cases t <;> first | exact absurd hh (by decide) | rfl

theorem supportedEvents_handled :
    ∀ entry ∈ supportedEvents, entry.2.1.handledBySwitch = true ∧
      entry.2.1.isLast = false ∧
      (entry.2.2.isLast = false → entry.2.2.handledBySwitch = true) := by
  have h : supportedEvents.all (fun entry => entry.2.1.handledBySwitch && !entry.2.1.isLast &&
      (entry.2.2.isLast || entry.2.2.handledBySwitch)) = true := by decide
  intro entry he
  have := List.all_eq_true.mp h entry he
  simp only [Bool.and_eq_true, Bool.or_eq_true, Bool.not_eq_true'] at this
  refine ⟨this.1.1, this.1.2, ?_⟩
  intro hl
  rcases this.2 with h2 | h2
  · rw [hl] at h2; cases h2
  · exact h2

theorem supportedEvents_decoderName :
    ∀ entry ∈ supportedEvents, entry.2.1.decoderName = entry.1 ∧
      (entry.2.2.isLast = false → entry.2.2.decoderName = entry.1) := by
  have h : supportedEvents.all (fun entry => decide (entry.2.1.decoderName = entry.1) &&
      (entry.2.2.isLast || decide (entry.2.2.decoderName = entry.1))) = true := by decide
  intro entry he
  have := List.all_eq_true.mp h entry he
  simp only [Bool.and_eq_true, Bool.or_eq_true, decide_eq_true_eq] at this
  refine ⟨this.1, ?_⟩
  intro hl
  rcases this.2 with h2 | h2
  · rw [hl] at h2; cases h2
  · exact h2

/-- The kind of the record of a supported event: the name of its table entry, except for a
create whose destination is an existing file, which ends with the kind "open". -/
theorem record_kind_of_supported_event (env : Env) (s : EndpointSecurityImpl) (m : es_message_t)
    (entry : String × (es_event_type_t × es_event_type_t)) (he : entry ∈ supportedEvents)
    (ht : m.event_type = entry.2.1 ∨ (m.event_type = entry.2.2 ∧ entry.2.2.isLast = false))
    (hs : ¬ suppressed env m) :
    (on_event env s m).impl.event.event =
      if m.event_type.isCreate = true ∧
          m.event.create.destination_type = ES_DESTINATION_TYPE_EXISTING_FILE then "open"
      else entry.1 := by
  obtain ⟨h1, _, h2⟩ := supportedEvents_handled entry he
  obtain ⟨n1, n2⟩ := supportedEvents_decoderName entry he
  have hh : m.event_type.handledBySwitch = true ∧ m.event_type.decoderName = entry.1 := by
    rcases ht with ht | ⟨ht, hl⟩
    · rw [ht]; exact ⟨h1, n1⟩
    · rw [ht]; exact ⟨h2 hl, n2 hl⟩
  rw [(on_event_pass_fields env s m hs).1, dispatch_kind _ _ _ _ _ hh.1, hh.2]

/-- C14, the code at the failing input: `supportedEvents` names the notify type of the example
"create"; the create of the existing file `/tmp/x` passes suppression, decodes without failure,
and its record, handed to the sink, has the kind "open". -/
theorem create_existing_file_yields_kind_open :
    mapFind supportedEvents "create"
        = some (es_event_type_t.ES_EVENT_TYPE_NOTIFY_CREATE,
            es_event_type_t.ES_EVENT_TYPE_AUTH_CREATE) ∧
      ¬ suppressed exEnv exCreateExisting ∧
      (on_event exEnv exState exCreateExisting).error = none ∧
      (on_event exEnv exState exCreateExisting).impl.event.event = "open" ∧
      (on_event exEnv exState exCreateExisting).effects.length = 1 :=
  ⟨rfl, by decide, by decide, by decide, by decide⟩

/-! ### Unhandled event types (C15) -/

/-- C15: for every message that passes suppression and whose event type is not a case label of
the dispatch switch, `on_event` fails with the unhandled-event error, the sink is not called and
the tracked set is unchanged. Conversely a type the switch names never yields that error, and
every notify type and every auth type (every second component other than the placeholder
`ES_EVENT_TYPE_LAST`) listed in `supportedEvents` is named by the switch. -/
theorem unhandled_event_type_fails (env : Env) (s : EndpointSecurityImpl) (m : es_message_t) :
    (¬ suppressed env m → m.event_type.handledBySwitch = false →
      (on_event env s m).error = some "on_event() received unhandled event" ∧
      (on_event env s m).effects = [] ∧
      (on_event env s m).impl.monitoredProcesses = s.monitoredProcesses) ∧
    (m.event_type.handledBySwitch = true →
      (on_event env s m).error ≠ some "on_event() received unhandled event") ∧
    (∀ entry ∈ supportedEvents, entry.2.1.handledBySwitch = true ∧
      (entry.2.2.isLast = false → entry.2.2.handledBySwitch = true)) := by
  refine ⟨?_, ?_, ?_⟩
  · intro hs hh
    obtain ⟨himpl, herr, heff⟩ := on_event_pass_fields env s m hs
    have hd := dispatch_unhandled env (filled env s m) (audit_token_to_pid m.process.audit_token)
      m.event_type m.event hh
    rw [hd] at himpl herr
    have herr2 : (on_event env s m).error = some "on_event() received unhandled event" := herr
    refine ⟨herr2, ?_, ?_⟩
    · rw [heff, herr2]
      simp
    · rw [himpl]
      rfl
  · intro hh
    by_cases hs : suppressed env m
    · by_cases h1 : audit_token_to_pid m.process.audit_token = env.getpid
      · rw [on_event_self env s m h1]
        simp
      · have h2 : getEsFile m.process.executable ∈ denyList := by
          rcases hs with h | h
          · exact absurd h h1
          · exact h
        rw [on_event_deny env s m h1 h2]
        simp
    · rw [(on_event_pass_fields env s m hs).2.1]
      exact dispatch_handled env _ _ _ _ hh
  · intro entry he
    obtain ⟨h1, _, h2⟩ := supportedEvents_handled entry he
    exact ⟨h1, h2⟩

/-- Witness of C15: the auth message of the unnamed type 9999 fails and reaches no sink. -/
theorem unhandled_event_type_fails_witness :
    ¬ suppressed exEnv exAuthUnknown ∧ exAuthUnknown.event_type.handledBySwitch = false ∧
      (on_event exEnv exTrackedState exAuthUnknown).error
        = some "on_event() received unhandled event" ∧
      (on_event exEnv exTrackedState exAuthUnknown).effects = [] :=
  ⟨by decide, rfl,
    ((unhandled_event_type_fails exEnv exTrackedState exAuthUnknown).1 (by decide) rfl).1,
    ((unhandled_event_type_fails exEnv exTrackedState exAuthUnknown).1 (by decide) rfl).2.1⟩

/-! ### The destination union of create and rename (C16) -/

theorem dispatch_of_isCreate (env : Env) (s : EndpointSecurityImpl) (pid : Int)
    (t : es_event_type_t) (e : es_events_t) (h : t.isCreate = true) :
    dispatch env s pid t e = on_create env s e.create := by
  cases t <;>
    first
    | exact absurd h (by decide)
    | rfl
    | simp [es_event_type_t.isCreate] at h

theorem dispatch_of_isRename (env : Env) (s : EndpointSecurityImpl) (pid : Int)
    (t : es_event_type_t) (e : es_events_t) (h : t.isRename = true) :
    dispatch env s pid t e = on_rename s e.rename := by
  cases t <;>
    first
    | exact absurd h (by decide)
    | rfl
    | simp [es_event_type_t.isRename] at h

/-- C16: `on_create` and `on_rename` decode successfully if and only if the destination-type tag
is one of the two known variants (existing file, new path); for any other tag they fail with the
unknown-destination error, and `on_event` then ends with that error without calling the sink. -/
theorem create_rename_decode_iff_known_destination (env : Env) (s : EndpointSecurityImpl) :
    (∀ ev : es_event_create_t,
      ((on_create env s ev).2 = none ↔
        (ev.destination_type = ES_DESTINATION_TYPE_EXISTING_FILE ∨
          ev.destination_type = ES_DESTINATION_TYPE_NEW_PATH)) ∧
      ((on_create env s ev).2 ≠ none →
        (on_create env s ev).2 = some "on_create() unknown destination")) ∧
    (∀ ev : es_event_rename_t,
      ((on_rename s ev).2 = none ↔
        (ev.destination_type = ES_DESTINATION_TYPE_EXISTING_FILE ∨
          ev.destination_type = ES_DESTINATION_TYPE_NEW_PATH)) ∧
      ((on_rename s ev).2 ≠ none →
        (on_rename s ev).2 = some "on_rename() unknown destination")) ∧
    (∀ m : es_message_t, ¬ suppressed env m → m.event_type.isCreate = true →
      ¬ (m.event.create.destination_type = ES_DESTINATION_TYPE_EXISTING_FILE ∨
          m.event.create.destination_type = ES_DESTINATION_TYPE_NEW_PATH) →
      (on_event env s m).error = some "on_create() unknown destination" ∧
      (on_event env s m).effects = []) ∧
    (∀ m : es_message_t, ¬ suppressed env m → m.event_type.isRename = true →
      ¬ (m.event.rename.destination_type = ES_DESTINATION_TYPE_EXISTING_FILE ∨
          m.event.rename.destination_type = ES_DESTINATION_TYPE_NEW_PATH) →
      (on_event env s m).error = some "on_rename() unknown destination" ∧
      (on_event env s m).effects = []) := by
  refine ⟨?_, ?_, ?_, ?_⟩
  · intro ev
    rw [on_create_error]
    by_cases h : ev.destination_type = ES_DESTINATION_TYPE_EXISTING_FILE ∨
        ev.destination_type = ES_DESTINATION_TYPE_NEW_PATH
    · simp [h]
    · simp [h]
  · intro ev
    rw [on_rename_error]
    by_cases h : ev.destination_type = ES_DESTINATION_TYPE_EXISTING_FILE ∨
        ev.destination_type = ES_DESTINATION_TYPE_NEW_PATH
    · simp [h]
    · simp [h]
  · intro m hs ht hbad
    obtain ⟨_, herr, heff⟩ := on_event_pass_fields env s m hs
    rw [dispatch_of_isCreate _ _ _ _ _ ht, on_create_error, if_neg hbad] at herr
    refine ⟨herr, ?_⟩
    rw [heff, herr]
    simp
  · intro m hs ht hbad
    obtain ⟨_, herr, heff⟩ := on_event_pass_fields env s m hs
    rw [dispatch_of_isRename _ _ _ _ _ ht, on_rename_error, if_neg hbad] at herr
    refine ⟨herr, ?_⟩
    rw [heff, herr]
    simp

/-- Witness of C16: a create whose destination tag is 7 fails and is not forwarded. -/
theorem create_rename_decode_iff_known_destination_witness :
    ¬ suppressed exEnv exCreateBadTag ∧
      (on_event exEnv exState exCreateBadTag).error = some "on_create() unknown destination" ∧
      (on_event exEnv exState exCreateBadTag).effects = [] :=
  ⟨by decide,
    ((create_rename_decode_iff_known_destination exEnv exState).2.2.1 exCreateBadTag (by decide)
      rfl (by decide)).1,
    ((create_rename_decode_iff_known_destination exEnv exState).2.2.1 exCreateBadTag (by decide)
      rfl (by decide)).2⟩

/-! ## No cross-event leakage (C17) -/

theorem withTracker_event (s : EndpointSecurityImpl) (p : String) (mon : List (Int × Int)) :
    (withTracker s p mon).event = s.event := rfl

theorem setKind_withTracker (s : EndpointSecurityImpl) (p : String) (mon : List (Int × Int))
    (n : String) : setKind (withTracker s p mon) n = withTracker (setKind s n) p mon := rfl

theorem setParam_withTracker (s : EndpointSecurityImpl) (p : String) (mon : List (Int × Int))
    (k v : String) : setParam (withTracker s p mon) k v = withTracker (setParam s k v) p mon := rfl

theorem setFilename_withTracker (s : EndpointSecurityImpl) (p : String) (mon : List (Int × Int))
    (v : String) : setFilename (withTracker s p mon) v = withTracker (setFilename s v) p mon := rfl

theorem touchParam_withTracker (s : EndpointSecurityImpl) (p : String) (mon : List (Int × Int))
    (k : String) : touchParam (withTracker s p mon) k = withTracker (touchParam s k) p mon := rfl

theorem readParam_withTracker (s : EndpointSecurityImpl) (p : String) (mon : List (Int × Int))
    (k : String) : readParam (withTracker s p mon) k = readParam s k := rfl

theorem getStatFs_withTracker (s : EndpointSecurityImpl) (p : String) (mon : List (Int × Int))
    (fs : statfs) : getStatFs (withTracker s p mon) fs = withTracker (getStatFs s fs) p mon := rfl

theorem getEsProcess_withTracker (env : Env) (s : EndpointSecurityImpl) (p : String)
    (mon : List (Int × Int)) (process : Option es_process_t) (pfx : String) :
    getEsProcess env (withTracker s p mon) process pfx
      = withTracker (getEsProcess env s process pfx) p mon := by
  cases process with
  | none => rfl
  | some pr => simp only [getEsProcess, setParam_withTracker]

theorem ite_setParam_withTracker (c : Prop) [Decidable c] (s : EndpointSecurityImpl) (p : String)
    (mon : List (Int × Int)) (k v : String) :
    (if c then setParam (withTracker s p mon) k v else withTracker s p mon)
      = withTracker (if c then setParam s k v else s) p mon := by
  split <;> rfl

theorem attrlistParams_withTracker (env : Env) (s : EndpointSecurityImpl) (p : String)
    (mon : List (Int × Int)) (a : attrlist) :
    attrlistParams env (withTracker s p mon) a = withTracker (attrlistParams env s a) p mon := by
  simp only [attrlistParams, ite_setParam_withTracker]

theorem execArgsLoop_withTracker (args : List es_string_token_t) :
    ∀ (s : EndpointSecurityImpl) (p : String) (mon : List (Int × Int)) (i : Nat),
      execArgsLoop (withTracker s p mon) i args = withTracker (execArgsLoop s i args) p mon := by
  induction args with
  | nil => intro s p mon i; rfl
  | cons tok rest ih =>
    intro s p mon i
    simp only [execArgsLoop]
    by_cases hi : i > 0
    · simp only [hi, if_true, readParam_withTracker, setParam_withTracker, ih]
    · simp only [hi, if_false, readParam_withTracker, setParam_withTracker, ih]

theorem on_exec_decode_withTracker (env : Env) (s : EndpointSecurityImpl) (p : String)
    (mon : List (Int × Int)) (ev : es_event_exec_t) :
    on_exec_decode env (withTracker s p mon) ev = withTracker (on_exec_decode env s ev) p mon := by
  simp only [on_exec_decode, setKind_withTracker, getEsProcess_withTracker, setParam_withTracker,
    withTracker_event, setFilename_withTracker, execArgsLoop_withTracker]

theorem mapFind_mapTouch {α β : Type} [DecidableEq α] [Inhabited β] (lt : α → α → Bool)
    (m : List (α × β)) (k j : α) :
    mapFind (mapTouch lt m k) j =
      if k = j then some ((mapFind m k).getD default) else mapFind m j := by
  unfold mapTouch
  cases h : mapFind m k with
  | none =>
    simp only [mapFind_mapAssign, Option.getD_none]
  | some v =>
    by_cases e : k = j
    · subst e
      simp [h]
    · simp [e]

theorem mapTouch_of_found {α β : Type} [DecidableEq α] [Inhabited β] (lt : α → α → Bool)
    (m : List (α × β)) (k : α) (v : β) (h : mapFind m k = some v) : mapTouch lt m k = m := by
  simp [mapTouch, h]

theorem touchParam_of_found (s : EndpointSecurityImpl) (k v : String)
    (h : mapFind s.event.parameters k = some v) : touchParam s k = s := by
  simp [touchParam, mapTouch_of_found strLt _ k v h]

/-- The error and the event `on_exit` leaves, whatever the tracked set. -/
theorem on_exit_event (s : EndpointSecurityImpl) (pid stat : Int) :
    (on_exit s pid stat).2
      = (if WIFEXITED stat = true ∨ WIFSIGNALED stat = true then none else some "Invalid exit") ∧
    (on_exit s pid stat).1.event =
      (if WIFEXITED stat = true then
        setParam (setParam (setKind s "exit") "stat" (to_string stat)) "stat_desc"
          ("normal exit with code " ++ to_string_u (WEXITSTATUS stat))
      else if WIFSIGNALED stat = true then
        setParam (setParam (setKind s "exit") "stat" (to_string stat)) "stat_desc"
          ("killed by signal " ++ to_string_u (WTERMSIG stat)
            ++ (if WCOREDUMP stat then " (coredump created)" else ""))
      else setParam (setKind s "exit") "stat" (to_string stat)).event := by
  unfold on_exit
  by_cases h0 : WIFEXITED stat = true
  · simp only [h0, if_true, true_or]
    split <;> exact ⟨rfl, rfl⟩
  · by_cases h1 : WIFSIGNALED stat = true
    · simp only [h0, h1, if_true, if_false, or_true, Bool.false_eq_true]
      split <;> exact ⟨rfl, rfl⟩
    · simp only [h0, h1, if_false, or_self, Bool.false_eq_true]
      constructor <;> first | rfl | trivial

/-- The event `on_fork` leaves, whatever the tracked set. -/
theorem on_fork_event (env : Env) (s : EndpointSecurityImpl) (pid : Int)
    (child : Option es_process_t) :
    (on_fork env s pid child).1.event
      = (getEsProcess env (setKind s "fork") child "child_").event := by
  have hfind : mapFind (getEsProcess env (setKind s "fork") child "child_").event.parameters
      "child_pid" = some (to_string (recordedPid child)) := by
    cases child with
    | none => exact getEsProcess_none_child_pid env _
    | some p => exact getEsProcess_child_pid env _ p
  unfold on_fork
  simp only [touchParam_of_found _ _ _ hfind]
  split
  · split <;> rfl
  · rfl

theorem on_exec_decode_target_pid (env : Env) (s : EndpointSecurityImpl) (ev : es_event_exec_t) :
    mapFind (on_exec_decode env s ev).event.parameters "target_pid"
      = some (to_string (recordedPid ev.target)) := by
  rw [on_exec_decode_find env s ev "target_pid" (by decide)]
  cases ev.target with
  | none => exact (getEsProcess_none_target env _).1
  | some p => exact getEsProcess_target_pid env _ p

theorem stoi_recordedPid (process : Option es_process_t) :
    stoi (to_string (recordedPid process)) = some (recordedPid process) := by
  cases process with
  | none => exact stoi_minus_one
  | some p => exact stoi_to_string_pid p.audit_token

/-- The error and the event `on_exec` leaves, whatever the tracked set. -/
theorem on_exec_event (env : Env) (s : EndpointSecurityImpl) (ev : es_event_exec_t) :
    (on_exec env s ev).2 = none ∧
    (on_exec env s ev).1.event =
      (if s.monitoredProcessPath ≠ "" then touchParam (on_exec_decode env s ev) "target_executable"
        else on_exec_decode env s ev).event := by
  have hpid := on_exec_decode_target_pid env s ev
  have hpath := (on_exec_decode_frame env s ev).2
  have hpid2 : mapFind (touchParam (on_exec_decode env s ev) "target_executable").event.parameters
      "target_pid" = some (to_string (recordedPid ev.target)) := by
    simp only [touchParam, mapFind_mapTouch, hpid]
    simp
  have hread : readParam (touchParam (on_exec_decode env s ev) "target_executable") "target_pid"
      = to_string (recordedPid ev.target) := by
    simp [readParam, mapAt, hpid2]
  unfold on_exec on_exec_track
  by_cases hF : s.monitoredProcessPath ≠ ""
  · simp only [hpath, hread, stoi_recordedPid, touchParam_of_found _ _ _ hpid2, if_pos hF]
    split <;> constructor <;> rfl
  · simp only [hpath, if_neg hF]
    exact ⟨trivial, trivial⟩

theorem on_exec_congr (env : Env) (a b : EndpointSecurityImpl) (ev : es_event_exec_t)
    (hk : ∀ n, setKind b n = withTracker (setKind a n) b.monitoredProcessPath b.monitoredProcesses)
    (hp : a.monitoredProcessPath = b.monitoredProcessPath) :
    (on_exec env b ev).2 = (on_exec env a ev).2 ∧
    (on_exec env b ev).1.event = (on_exec env a ev).1.event := by
  have hd : on_exec_decode env b ev
      = withTracker (on_exec_decode env a ev) b.monitoredProcessPath b.monitoredProcesses := by
    simp only [on_exec_decode, hk, getEsProcess_withTracker, setParam_withTracker,
      withTracker_event, setFilename_withTracker, execArgsLoop_withTracker]
  refine ⟨by rw [(on_exec_event env b ev).1, (on_exec_event env a ev).1], ?_⟩
  rw [(on_exec_event env b ev).2, (on_exec_event env a ev).2, hd, hp]
  split <;> rfl

theorem on_fork_congr (env : Env) (a b : EndpointSecurityImpl) (pid : Int)
    (child : Option es_process_t)
    (hk : ∀ n, setKind b n = withTracker (setKind a n) b.monitoredProcessPath b.monitoredProcesses) :
    (on_fork env b pid child).2 = (on_fork env a pid child).2 ∧
    (on_fork env b pid child).1.event = (on_fork env a pid child).1.event := by
  refine ⟨by rw [(on_fork_spec env b pid child).1, (on_fork_spec env a pid child).1], ?_⟩
  rw [on_fork_event, on_fork_event, hk, getEsProcess_withTracker, withTracker_event]

theorem ite_withTracker (c : Prop) [Decidable c] (x y : EndpointSecurityImpl) (p : String)
    (mon : List (Int × Int)) :
    (if c then withTracker x p mon else withTracker y p mon)
      = withTracker (if c then x else y) p mon := by
  split <;> rfl

theorem on_exit_congr (a b : EndpointSecurityImpl) (pid stat : Int)
    (hk : ∀ n, setKind b n = withTracker (setKind a n) b.monitoredProcessPath b.monitoredProcesses) :
    (on_exit b pid stat).2 = (on_exit a pid stat).2 ∧
    (on_exit b pid stat).1.event = (on_exit a pid stat).1.event := by
  refine ⟨by rw [(on_exit_event b pid stat).1, (on_exit_event a pid stat).1], ?_⟩
  rw [(on_exit_event b pid stat).2, (on_exit_event a pid stat).2]
  simp only [hk, setParam_withTracker, ite_withTracker, withTracker_event]

theorem on_create_congr (env : Env) (a b : EndpointSecurityImpl) (ev : es_event_create_t)
    (hk : ∀ n, setKind b n = withTracker (setKind a n) b.monitoredProcessPath b.monitoredProcesses) :
    (on_create env b ev).2 = (on_create env a ev).2 ∧
    (on_create env b ev).1.event = (on_create env a ev).1.event := by
  refine ⟨by rw [on_create_error, on_create_error], ?_⟩
  unfold on_create
  simp only [hk, on_open, setParam_withTracker, touchParam_withTracker, readParam_withTracker,
    setFilename_withTracker]
  split
  · rfl
  · split <;> rfl

theorem on_rename_congr (a b : EndpointSecurityImpl) (ev : es_event_rename_t)
    (hk : ∀ n, setKind b n = withTracker (setKind a n) b.monitoredProcessPath b.monitoredProcesses) :
    (on_rename b ev).2 = (on_rename a ev).2 ∧
    (on_rename b ev).1.event = (on_rename a ev).1.event := by
  refine ⟨by rw [on_rename_error, on_rename_error], ?_⟩
  unfold on_rename
  simp only [hk, setParam_withTracker, touchParam_withTracker, readParam_withTracker,
    setFilename_withTracker]
  split
  · rfl
  · split <;> rfl

theorem on_proc_check_congr (env : Env) (a b : EndpointSecurityImpl) (flavor : Int)
    (target : Option es_process_t) (type : Int)
    (hk : ∀ n, setKind b n = withTracker (setKind a n) b.monitoredProcessPath b.monitoredProcesses) :
    (on_proc_check env b flavor target type).event
      = (on_proc_check env a flavor target type).event := by
  cases target <;>
    simp only [on_proc_check, hk, setParam_withTracker, getEsProcess_withTracker,
      withTracker_event]

set_option maxHeartbeats 2000000 in
/-- The dispatch switch, run on two states that agree on the filter path and on every field of
the event but its kind, fails alike and leaves the same event. -/
theorem dispatch_congr (env : Env) (a b : EndpointSecurityImpl) (pid : Int)
    (t : es_event_type_t) (e : es_events_t)
    (hk : ∀ n, setKind b n = withTracker (setKind a n) b.monitoredProcessPath b.monitoredProcesses)
    (hp : a.monitoredProcessPath = b.monitoredProcessPath)
    (hh : t.handledBySwitch = true) :
    (dispatch env b pid t e).2 = (dispatch env a pid t e).2 ∧
    (dispatch env b pid t e).1.event = (dispatch env a pid t e).1.event := by
  cases t <;>
    first
    | exact absurd hh (by decide)
    | exact on_create_congr env a b e.create hk
    | exact on_rename_congr a b e.rename hk
    | exact on_exit_congr a b pid e.exit.stat hk
    | exact on_fork_congr env a b pid e.fork.child hk
    | exact on_exec_congr env a b e.exec hk hp
    | exact ⟨rfl, on_proc_check_congr env a b _ _ _ hk⟩
    | (simp only [dispatch,
        on_access, on_chdir, on_chroot, on_clone, on_close, on_deleteextattr, on_dup,
        on_exchangedata, on_fcntl, on_file_provider_materialize, on_file_provider_update,
        on_fsgetpath, on_getattrlist, on_getextattr, on_get_task, on_iokit_open, on_kextload,
        on_kextunload, on_link, on_listextattr, on_lookup, on_mmap, on_mount, on_mprotect, on_open,
        on_pty_close, on_pty_grant, on_readdir, on_readlink, on_setacl,
        on_setattrlist, on_setextattr, on_setflags, on_setmode, on_setowner, on_settime, on_signal,
        on_stat, on_truncate, on_uipc_bind, on_uipc_connect, on_unlink, on_unmount, on_utimes,
        on_write, hk, setParam_withTracker, setFilename_withTracker, touchParam_withTracker,
        readParam_withTracker, getEsProcess_withTracker, attrlistParams_withTracker,
        getStatFs_withTracker, withTracker_event, and_self]; done)
    | simp [es_event_type_t.handledBySwitch] at hh

theorem on_event_congr (env : Env) (s1 s2 : EndpointSecurityImpl) (m : es_message_t)
    (hp : s1.monitoredProcessPath = s2.monitoredProcessPath) (hs : ¬ suppressed env m) :
    (on_event env s2 m).error = (on_event env s1 m).error ∧
    ((on_event env s1 m).error = none →
      (on_event env s2 m).impl.event = (on_event env s1 m).impl.event) := by
  obtain ⟨hi1, he1, _⟩ := on_event_pass_fields env s1 m hs
  obtain ⟨hi2, he2, _⟩ := on_event_pass_fields env s2 m hs
  have hk : ∀ n, setKind (filled env s2 m) n
      = withTracker (setKind (filled env s1 m) n) (filled env s2 m).monitoredProcessPath
          (filled env s2 m).monitoredProcesses := fun _ => rfl
  have hp2 : (filled env s1 m).monitoredProcessPath = (filled env s2 m).monitoredProcessPath := hp
  cases hh : m.event_type.handledBySwitch with
  | true =>
    obtain ⟨c1, c2⟩ := dispatch_congr env (filled env s1 m) (filled env s2 m)
      (audit_token_to_pid m.process.audit_token) m.event_type m.event hk hp2 hh
    rw [he1, he2, hi1, hi2]
    exact ⟨c1, fun _ => c2⟩
  | false =>
    rw [he1, he2, dispatch_unhandled _ _ _ _ _ hh, dispatch_unhandled _ _ _ _ _ hh]
    exact ⟨rfl, fun h => by cases h⟩

theorem handler_path (env : Env) (s : EndpointSecurityImpl) (m : es_message_t) :
    (handler env s m).impl.monitoredProcessPath = s.monitoredProcessPath := by
  rw [handler_impl]
  by_cases hs : suppressed env m
  · exact (on_event_suppressed_frame env s m hs).2
  · rw [(on_event_pass_fields env s m hs).1]
    exact dispatch_path env (filled env s m) _ m.event_type m.event

theorem run_path (env : Env) (msgs : List es_message_t) : ∀ s : EndpointSecurityImpl,
    (run env s msgs).impl.monitoredProcessPath = s.monitoredProcessPath := by
  induction msgs with
  | nil => intro s; rfl
  | cons m rest ih =>
    intro s
    simp only [run]
    split
    · exact handler_path env s m
    · simp only []
      rw [ih]
      exact handler_path env s m

/-- C17: no cross-event leakage. For a configured agent (filter path and environment fixed) and
every message that passes suppression, decoding the message fails or succeeds alike, and on
success leaves the same record (kind, subject path, parameters, time stamps, auth flag and
process fields), (1) from any two prior contents of the reused record and any two tracked sets,
and (2) after any two histories of earlier messages. -/
theorem record_is_function_of_message (env : Env) (m : es_message_t) (hs : ¬ suppressed env m) :
    (∀ (filter : String) (ev1 ev2 : Event) (mon1 mon2 : List (Int × Int)),
      (on_event env ⟨ev2, filter, mon2⟩ m).error = (on_event env ⟨ev1, filter, mon1⟩ m).error ∧
      ((on_event env ⟨ev1, filter, mon1⟩ m).error = none →
        (on_event env ⟨ev2, filter, mon2⟩ m).impl.event
          = (on_event env ⟨ev1, filter, mon1⟩ m).impl.event)) ∧
    (∀ (s0 : EndpointSecurityImpl) (earlier1 earlier2 : List es_message_t),
      (on_event env (run env s0 earlier2).impl m).error
        = (on_event env (run env s0 earlier1).impl m).error ∧
      ((on_event env (run env s0 earlier1).impl m).error = none →
        (on_event env (run env s0 earlier2).impl m).impl.event
          = (on_event env (run env s0 earlier1).impl m).impl.event)) := by
  constructor
  · intro filter ev1 ev2 mon1 mon2
    exact on_event_congr env ⟨ev1, filter, mon1⟩ ⟨ev2, filter, mon2⟩ m rfl hs
  · intro s0 e1 e2
    exact on_event_congr env _ _ m (by rw [run_path, run_path]) hs

/-- Witness of C17: the open of `/tmp/x` by pid 100 decodes to the same record in a fresh agent
and after an exec and an exit were handled. -/
theorem record_is_function_of_message_witness :
    ¬ suppressed exEnv exNotifyOpen ∧
      (on_event exEnv (run exEnv exFilterState []).impl exNotifyOpen).error = none ∧
      (on_event exEnv (run exEnv exFilterState [exExec, exExit]).impl exNotifyOpen).impl.event
        = (on_event exEnv (run exEnv exFilterState []).impl exNotifyOpen).impl.event :=
  ⟨by decide, by decide,
    ((record_is_function_of_message exEnv exNotifyOpen (by decide)).2 exFilterState []
      [exExec, exExit]).2 (by decide)⟩

/-! ## The argument list of exec (C18) -/

theorem escapeQuotes_eq (l : List Char) :
    escapeQuotes l = (l.map (fun c => if c = dquote then [backslash, dquote] else [c])).flatten := by
  induction l with
  | nil => rfl
  | cons c cs ih =>
    by_cases h : c = dquote
    · simp [escapeQuotes, h, ih]
    · simp [escapeQuotes, h, ih]

theorem execArgsLoop_args_pos (args : List es_string_token_t) :
    ∀ (s : EndpointSecurityImpl) (i : Nat) (acc : String), 0 < i →
      mapFind s.event.parameters "target_args" = some acc →
      mapFind (execArgsLoop s i args).event.parameters "target_args"
        = some (String.intercalate.go acc " " (args.map (fun t => quotedArg (getEsStringToken t)))) := by
  induction args with
  | nil => intro s i acc _ h; exact h
  | cons tok rest ih =>
    intro s i acc hi h
    simp only [execArgsLoop, gt_iff_lt, hi, if_true, List.map_cons, String.intercalate.go]
    apply ih _ (i + 1) _ (Nat.succ_pos _)
    simp only [setParam, readParam, mapAt, mapFind_mapAssign, h, if_true, Option.getD_some,
      quotedArg, escapedArg, escapeQuotes_eq]

theorem execArgsLoop_args_zero (args : List es_string_token_t) (s : EndpointSecurityImpl)
    (h : mapFind s.event.parameters "target_args" = some "") :
    mapFind (execArgsLoop s 0 args).event.parameters "target_args"
      = some (renderedArgs (args.map getEsStringToken)) := by
  cases args with
  | nil => exact h
  | cons tok rest =>
    simp only [execArgsLoop, gt_iff_lt, Nat.lt_irrefl, if_false, renderedArgs, List.map_cons,
      String.intercalate, List.map_map]
    apply execArgsLoop_args_pos rest _ 1 _ Nat.one_pos
    simp only [setParam, readParam, mapAt, mapFind_mapAssign, h, if_true, Option.getD_some,
      quotedArg, escapedArg, escapeQuotes_eq]
    congr 1

theorem on_exec_track_find (s : EndpointSecurityImpl) (k : String)
    (h1 : k ≠ "target_executable") (h2 : k ≠ "target_pid") :
    mapFind (on_exec_track s).1.event.parameters k = mapFind s.event.parameters k := by
  have e1 : ¬ "target_executable" = k := fun e => h1 e.symm
  have e2 : ¬ "target_pid" = k := fun e => h2 e.symm
  unfold on_exec_track
  simp only []
  split
  · split
    · split <;> simp only [touchParam, mapFind_mapTouch, e1, e2, if_false]
    · simp only [touchParam, mapFind_mapTouch, e1, if_false]
  · rfl

/-- C18: for every exec event, the `target_args` parameter of the record is the arguments in
order, each with every double quote replaced by backslash + double quote and then wrapped in
double quotes, joined by single spaces; it is the empty string when there is no argument. -/
theorem exec_target_args_rendering (env : Env) (s : EndpointSecurityImpl) (ev : es_event_exec_t) :
    mapFind (on_exec env s ev).1.event.parameters "target_args"
      = some (renderedArgs (ev.args.map getEsStringToken)) ∧
    (ev.args = [] → mapFind (on_exec env s ev).1.event.parameters "target_args" = some "") := by
  have key : mapFind (on_exec env s ev).1.event.parameters "target_args"
      = some (renderedArgs (ev.args.map getEsStringToken)) := by
    unfold on_exec
    rw [on_exec_track_find _ _ (by decide) (by decide)]
    unfold on_exec_decode
    apply execArgsLoop_args_zero
    simp only [setFilename, setParam, mapFind_mapAssign, if_true]
  refine ⟨key, ?_⟩
  intro h
  rw [key, h]
  rfl

/-- Witness of C18: the arguments `echo` and `say "hi"`. -/
theorem exec_target_args_rendering_witness :
    mapFind (on_exec exEnv exState exExecArgs).1.event.parameters "target_args"
        = some (renderedArgs ["echo", String.mk [Char.ofNat 115, Char.ofNat 97, Char.ofNat 121,
            Char.ofNat 32, Char.ofNat 34, Char.ofNat 104, Char.ofNat 105, Char.ofNat 34]]) ∧
      (on_exec exEnv exState { target := none, args := [] }).1.event.parameters
        = [("target_args", ""), ("target_pid", "-1")] :=
  ⟨(exec_target_args_rendering exEnv exState exExecArgs).1.trans (by decide), by decide⟩

/-! ## Absent process descriptors (C19, C20) -/

/-- C19: for every parameters mapping and every prefix p, `getEsProcess` called with an absent
descriptor sets parameters[p + "pid"] to "-1" and leaves the lookup of every other key as it
was (no other key is added, removed or modified); nothing else of the state changes. -/
theorem getEsProcess_absent_sets_only_pid (env : Env) (s : EndpointSecurityImpl) (pfx : String) :
    mapFind (getEsProcess env s none pfx).event.parameters (pfx ++ "pid") = some "-1" ∧
    (∀ k : String, k ≠ pfx ++ "pid" →
      mapFind (getEsProcess env s none pfx).event.parameters k = mapFind s.event.parameters k) ∧
    (getEsProcess env s none pfx).event.parameters
      = mapAssign strLt s.event.parameters (pfx ++ "pid") "-1" ∧
    (getEsProcess env s none pfx).event.event = s.event.event ∧
    (getEsProcess env s none pfx).event.filename = s.event.filename ∧
    (getEsProcess env s none pfx).monitoredProcesses = s.monitoredProcesses := by
  refine ⟨?_, ?_, rfl, rfl, rfl, rfl⟩
  · simp only [getEsProcess, setParam, mapFind_mapAssign, if_true]
  · intro k hk
    have hk2 : ¬ pfx ++ "pid" = k := fun e => hk e.symm
    simp only [getEsProcess, setParam, mapFind_mapAssign, hk2, if_false]

/-- Witness of C19: the prefix `child_` on a mapping that already holds two entries. -/
theorem getEsProcess_absent_sets_only_pid_witness :
    ("child_euid" : String) ≠ "child_" ++ "pid" ∧
      mapFind (getEsProcess exEnv
        { event := { parameters := [("child_euid", "7"), ("target", "/tmp/x")] } } none
        "child_").event.parameters "child_euid" = some "7" :=
  ⟨by decide,
    ((getEsProcess_absent_sets_only_pid exEnv
      { event := { parameters := [("child_euid", "7"), ("target", "/tmp/x")] } } "child_").2.1
        "child_euid" (by decide)).trans (by decide)⟩

/-- Counterexample to C20: the record of a proc_check whose target is absent has no `target_pid`
sentinel at all, and the record of a get_task whose target is absent has a `target_executable`
parameter (with the empty value) next to the sentinel. -/
theorem absent_target_proc_check_and_get_task :
    (on_event exEnv exState exProcCheckAbsent).error = none ∧
      (on_event exEnv exState exProcCheckAbsent).impl.event.parameters
        = [("flavor", "2"), ("type", "[?] (3)")] ∧
      mapFind (on_event exEnv exState exProcCheckAbsent).impl.event.parameters "target_pid"
        = none ∧
      (on_event exEnv exState exGetTaskAbsent).impl.event.parameters
        = [("target_executable", ""), ("target_pid", "-1")] := by
  decide

theorem on_signal_absent_params (env : Env) (s : EndpointSecurityImpl) (sig : Nat)
    (hclear : s.event.parameters = []) (k : String) :
    mapFind (on_signal env s none sig).event.parameters k =
      if "sig" = k then some (to_string_u sig)
      else if "target_pid" = k then some "-1" else none := by
  simp only [on_signal, getEsProcess, setParam, setKind, mapFind_mapAssign, hclear, mapFind]
  rfl

theorem on_fork_absent_params (env : Env) (s : EndpointSecurityImpl) (pid : Int)
    (hclear : s.event.parameters = []) :
    (on_fork env s pid none).1.event.parameters = [("child_pid", "-1")] := by
  rw [on_fork_event]
  simp only [getEsProcess, setParam, setKind, hclear]
  rfl

theorem on_file_provider_materialize_absent_params (env : Env) (s : EndpointSecurityImpl)
    (source target : Option es_file_t) (hclear : s.event.parameters = []) (k : String) :
    mapFind (on_file_provider_materialize env s none source target).event.parameters k =
      if "target" = k then some (getEsFile target)
      else if "instigator_pid" = k then some "-1"
      else if "source" = k then some (getEsFile source) else none := by
  have e : "instigator_" ++ "pid" = "instigator_pid" := by decide
  simp only [on_file_provider_materialize, getEsProcess, setParam, setKind, mapFind_mapAssign,
    hclear, mapFind, e]

theorem on_get_task_absent_params (env : Env) (s : EndpointSecurityImpl)
    (hclear : s.event.parameters = []) :
    (on_get_task env s none).event.parameters
      = [("target_executable", ""), ("target_pid", "-1")] := by
  simp only [on_get_task, getEsProcess, setParam, setKind, setFilename, touchParam, hclear]
  decide

theorem on_proc_check_absent_params (env : Env) (s : EndpointSecurityImpl) (flavor type : Int)
    (hclear : s.event.parameters = []) (k : String) :
    mapFind (on_proc_check env s flavor none type).event.parameters k =
      if "type" = k then some (getValue env.value_map_proc_check_type (toUInt32 type))
      else if "flavor" = k then some (to_string flavor) else none := by
  simp only [on_proc_check, setParam, setKind, mapFind_mapAssign, hclear, mapFind]

theorem on_exec_absent_params (env : Env) (s : EndpointSecurityImpl)
    (args : List es_string_token_t) (hclear : s.event.parameters = []) (k : String)
    (h1 : k ≠ "target_executable") (h2 : k ≠ "target_args") :
    mapFind (on_exec env s { target := none, args := args }).1.event.parameters k =
      if "target_pid" = k then some "-1" else none := by
  by_cases hp : k = "target_pid"
  · subst hp
    have hpid := on_exec_decode_target_pid env s { target := none, args := args }
    have hnone := (on_exec_event env s { target := none, args := args }).2
    rw [hnone]
    split
    · simp only [touchParam, mapFind_mapTouch, hpid]
      simp [recordedPid]
      decide
    · rw [hpid]
      simp [recordedPid]
      decide
  · unfold on_exec
    rw [on_exec_track_find _ _ h1 hp, on_exec_decode_find _ _ _ _ h2]
    have hp2 : ¬ "target_pid" = k := fun e => hp e.symm
    have e : "target_" ++ "pid" = "target_pid" := by decide
    simp only [getEsProcess, setParam, setKind, mapFind_mapAssign, hclear, mapFind, e, hp2,
      if_false]
/-- C20, amended: on the state `on_event` prepares (parameters cleared), when the embedded
descriptor is absent: signal (under `target_`), fork (under `child_`) and
file_provider_materialize (under `instigator_`) record the sentinel "<prefix>pid" = "-1" and no
other ProcessInfo key under the prefix; exec and get_task record the sentinel `target_pid` = "-1"
and no other ProcessInfo key under `target_` apart from `target_executable`, about which nothing
is said; proc_check, which guards the extraction with a null test, records no ProcessInfo key
under `target_` at all, not even the sentinel. -/
theorem absent_descriptor_sentinel (env : Env) (s : EndpointSecurityImpl) (m : es_message_t) :
    (∀ sig : Nat,
      mapFind (on_signal env (filled env s m) none sig).event.parameters "target_pid"
        = some "-1" ∧
      ∀ suffix ∈ processInfoSuffixes, suffix ≠ "pid" →
        mapFind (on_signal env (filled env s m) none sig).event.parameters ("target_" ++ suffix)
          = none) ∧
    (∀ pid : Int,
      mapFind (on_fork env (filled env s m) pid none).1.event.parameters "child_pid"
        = some "-1" ∧
      ∀ suffix ∈ processInfoSuffixes, suffix ≠ "pid" →
        mapFind (on_fork env (filled env s m) pid none).1.event.parameters ("child_" ++ suffix)
          = none) ∧
    (∀ source target : Option es_file_t,
      mapFind (on_file_provider_materialize env (filled env s m) none source
        target).event.parameters "instigator_pid" = some "-1" ∧
      ∀ suffix ∈ processInfoSuffixes, suffix ≠ "pid" →
        mapFind (on_file_provider_materialize env (filled env s m) none source
          target).event.parameters ("instigator_" ++ suffix) = none) ∧
    (∀ args : List es_string_token_t,
      mapFind (on_exec env (filled env s m) { target := none, args := args }).1.event.parameters
        "target_pid" = some "-1" ∧
      ∀ suffix ∈ processInfoSuffixes, suffix ≠ "pid" → suffix ≠ "executable" →
        mapFind (on_exec env (filled env s m)
          { target := none, args := args }).1.event.parameters ("target_" ++ suffix) = none) ∧
    (mapFind (on_get_task env (filled env s m) none).event.parameters "target_pid" = some "-1" ∧
      ∀ suffix ∈ processInfoSuffixes, suffix ≠ "pid" → suffix ≠ "executable" →
        mapFind (on_get_task env (filled env s m) none).event.parameters ("target_" ++ suffix)
          = none) ∧
    (∀ (flavor type : Int), ∀ suffix ∈ processInfoSuffixes,
      mapFind (on_proc_check env (filled env s m) flavor none type).event.parameters
        ("target_" ++ suffix) = none) := by
  have hclear : (filled env s m).event.parameters = [] := rfl
  refine ⟨?_, ?_, ?_, ?_, ?_, ?_⟩
  · intro sig
    refine ⟨by rw [on_signal_absent_params env _ sig hclear]; simp, ?_⟩
    simp only [processInfoSuffixes, List.forall_mem_cons, List.not_mem_nil, false_implies,
      implies_true, and_true]
    repeat' constructor
    all_goals intro h
    all_goals first | exact absurd rfl h | (rw [on_signal_absent_params env _ sig hclear]; simp)
  · intro pid
    rw [on_fork_absent_params env _ pid hclear]
    refine ⟨by decide, ?_⟩
    decide
  · intro source target
    refine ⟨by rw [on_file_provider_materialize_absent_params env _ source target hclear]; simp,
      ?_⟩
    simp only [processInfoSuffixes, List.forall_mem_cons, List.not_mem_nil, false_implies,
      implies_true, and_true]
    repeat' constructor
    all_goals intro h
    all_goals first
      | exact absurd rfl h
      | (rw [on_file_provider_materialize_absent_params env _ source target hclear]; simp)
  · intro args
    refine ⟨by rw [on_exec_absent_params env _ args hclear _ (by decide) (by decide)]; simp, ?_⟩
    simp only [processInfoSuffixes, List.forall_mem_cons, List.not_mem_nil, false_implies,
      implies_true, and_true]
    repeat' constructor
    all_goals intro h h2
    all_goals first
      | exact absurd rfl h
      | exact absurd rfl h2
      | (rw [on_exec_absent_params env _ args hclear _ (by decide) (by decide)]; simp)
  · rw [on_get_task_absent_params env _ hclear]
    refine ⟨by decide, ?_⟩
    decide
  · intro flavor type
    simp only [processInfoSuffixes, List.forall_mem_cons, List.not_mem_nil, false_implies,
      implies_true, and_true]
    repeat' constructor

/-- Witness of C20, amended: a signal whose target is absent records `target_pid` = "-1" and no
`target_executable`. -/
theorem absent_descriptor_sentinel_witness :
    ("executable" : String) ∈ processInfoSuffixes ∧ ("executable" : String) ≠ "pid" ∧
      mapFind (on_signal exEnv (filled exEnv exState exSignalAbsent) none 15).event.parameters
        ("target_" ++ "executable") = none :=
  ⟨by decide, by decide,
    ((absent_descriptor_sentinel exEnv exState exSignalAbsent).1 15).2 "executable" (by decide)
      (by decide)⟩

/-! ## C21: the fields `getEsProcess` writes -/

theorem string_append_right_inj (p a b : String) : p ++ a = p ++ b ↔ a = b := by
  constructor
  · intro h
    have := congrArg String.data h
    simp only [String.data_append, List.append_cancel_left_eq] at this
    exact String.ext this
  · rintro rfl; rfl

theorem getEsProcess_present_find (env : Env) (s : EndpointSecurityImpl) (p : es_process_t)
    (pfx : String) :
    ∀ f ∈ processInfoFields env p,
      mapFind (getEsProcess env s (some p) pfx).event.parameters (pfx ++ f.1) = some f.2 := by
  intro f hf
  simp only [processInfoFields, List.mem_cons, List.mem_singleton, List.not_mem_nil, or_false] at hf
  rcases hf with rfl | rfl | rfl | rfl | rfl | rfl | rfl | rfl | rfl | rfl | rfl | rfl | rfl | rfl | rfl | rfl <;>
    simp [getEsProcess, setParam, mapFind_mapAssign, string_append_right_inj, boolText]

theorem getEsProcess_present_other (env : Env) (s : EndpointSecurityImpl) (p : es_process_t)
    (pfx k : String) (hk : ∀ suf ∈ processInfoSuffixes, k ≠ pfx ++ suf) :
    mapFind (getEsProcess env s (some p) pfx).event.parameters k = mapFind s.event.parameters k := by
  simp only [processInfoSuffixes, List.mem_cons, List.mem_singleton, List.not_mem_nil, or_false,
    forall_eq_or_imp, forall_eq] at hk
  obtain ⟨h1, h2, h3, h4, h5, h6, h7, h8, h9, h10, h11, h12, h13, h14, h15, h16⟩ := hk
  simp only [getEsProcess, setParam, mapFind_mapAssign]
  simp [Ne.symm h1, Ne.symm h2, Ne.symm h3, Ne.symm h4, Ne.symm h5, Ne.symm h6, Ne.symm h7,
    Ne.symm h8, Ne.symm h9, Ne.symm h10, Ne.symm h11, Ne.symm h12, Ne.symm h13, Ne.symm h14,
    Ne.symm h15, Ne.symm h16]

/-- C21, counterexample: for the present descriptor of pid 100 under the prefix `target_`,
`getEsProcess` writes sixteen keys, none of them for a thread id or a start time, and a
descriptor that differs only in its start time yields the same parameters. -/
theorem getEsProcess_omits_thread_id_and_start_time :
    (getEsProcess exEnv exState (some (exProcess 100 "/opt/app/bin")) "target_").event.parameters.map
        Prod.fst
      = ["target_csflags", "target_csflags_desc", "target_egid", "target_euid",
          "target_executable", "target_gid", "target_is_es_client", "target_is_platform_binary",
          "target_oppid", "target_pid", "target_ppid", "target_rgid", "target_ruid", "target_sid",
          "target_signing_id", "target_team_id"] ∧
      ({ exProcess 100 "/opt/app/bin" with start_time := { tv_sec := 1700000000 } } :
          es_process_t).start_time.tv_sec ≠ (exProcess 100 "/opt/app/bin").start_time.tv_sec ∧
      (getEsProcess exEnv exState
          (some { exProcess 100 "/opt/app/bin" with start_time := { tv_sec := 1700000000 } })
          "target_").event.parameters
        = (getEsProcess exEnv exState (some (exProcess 100 "/opt/app/bin"))
            "target_").event.parameters := by
  refine ⟨by decide, by decide, rfl⟩

/-- C21 (amended): for a present descriptor `p` and a prefix `pfx`, `getEsProcess` writes, under
`pfx` followed by the suffix, the sixteen fields pid, euid, ruid, rgid, egid, ppid, original
ppid, group id, session id, code-signing flags raw (decimal) and decoded (`getBitmask` over the
code-signing table), platform-binary flag, is-monitoring-client flag, signing identity, team
identifier and executable path; every other key, the kind, the subject path and the tracker are
left as they were. The start time of the descriptor is not read: changing it changes nothing.
Thread id and start time exist for the reporting process only, as the Record fields `on_event`
fills from the message envelope. -/
theorem getEsProcess_present_writes_sixteen_fields (env : Env) (s : EndpointSecurityImpl)
    (p : es_process_t) (pfx : String) :
    (∀ f ∈ processInfoFields env p,
      mapFind (getEsProcess env s (some p) pfx).event.parameters (pfx ++ f.1) = some f.2) ∧
    (processInfoFields env p).map Prod.fst = processInfoSuffixes ∧
    (∀ k : String, (∀ suf ∈ processInfoSuffixes, k ≠ pfx ++ suf) →
      mapFind (getEsProcess env s (some p) pfx).event.parameters k = mapFind s.event.parameters k) ∧
    (∀ t : timespec,
      getEsProcess env s (some { p with start_time := t }) pfx = getEsProcess env s (some p) pfx) ∧
    (getEsProcess env s (some p) pfx).event.event = s.event.event ∧
    (getEsProcess env s (some p) pfx).event.filename = s.event.filename ∧
    (getEsProcess env s (some p) pfx).monitoredProcesses = s.monitoredProcesses ∧
    (∀ (m : es_message_t) (pid : Int),
      (fillEvent env s.event m pid).process_thread_id = m.thread_id ∧
      (fillEvent env s.event m pid).process_start_time
        = timespecToString env m.process.start_time.tv_sec) :=
  ⟨getEsProcess_present_find env s p pfx, rfl,
    fun k hk => getEsProcess_present_other env s p pfx k hk,
    fun _ => by simp only [getEsProcess],
    getEsProcess_kind env s (some p) pfx,
    by simp only [getEsProcess, setParam],
    getEsProcess_mon env s (some p) pfx,
    fun _ _ => ⟨rfl, rfl⟩⟩

/-- C21, witness: the descriptor of pid 100 running `/opt/app/bin` under `target_`. -/
theorem getEsProcess_present_writes_sixteen_fields_witness :
    mapFind (getEsProcess exEnv exState (some (exProcess 100 "/opt/app/bin")) "target_").event.parameters
        "target_executable" = some "/opt/app/bin" ∧
      mapFind (getEsProcess exEnv exState (some (exProcess 100 "/opt/app/bin")) "target_").event.parameters
        "target_pid" = some "100" ∧
      mapFind (getEsProcess exEnv exState (some (exProcess 100 "/opt/app/bin")) "target_").event.parameters
        "target_start_time" = none :=
  ⟨(getEsProcess_present_writes_sixteen_fields exEnv exState (exProcess 100 "/opt/app/bin")
      "target_").1 ("executable", "/opt/app/bin") (by decide),
    (getEsProcess_present_writes_sixteen_fields exEnv exState (exProcess 100 "/opt/app/bin")
      "target_").1 ("pid", "100") (by decide),
    ((getEsProcess_present_writes_sixteen_fields exEnv exState (exProcess 100 "/opt/app/bin")
      "target_").2.2.1 "target_start_time" (by decide)).trans rfl⟩

/-! ## C22: the record of an open event -/

set_option maxHeartbeats 1000000 in
theorem dispatch_of_isOpen (env : Env) (s : EndpointSecurityImpl) (pid : Int)
    (t : es_event_type_t) (e : es_events_t) (h : t.isOpen = true) :
    dispatch env s pid t e = (on_open env s e.open_.file e.open_.fflag, none) := by
  cases t <;> first | exact absurd h (by decide) | rfl | simp [es_event_type_t.isOpen] at h

/-- The event `on_open` leaves when it starts from cleared parameters. -/
theorem on_open_event (env : Env) (s : EndpointSecurityImpl) (file : Option es_file_t)
    (fflag : Int) (hp : s.event.parameters = []) :
    (on_open env s file fflag).event =
      { s.event with
        event := "open"
        filename := getEsFile file
        parameters := [("fflag", getBitmask env.value_map_open (toUInt32 fflag)),
                       ("filename", getEsFile file)] } := by
  have h1 : ("filename" : String) ≠ "fflag" := by decide
  have h2 : strLt "fflag" "filename" = true := by decide
  have h3 : ("fflag" : String) ≠ "filename" := by decide
  simp only [on_open, setKind, setParam, touchParam, readParam, setFilename, hp, mapAssign,
    mapTouch, mapFind, mapAt, if_neg h1, if_neg h3, h2, if_true, if_pos, Option.getD]

theorem filled_parameters (env : Env) (s : EndpointSecurityImpl) (m : es_message_t) :
    (filled env s m).event.parameters = [] := rfl

/-- C22: an open event (auth or notify form) that passes the suppression filter decodes without
failure to a Record of kind "open" whose subject path is the path of the file, and whose
parameters are exactly `fflag`, the text `getBitmask` gives for the flag word over the open-flag
table, and `filename`, the path of the file. When no table name is empty the flag text is the
names of the selected flags joined by `|`, then the residual marker if any, then the flag word in
parentheses. -/
theorem open_event_record (env : Env) (s : EndpointSecurityImpl) (m : es_message_t)
    (hs : ¬ suppressed env m) (ht : m.event_type.isOpen = true) :
    (on_event env s m).error = none ∧
    (on_event env s m).impl.event.event = "open" ∧
    (on_event env s m).impl.event.filename = getEsFile m.event.open_.file ∧
    (on_event env s m).impl.event.parameters =
      [("fflag", getBitmask env.value_map_open (toUInt32 m.event.open_.fflag)),
       ("filename", getEsFile m.event.open_.file)] ∧
    mapFind (on_event env s m).impl.event.parameters "filename"
      = some (getEsFile m.event.open_.file) ∧
    mapFind (on_event env s m).impl.event.parameters "fflag"
      = some (getBitmask env.value_map_open (toUInt32 m.event.open_.fflag)) ∧
    ((∀ e ∈ env.value_map_open, e.2 ≠ "") →
      getBitmask env.value_map_open (toUInt32 m.event.open_.fflag) =
        "|".intercalate
            ((getBitmaskSelected env.value_map_open (toUInt32 m.event.open_.fflag)).map Prod.snd)
          ++ (if getBitmaskResidual env.value_map_open (toUInt32 m.event.open_.fflag) ≠ 0 then
                " [" ++ to_string_u
                  (getBitmaskResidual env.value_map_open (toUInt32 m.event.open_.fflag)) ++ "?] ("
              else " (")
          ++ to_string_u (toUInt32 m.event.open_.fflag) ++ ")") := by
  obtain ⟨hi, he, _⟩ := on_event_pass_fields env s m hs
  have hd := dispatch_of_isOpen env (filled env s m) (audit_token_to_pid m.process.audit_token)
    m.event_type m.event ht
  have hev := on_open_event env (filled env s m) m.event.open_.file m.event.open_.fflag
    (filled_parameters env s m)
  rw [hd] at hi he
  simp only [] at hi he
  rw [hi, he, hev]
  refine ⟨rfl, rfl, rfl, rfl, ?_, ?_, fun hne => getBitmask_eq_names _ _ hne⟩
  · simp [mapFind]
  · simp [mapFind]

/-- C22, witness: the auth open of `/tmp/x` with flags read + create (513). -/
theorem open_event_record_witness :
    (on_event exEnvOpen exState exAuthOpen).impl.event.event = "open" ∧
      (on_event exEnvOpen exState exAuthOpen).impl.event.filename = "/tmp/x" ∧
      (on_event exEnvOpen exState exAuthOpen).impl.event.parameters =
        [("fflag", "FREAD|O_CREAT (513)"), ("filename", "/tmp/x")] := by
  have h := open_event_record exEnvOpen exState exAuthOpen (by decide) (by decide)
  refine ⟨h.2.1, h.2.2.1.trans (by decide), h.2.2.2.1.trans (by decide)⟩

/-! ## C23: what the reporting callback writes to the sink -/

/-- C23: for every Record, `event_callback` binds the kind to column 1, the seconds to column 2,
the nanoseconds to column 3, the reporting executable path to column 4, each as it is in the
Record, and to column 5 the sentinel `<missing>` when the subject path is empty and the subject
path itself otherwise; it then steps and resets the statement, and returns 0. -/
theorem event_callback_binds_columns (event : Event) :
    (event_callback event).calls =
      [ SqliteCall.sqlite3_bind_text 1 event.event,
        SqliteCall.sqlite3_bind_double 2 event.time_s,
        SqliteCall.sqlite3_bind_double 3 event.time_ns,
        SqliteCall.sqlite3_bind_text 4 event.process_executable,
        SqliteCall.sqlite3_bind_text 5 (if event.filename = "" then "<missing>" else event.filename),
        SqliteCall.sqlite3_step,
        SqliteCall.sqlite3_reset ] ∧
    (event.filename = "" → boundText (event_callback event).calls 5 = some "<missing>") ∧
    (event.filename ≠ "" → boundText (event_callback event).calls 5 = some event.filename) ∧
    boundText (event_callback event).calls 1 = some event.event ∧
    boundDouble (event_callback event).calls 2 = some event.time_s ∧
    boundDouble (event_callback event).calls 3 = some event.time_ns ∧
    boundText (event_callback event).calls 4 = some event.process_executable ∧
    (event_callback event).result = 0 := by
  have hlen : event.filename.length = 0 ↔ event.filename = "" := by
    constructor
    · intro h
      apply String.ext
      exact List.length_eq_zero.mp h
    · intro h; rw [h]; rfl
  have hcalls : (event_callback event).calls =
      [ SqliteCall.sqlite3_bind_text 1 event.event,
        SqliteCall.sqlite3_bind_double 2 event.time_s,
        SqliteCall.sqlite3_bind_double 3 event.time_ns,
        SqliteCall.sqlite3_bind_text 4 event.process_executable,
        SqliteCall.sqlite3_bind_text 5 (if event.filename = "" then "<missing>" else event.filename),
        SqliteCall.sqlite3_step,
        SqliteCall.sqlite3_reset ] := by
    by_cases h : event.filename = ""
    · simp only [event_callback, h, if_true, String.length_empty]
    · simp only [event_callback, if_neg (mt hlen.mp h), if_neg h]
  refine ⟨hcalls, ?_, ?_, ?_, ?_, ?_, ?_, rfl⟩
  · intro h; rw [hcalls]; simp [boundText, List.findSome?, h]
  · intro h; rw [hcalls]; simp [boundText, List.findSome?, h]
  · rw [hcalls]; simp [boundText, List.findSome?]
  · rw [hcalls]; simp [boundDouble, List.findSome?]
  · rw [hcalls]; simp [boundDouble, List.findSome?]
  · rw [hcalls]; simp [boundText, List.findSome?]

/-- C23, witness: the record of the auth open of `/tmp/x` keeps its subject path, the record of
the link example has none and gets the sentinel. -/
theorem event_callback_binds_columns_witness :
    boundText (event_callback (on_event exEnv exState exAuthOpen).impl.event).calls 5
        = some "/tmp/x" ∧
      boundText (event_callback (on_event exEnv exState exLink).impl.event).calls 5
        = some "<missing>" :=
  ⟨((event_callback_binds_columns (on_event exEnv exState exAuthOpen).impl.event).2.2.1
      (by decide)).trans (by decide),
    (event_callback_binds_columns (on_event exEnv exState exLink).impl.event).2.1 (by decide)⟩

/-! ## C24: the token `+all` of the `-e` option -/

/-- What `+all` appends, whatever was subscribed before: the second component of every entry of
`supportedEvents`, in the order of the map. -/
theorem es_main_events_plus_all (subscriptions : List es_event_type_t) :
    es_main_events subscriptions "+all"
      = some (subscriptions ++ supportedEvents.map (fun e => e.2.2)) := by
  have h : eventTokens "+all".data none = ["+all"] := by decide
  have h2 : es_main_token subscriptions "+all"
      = some (subscriptions ++ supportedEvents.map (fun e => e.2.2)) := by
    unfold es_main_token
    rw [if_neg (by decide), if_pos rfl]
  unfold es_main_events
  rw [h]
  simp only [es_main_tokens, h2]

/-- C24, the code at the failing input `-e +all`: the subscription list receives one entry per
supported event, 51 in all, and 12 of them are the placeholder `ES_EVENT_TYPE_LAST`: the second
components of the twelve events without an auth form (the first of them is `access`, so the
list starts with the placeholder). The sibling token `all` appends no placeholder, and `help`
marks with `[+]` only the 39 events whose second component is not the placeholder. -/
theorem plus_all_subscribes_placeholder :
    es_main_events [] "+all" = some (supportedEvents.map (fun e => e.2.2)) ∧
      (es_main_events [] "+all").map List.length = some 51 ∧
      (es_main_events [] "+all").map (fun l => (l.filter es_event_type_t.isLast).length)
        = some 12 ∧
      (es_main_events [] "+all").map (fun l => l.head?.map es_event_type_t.isLast)
        = some (some true) ∧
      (supportedEvents.filter (fun e => e.2.2.isLast)).map Prod.fst
        = ["access", "close", "dup", "exit", "fork", "kextunload", "lookup", "pty_close",
            "pty_grant", "stat", "unmount", "write"] ∧
      (es_main_events [] "all").map (fun l => (l.filter es_event_type_t.isLast).length)
        = some 0 ∧
      (supportedEvents.filter
        (fun e => e.2.2.ordinal ≠ es_event_type_t.ES_EVENT_TYPE_LAST.ordinal)).length = 39 := by
  refine ⟨es_main_events_plus_all [], by decide, by decide, by decide, by decide, by decide,
    by decide⟩

/-! ## C25: `getBitmask` over a table of single-bit keys -/

theorem and_two_pow_ne_zero_iff (v j : Nat) : v &&& 2 ^ j ≠ 0 ↔ v.testBit j = true := by
  constructor
  · exact testBit_of_and_two_pow_ne_zero v j
  · intro hb h
    have := congrArg (fun x => x.testBit j) h
    simp [Nat.testBit_and, Nat.testBit_two_pow, hb] at this

theorem xor_two_pow_and_two_pow (v j i : Nat) (h : j ≠ i) :
    ((v ^^^ 2 ^ j) &&& 2 ^ i ≠ 0) ↔ (v &&& 2 ^ i ≠ 0) := by
  rw [and_two_pow_ne_zero_iff, and_two_pow_ne_zero_iff, Nat.testBit_xor, Nat.testBit_two_pow]
  simp [h]

theorem orKeys_cons (k : Nat) (n : String) (rest : List (Nat × String)) :
    orKeys ((k, n) :: rest) = k ||| orKeys rest := rfl

/-- With distinct single-bit keys the loop selects an entry exactly when the original value has
the bit of its key. -/
theorem getBitmaskSelected_eq_filter (t : List (Nat × String))
    (hpow : ∀ e ∈ t, ∃ j : Nat, e.1 = 2 ^ j) (hok : mapOk natLt t) :
    ∀ v : Nat, getBitmaskSelected t v = t.filter (fun e => decide (v &&& e.1 ≠ 0)) := by
  induction t with
  | nil => intro v; rfl
  | cons hd rest ih =>
    obtain ⟨k, n⟩ := hd
    intro v
    have hok2 : mapOk natLt rest := by
      unfold mapOk at hok ⊢
      exact (List.pairwise_cons.mp hok).2
    have hlt : ∀ e ∈ rest, k < e.1 := by
      intro e he
      unfold mapOk at hok
      have := (List.pairwise_cons.mp hok).1 e.1 (List.mem_map_of_mem Prod.fst he)
      simpa [natLt] using this
    have ih2 := ih (fun e he => hpow e (List.mem_cons_of_mem _ he)) hok2
    obtain ⟨j, hj⟩ := hpow (k, n) (List.mem_cons_self _ _)
    simp only at hj
    subst hj
    by_cases h : v &&& 2 ^ j ≠ 0
    · simp only [getBitmaskSelected, if_pos h, List.filter_cons, decide_eq_true h, if_true]
      rw [ih2 (v ^^^ 2 ^ j)]
      congr 1
      apply List.filter_congr
      intro e he
      obtain ⟨i, hi⟩ := hpow e (List.mem_cons_of_mem _ he)
      have hne : j ≠ i := by
        intro hji
        have := hlt e he
        rw [hi, hji] at this
        exact lt_irrefl _ this
      rw [hi]
      exact decide_eq_decide.mpr (xor_two_pow_and_two_pow v j i hne)
    · simp only [getBitmaskSelected, if_neg h, List.filter_cons, decide_eq_false h]
      exact ih2 v

/-- With single-bit keys the value left by the loop is the original value without the bits of
the table keys. -/
theorem getBitmaskResidual_testBit (t : List (Nat × String))
    (hpow : ∀ e ∈ t, ∃ j : Nat, e.1 = 2 ^ j) :
    ∀ v i : Nat, (getBitmaskResidual t v).testBit i = (v.testBit i && !(orKeys t).testBit i) := by
  induction t with
  | nil => intro v i; simp [getBitmaskResidual, getBitmaskLoop, orKeys]
  | cons hd rest ih =>
    obtain ⟨k, n⟩ := hd
    intro v i
    have ih2 := ih (fun e he => hpow e (List.mem_cons_of_mem _ he))
    obtain ⟨j, hj⟩ := hpow (k, n) (List.mem_cons_self _ _)
    simp only at hj
    subst hj
    rw [getBitmaskResidual_cons, orKeys_cons, Nat.testBit_or, Nat.testBit_two_pow]
    by_cases h : v &&& 2 ^ j ≠ 0
    · have hb := (and_two_pow_ne_zero_iff v j).mp h
      rw [if_pos h, ih2, Nat.testBit_xor, Nat.testBit_two_pow]
      by_cases e : j = i
      · subst e; simp [hb]
      · simp [e]
    · have hb : v.testBit j = false := by
        cases hv : v.testBit j with
        | false => rfl
        | true => exact absurd ((and_two_pow_ne_zero_iff v j).mpr hv) h
      rw [if_neg h, ih2]
      by_cases e : j = i
      · subst e; simp [hb]
      · simp [e]

theorem orKeys_filter_testBit (t : List (Nat × String)) (p : Nat × String → Bool) (i : Nat) :
    (orKeys (t.filter p)).testBit i = true → (orKeys t).testBit i = true := by
  induction t with
  | nil => intro h; exact h
  | cons hd rest ih =>
    obtain ⟨k, n⟩ := hd
    intro h
    rw [orKeys_cons, Nat.testBit_or]
    by_cases hp : p (k, n) = true
    · rw [List.filter_cons_of_pos hp, orKeys_cons, Nat.testBit_or, Bool.or_eq_true] at h
      rcases h with h | h
      · simp [h]
      · simp [ih h]
    · rw [List.filter_cons_of_neg hp] at h
      simp [ih h]

theorem mapOk_natLt_filter_keys (t : List (Nat × String)) (p : Nat × String → Bool)
    (hok : mapOk natLt t) : ((t.filter p).map Prod.fst).Pairwise (fun a b => a < b) := by
  unfold mapOk at hok
  have h1 : (t.map Prod.fst).Pairwise (fun a b => a < b) :=
    hok.imp (fun h => by simpa [natLt] using h)
  exact h1.sublist ((List.filter_sublist t).map Prod.fst)

/-- C25: for a table whose keys are single bits (as a `std::map`, in strictly ascending key
order) and every value `v`: the entries whose names `getBitmask` appends are exactly the table
entries whose key shares a bit with `v`, each once, in ascending key order; the residual is `v`
without the bits of the table keys (`v & ~OR(keys)`, bit by bit, and as the 32-bit expression);
hence consumed | residual = v and consumed & residual = 0, where consumed is the OR of the keys
of the entries listed. -/
theorem getBitmask_single_bit_table (table : List (Nat × String)) (v : Nat)
    (hpow : ∀ e ∈ table, ∃ j : Nat, e.1 = 2 ^ j) (hok : mapOk natLt table) :
    getBitmaskSelected table v = table.filter (fun e => decide (v &&& e.1 ≠ 0)) ∧
    (getBitmaskLoop table v "").2 =
      ((table.filter (fun e => decide (v &&& e.1 ≠ 0))).map Prod.snd).foldl
        (fun r n => (if r ≠ "" then r ++ "|" else r) ++ n) "" ∧
    ((∀ e ∈ table, e.2 ≠ "") →
      getBitmask table v =
        "|".intercalate ((table.filter (fun e => decide (v &&& e.1 ≠ 0))).map Prod.snd)
          ++ (if getBitmaskResidual table v ≠ 0 then
                " [" ++ to_string_u (getBitmaskResidual table v) ++ "?] ("
              else " (")
          ++ to_string_u v ++ ")") ∧
    ((table.filter (fun e => decide (v &&& e.1 ≠ 0))).map Prod.fst).Pairwise (fun a b => a < b) ∧
    (∀ i : Nat,
      (getBitmaskResidual table v).testBit i = (v.testBit i && !(orKeys table).testBit i)) ∧
    (v < 4294967296 → orKeys table < 4294967296 →
      getBitmaskResidual table v = v &&& (4294967295 - orKeys table)) ∧
    orKeys (table.filter (fun e => decide (v &&& e.1 ≠ 0))) ||| getBitmaskResidual table v = v ∧
    orKeys (table.filter (fun e => decide (v &&& e.1 ≠ 0))) &&& getBitmaskResidual table v = 0 := by
  have hsel := getBitmaskSelected_eq_filter table hpow hok v
  have hres := getBitmaskResidual_testBit table hpow v
  refine ⟨hsel, ?_, ?_, mapOk_natLt_filter_keys table _ hok, hres, ?_, ?_, ?_⟩
  · rw [getBitmaskLoop_eq, hsel]
  · intro hne
    rw [getBitmask_eq_names table v hne, hsel]
  · intro hv hk
    apply Nat.eq_of_testBit_eq
    intro i
    have e : 4294967295 - orKeys table = 2 ^ 32 - (orKeys table + 1) := by omega
    rw [hres, Nat.testBit_and, e, Nat.testBit_two_pow_sub_succ (by omega)]
    by_cases hi : i < 32
    · simp [hi]
    · have hvi : v.testBit i = false := by
        apply Nat.testBit_lt_two_pow
        calc v < 2 ^ 32 := by omega
          _ ≤ 2 ^ i := Nat.pow_le_pow_right (by decide) (by omega)
      simp [hvi]
  · rw [← hsel]
    exact getBitmask_or table hpow v
  · apply Nat.eq_of_testBit_eq
    intro i
    rw [Nat.testBit_and, hres, Nat.zero_testBit]
    cases hc : (orKeys (table.filter (fun e => decide (v &&& e.1 ≠ 0)))).testBit i with
    | false => simp
    | true => simp [orKeys_filter_testBit table _ i hc]

/-- C25, witness: the table of FREAD, FWRITE, O_CREAT and the value 518 (FWRITE, O_CREAT and
the unnamed bit 4). -/
theorem getBitmask_single_bit_table_witness :
    getBitmaskSelected exFlagTable 518 = [(2, "FWRITE"), (512, "O_CREAT")] ∧
      getBitmaskResidual exFlagTable 518 = 4 ∧
      getBitmask exFlagTable 518 = "FWRITE|O_CREAT [4?] (518)" := by
  have hok : mapOk natLt exFlagTable := by
    unfold mapOk
    decide
  have h := getBitmask_single_bit_table exFlagTable 518 exFlagTable_single_bits hok
  refine ⟨h.1.trans (by decide), ?_, by decide⟩
  exact (h.2.2.2.2.2.1 (by decide) (by decide)).trans (by decide)

/-! ## C26: the argument rendering is injective -/

theorem escapeQuotes_cons (c : Char) (cs : List Char) :
    escapeQuotes (c :: cs) =
      if c = dquote then backslash :: dquote :: escapeQuotes cs else c :: escapeQuotes cs := rfl

/-- An escaped argument never starts with a double quote. -/
theorem escapeQuotes_append_eq_dquote_cons (a X Y : List Char)
    (h : escapeQuotes a ++ X = dquote :: Y) : a = [] ∧ X = dquote :: Y := by
  cases a with
  | nil => exact ⟨rfl, h⟩
  | cons c cs =>
    rw [escapeQuotes_cons] at h
    by_cases hc : c = dquote
    · rw [if_pos hc] at h
      simp only [List.cons_append, List.cons.injEq] at h
      exact absurd h.1 (by decide)
    · rw [if_neg hc] at h
      simp only [List.cons_append, List.cons.injEq] at h
      exact absurd h.1 hc

/-- What follows a closing quote is never an escaped argument, a closing quote and what follows
that one: a quote taken for the end of an argument cannot also be read as part of it. -/
theorem renderedTail_ne_escaped (n : Nat) : ∀ (r1 r2 : List (List Char)) (a : List Char),
    r1.length + r2.length ≤ n →
    renderedTail r2 ≠ escapeQuotes a ++ dquote :: renderedTail r1 := by
  induction n with
  | zero =>
    intro r1 r2 a hn h
    cases r2 with
    | nil => simp [renderedTail] at h
    | cons y r2 => simp at hn
  | succ n ih =>
    intro r1 r2 a hn h
    cases r2 with
    | nil => simp [renderedTail] at h
    | cons y r2 =>
      simp only [renderedTail] at h
      cases a with
      | nil =>
        simp only [escapeQuotes, List.nil_append, List.cons.injEq] at h
        exact absurd h.1 (by decide)
      | cons c a =>
        rw [escapeQuotes_cons] at h
        by_cases hc : c = dquote
        · rw [if_pos hc] at h
          simp only [List.cons_append, List.cons.injEq] at h
          exact absurd h.1 (by decide)
        · rw [if_neg hc] at h
          simp only [List.cons_append, List.cons.injEq] at h
          obtain ⟨ha, h3⟩ := escapeQuotes_append_eq_dquote_cons a _ _ h.2.symm
          simp only [List.cons.injEq, true_and] at h3
          have hlen : r2.length + r1.length ≤ n := by
            simp only [List.length_cons] at hn
            omega
          exact ih r2 r1 y hlen h3

/-- Two escaped arguments, each followed by its closing quote and by what follows it, agree only
when the arguments agree and what follows agrees. -/
theorem escaped_closed_inj : ∀ (a b : List Char) (r1 r2 : List (List Char)),
    escapeQuotes a ++ dquote :: renderedTail r1 = escapeQuotes b ++ dquote :: renderedTail r2 →
    a = b ∧ renderedTail r1 = renderedTail r2 := by
  intro a
  induction a with
  | nil =>
    intro b r1 r2 h
    rw [show escapeQuotes ([] : List Char) = [] from rfl, List.nil_append] at h
    obtain ⟨hb, h2⟩ := escapeQuotes_append_eq_dquote_cons b _ _ h.symm
    simp only [List.cons.injEq, true_and] at h2
    exact ⟨hb.symm, h2.symm⟩
  | cons c a ih =>
    intro b r1 r2 h
    cases b with
    | nil =>
      rw [show escapeQuotes ([] : List Char) = [] from rfl, List.nil_append] at h
      exact absurd (escapeQuotes_append_eq_dquote_cons (c :: a) _ _ h).1 (by simp)
    | cons d b =>
      rw [escapeQuotes_cons, escapeQuotes_cons] at h
      by_cases hc : c = dquote
      · by_cases hd : d = dquote
        · rw [if_pos hc, if_pos hd] at h
          simp only [List.cons_append, List.cons.injEq, true_and] at h
          obtain ⟨e1, e2⟩ := ih b r1 r2 h
          exact ⟨by rw [hc, hd, e1], e2⟩
        · rw [if_pos hc, if_neg hd] at h
          simp only [List.cons_append, List.cons.injEq] at h
          obtain ⟨_, h3⟩ := escapeQuotes_append_eq_dquote_cons b _ _ h.2.symm
          simp only [List.cons.injEq, true_and] at h3
          exact absurd h3 (renderedTail_ne_escaped _ r1 r2 a (le_refl _))
      · by_cases hd : d = dquote
        · rw [if_neg hc, if_pos hd] at h
          simp only [List.cons_append, List.cons.injEq] at h
          obtain ⟨_, h3⟩ := escapeQuotes_append_eq_dquote_cons a _ _ h.2
          simp only [List.cons.injEq, true_and] at h3
          exact absurd h3 (renderedTail_ne_escaped _ r2 r1 b (le_refl _))
        · rw [if_neg hc, if_neg hd] at h
          simp only [List.cons_append, List.cons.injEq] at h
          obtain ⟨e1, e2⟩ := ih b r1 r2 h.2
          exact ⟨by rw [h.1, e1], e2⟩

theorem renderedTail_inj : ∀ r1 r2 : List (List Char),
    renderedTail r1 = renderedTail r2 → r1 = r2 := by
  intro r1
  induction r1 with
  | nil =>
    intro r2 h
    cases r2 with
    | nil => rfl
    | cons b r2 => simp [renderedTail] at h
  | cons a r1 ih =>
    intro r2 h
    cases r2 with
    | nil => simp [renderedTail] at h
    | cons b r2 =>
      simp only [renderedTail, List.cons.injEq, true_and] at h
      obtain ⟨e1, e2⟩ := escaped_closed_inj a b r1 r2 h
      rw [e1, ih r2 e2]

theorem quotedArg_data (a : String) :
    (quotedArg a).data = dquote :: (escapeQuotes a.data ++ [dquote]) := by
  simp only [quotedArg, escapedArg, ← escapeQuotes_eq, String.data_append, String.singleton]
  rfl

theorem intercalate_go_data (l : List String) : ∀ acc : String,
    (String.intercalate.go acc " " (l.map quotedArg)).data
      = acc.data ++ renderedTail (l.map String.data) := by
  induction l with
  | nil => intro acc; simp [String.intercalate.go, renderedTail]
  | cons a l ih =>
    intro acc
    simp only [List.map_cons, String.intercalate.go, ih, String.data_append, quotedArg_data,
      renderedTail, List.append_assoc]
    simp

theorem renderedArgs_data (a : String) (r : List String) :
    (renderedArgs (a :: r)).data
      = dquote :: (escapeQuotes a.data ++ dquote :: renderedTail (r.map String.data)) := by
  simp only [renderedArgs, List.map_cons, String.intercalate, intercalate_go_data, quotedArg_data]
  simp

/-- The rendering of an argument list determines the list. -/
theorem renderedArgs_inj (xs ys : List String) (h : renderedArgs xs = renderedArgs ys) :
    xs = ys := by
  have hd := congrArg String.data h
  cases xs with
  | nil =>
    cases ys with
    | nil => rfl
    | cons b r2 =>
      rw [renderedArgs_data] at hd
      exact absurd hd (by simp [renderedArgs, String.intercalate])
  | cons a r1 =>
    cases ys with
    | nil =>
      rw [renderedArgs_data] at hd
      exact absurd hd (by simp [renderedArgs, String.intercalate])
    | cons b r2 =>
      rw [renderedArgs_data, renderedArgs_data] at hd
      simp only [List.cons.injEq, true_and] at hd
      obtain ⟨e1, e2⟩ := escaped_closed_inj _ _ _ _ hd
      have e3 := renderedTail_inj _ _ e2
      have e4 : r1 = r2 :=
        List.map_injective_iff.mpr (fun x y hxy => String.ext hxy) e3
      rw [String.ext e1, e4]

/-- The `target_args` parameter `on_exec` leaves: the rendering of the argument strings. -/
theorem on_exec_target_args (env : Env) (s : EndpointSecurityImpl) (ev : es_event_exec_t) :
    mapFind (on_exec env s ev).1.event.parameters "target_args"
      = some (renderedArgs (ev.args.map getEsStringToken)) := by
  unfold on_exec
  rw [on_exec_track_find _ _ (by decide) (by decide)]
  unfold on_exec_decode
  apply execArgsLoop_args_zero
  simp only [setFilename, setParam, mapFind_mapAssign, if_true]

/-- C26: the exec argument rendering is injective. For any two exec events, in whatever state and
environment they are decoded, if the `target_args` parameters `on_exec` produces are equal,
then the two lists of argument strings (the strings `getEsStringToken` reads from the argument
tokens, of any length and with arbitrary characters) are equal; and arguments given as strings
are determined by their rendering. -/
theorem exec_args_rendering_injective (env1 env2 : Env) (s1 s2 : EndpointSecurityImpl)
    (ev1 ev2 : es_event_exec_t)
    (h : mapFind (on_exec env1 s1 ev1).1.event.parameters "target_args"
      = mapFind (on_exec env2 s2 ev2).1.event.parameters "target_args") :
    ev1.args.map getEsStringToken = ev2.args.map getEsStringToken ∧
    (∀ xs ys : List String, renderedArgs xs = renderedArgs ys → xs = ys) := by
  rw [on_exec_target_args, on_exec_target_args] at h
  exact ⟨renderedArgs_inj _ _ (Option.some.inj h), renderedArgs_inj⟩

/-- C26, witness: two exec events with different targets and different argument tokens that
render the same `target_args` carry the same argument strings. -/
theorem exec_args_rendering_injective_witness :
    mapFind (on_exec exEnv exState exExecArgs).1.event.parameters "target_args"
        = mapFind (on_exec exEnv exFilterState exExecArgsPadded).1.event.parameters "target_args" ∧
      exExecArgs.args.map getEsStringToken = exExecArgsPadded.args.map getEsStringToken :=
  ⟨by decide, (exec_args_rendering_injective exEnv exEnv exState exFilterState exExecArgs
    exExecArgsPadded (by decide)).1⟩

/-! ## C27: with a filter configured, no exit record reaches the sink -/

theorem on_event_suppressed_effects (env : Env) (s : EndpointSecurityImpl) (m : es_message_t)
    (hs : suppressed env m) :
    (on_event env s m).effects = [Effect.es_mute_process m.process.audit_token] := by
  by_cases h1 : audit_token_to_pid m.process.audit_token = env.getpid
  · rw [on_event_self env s m h1]
  · rcases hs with hs | hs
    · exact absurd hs h1
    · rw [on_event_deny env s m h1 hs]

theorem allowResponse_isReport (m : es_message_t) : (allowResponse m).isReport = false := by
  unfold allowResponse
  split <;> rfl

/-- The handler adds no report to the effects of `on_event`. -/
theorem handler_reports (env : Env) (s : EndpointSecurityImpl) (m : es_message_t) :
    (handler env s m).effects.filter Effect.isReport
      = (on_event env s m).effects.filter Effect.isReport := by
  cases he : (on_event env s m).error with
  | some e => rw [handler_of_error env s m e he]
  | none =>
    cases ha : m.action_type with
    | ES_ACTION_TYPE_NOTIFY => rw [handler_of_notify env s m ha]
    | ES_ACTION_TYPE_AUTH =>
      rw [handler_of_auth env s m ha he, List.filter_append]
      simp [allowResponse_isReport]

/-- An exit message is never reported when a filter is configured. -/
theorem on_event_exit_effects (env : Env) (s : EndpointSecurityImpl) (m : es_message_t)
    (hf : s.monitoredProcessPath ≠ "") (hok : mapOk pidLt s.monitoredProcesses)
    (ht : m.event_type.isExit = true) :
    (on_event env s m).effects.filter Effect.isReport = [] := by
  by_cases hs : suppressed env m
  · rw [on_event_suppressed_effects env s m hs]
    rfl
  · obtain ⟨hi, he, hef⟩ := on_event_pass_fields env s m hs
    rw [dispatch_of_isExit _ _ _ _ _ ht] at hi he
    have hspec := on_exit_spec (filled env s m) (audit_token_to_pid m.process.audit_token)
      m.event.exit.stat
    rw [hef]
    by_cases hst : _WSTATUS m.event.exit.stat = 127
    · have : (on_event env s m).error ≠ none := by
        rw [he, (hspec.2.2 hst).1]
        simp
      rw [if_neg (fun h => this h.1)]
      rfl
    · have hpath : (on_event env s m).impl.monitoredProcessPath ≠ "" := by
        rw [hi, hspec.1]
        exact hf
      have hfind : mapFind (on_event env s m).impl.monitoredProcesses
          (audit_token_to_pid m.process.audit_token) = none := by
        rw [hi, (hspec.2.1 hst).2]
        exact mapFind_mapErase_self _ _ hok
      rw [if_neg]
      · rfl
      · rintro ⟨_, h | h⟩
        · exact hpath h
        · rw [hfind] at h
          cases h

set_option maxHeartbeats 1000000 in
theorem decoderName_ne_exit (t : es_event_type_t) (h : t.isExit = false) :
    t.decoderName ≠ "exit" := by
  cases t <;> first | exact absurd h (by decide) | decide | exact (by decide : ("" : String) ≠ "exit")

/-- With a filter configured, no record a handler step reports has the kind "exit". -/
theorem handler_reports_no_exit (env : Env) (s : EndpointSecurityImpl) (m : es_message_t)
    (hf : s.monitoredProcessPath ≠ "") (hok : mapOk pidLt s.monitoredProcesses) :
    ∀ ev : Event, Effect.reportfunc ev ∈ (handler env s m).effects → ev.event ≠ "exit" := by
  intro ev hmem
  have hmem2 : Effect.reportfunc ev ∈ (handler env s m).effects.filter Effect.isReport :=
    List.mem_filter.mpr ⟨hmem, rfl⟩
  rw [handler_reports] at hmem2
  cases ht : m.event_type.isExit with
  | true =>
    rw [on_event_exit_effects env s m hf hok ht] at hmem2
    cases hmem2
  | false =>
    have hmem3 := (List.mem_filter.mp hmem2).1
    by_cases hs : suppressed env m
    · rw [on_event_suppressed_effects env s m hs] at hmem3
      simp at hmem3
    · obtain ⟨hi, he, hef⟩ := on_event_pass_fields env s m hs
      rw [hef] at hmem3
      split at hmem3
      · rename_i hcond
        simp only [List.mem_singleton, Effect.reportfunc.injEq] at hmem3
        have hh : m.event_type.handledBySwitch = true := by
          cases hb : m.event_type.handledBySwitch with
          | true => rfl
          | false =>
            have := dispatch_unhandled env (filled env s m)
              (audit_token_to_pid m.process.audit_token) m.event_type m.event hb
            rw [he, this] at hcond
            exact absurd hcond.1 (by simp)
        rw [hmem3, hi, dispatch_kind _ _ _ _ _ hh]
        split
        · decide
        · exact decoderName_ne_exit _ ht
      · cases hmem3

/-- With a filter configured, no record reported in a run has the kind "exit". -/
theorem run_reports_no_exit (env : Env) (msgs : List es_message_t) :
    ∀ s : EndpointSecurityImpl, s.monitoredProcessPath ≠ "" → mapOk pidLt s.monitoredProcesses →
      ∀ ev : Event, Effect.reportfunc ev ∈ (run env s msgs).effects → ev.event ≠ "exit" := by
  induction msgs with
  | nil =>
    intro s _ _ ev hmem
    simp [run] at hmem
  | cons m rest ih =>
    intro s hf hok ev hmem
    simp only [run] at hmem
    split at hmem
    · exact handler_reports_no_exit env s m hf hok ev hmem
    · simp only [List.mem_append] at hmem
      rcases hmem with hmem | hmem
      · exact handler_reports_no_exit env s m hf hok ev hmem
      · refine ih (handler env s m).impl ?_ (handler_preserves_mapOk env s m hok) ev hmem
        rw [handler_path]
        exact hf

/-- C27: when a filter path is configured, no exit Record is handed to the reporting callback,
for any tracked set (a `std::map`, keys strictly ascending) and any exit event: the handler
step of an exit message makes no report call, a status that decodes leaves the reporting pid
out of the tracked set when the gate tests it, and no record reported anywhere in a run has the
kind "exit". -/
theorem exit_record_never_reported (env : Env) (s : EndpointSecurityImpl)
    (hf : s.monitoredProcessPath ≠ "") (hok : mapOk pidLt s.monitoredProcesses) :
    (∀ m : es_message_t, m.event_type.isExit = true →
      (handler env s m).effects.filter Effect.isReport = [] ∧
      (∀ e ∈ (on_event env s m).effects, e.isReport = false) ∧
      (¬ suppressed env m → (on_event env s m).error = none →
        mapFind (on_event env s m).impl.monitoredProcesses
          (audit_token_to_pid m.process.audit_token) = none)) ∧
    (∀ (msgs : List es_message_t) (ev : Event),
      Effect.reportfunc ev ∈ (run env s msgs).effects → ev.event ≠ "exit") := by
  refine ⟨?_, fun msgs ev h => run_reports_no_exit env msgs s hf hok ev h⟩
  intro m ht
  have h0 := on_event_exit_effects env s m hf hok ht
  refine ⟨?_, ?_, ?_⟩
  · rw [handler_reports, h0]
  · intro e he
    cases hr : e.isReport with
    | false => rfl
    | true =>
      have : e ∈ (on_event env s m).effects.filter Effect.isReport :=
        List.mem_filter.mpr ⟨he, hr⟩
      rw [h0] at this
      cases this
  · intro hs herr
    obtain ⟨hi, he, _⟩ := on_event_pass_fields env s m hs
    rw [dispatch_of_isExit _ _ _ _ _ ht] at hi he
    have hspec := on_exit_spec (filled env s m) (audit_token_to_pid m.process.audit_token)
      m.event.exit.stat
    by_cases hst : _WSTATUS m.event.exit.stat = 127
    · rw [he, (hspec.2.2 hst).1] at herr
      cases herr
    · rw [hi, (hspec.2.1 hst).2]
      exact mapFind_mapErase_self _ _ hok

/-- C27, witness: the filter `/opt/app` with pid 100 tracked; the exit of pid 100 is decoded
and removes the pid, and nothing is reported. -/
theorem exit_record_never_reported_witness :
    exTrackedState.monitoredProcessPath ≠ "" ∧ mapOk pidLt exTrackedState.monitoredProcesses ∧
      (handler exEnv exTrackedState exExit).effects.filter Effect.isReport = [] ∧
      (on_event exEnv exTrackedState exExit).error = none ∧
      (on_event exEnv exTrackedState exExit).impl.monitoredProcesses = [] := by
  have hok : mapOk pidLt exTrackedState.monitoredProcesses := by
    unfold mapOk
    decide
  exact ⟨by decide, hok,
    ((exit_record_never_reported exEnv exTrackedState (by decide) hok).1 exExit rfl).1,
    by decide, by decide⟩

/-! ## C28: the wait status of an exit event -/

/-- The `stat_desc` parameter `on_exit` records for a status it accepts. -/
theorem on_exit_stat_desc (s : EndpointSecurityImpl) (pid stat : Int)
    (hst : _WSTATUS stat ≠ 127) :
    mapFind (on_exit s pid stat).1.event.parameters "stat_desc" =
      some (if _WSTATUS stat = 0 then
          "normal exit with code " ++ to_string_u ((toUInt32 stat >>> 8) &&& 255)
        else "killed by signal " ++ to_string_u (toUInt32 stat &&& 127)
          ++ (if toUInt32 stat &&& 128 ≠ 0 then " (coredump created)" else "")) := by
  rw [(on_exit_event s pid stat).2]
  by_cases h0 : _WSTATUS stat = 0
  · have e1 : WIFEXITED stat = true := by simp [WIFEXITED, h0]
    rw [if_pos e1, if_pos h0]
    simp only [setParam, mapFind_mapAssign_self, WEXITSTATUS]
  · have e1 : ¬ (WIFEXITED stat = true) := by simp [WIFEXITED, h0]
    have e2 : WIFSIGNALED stat = true := by simp [WIFSIGNALED, h0, hst]
    rw [if_neg e1, if_pos e2, if_neg h0]
    simp only [setParam, mapFind_mapAssign_self, WTERMSIG, WCOREDUMP, _WSTATUS]
    simp

/-- C28: for an exit event whose wait status has its low seven bits equal to 0x7f, `on_exit`
fails with "Invalid exit" and leaves the tracked set as it was; the message, when it passes the
suppression filter, ends with that error, reports nothing and is not answered, and a tracked
reporting pid stays tracked. For every other status the decoder succeeds and `stat_desc` is
"normal exit with code N" with N = (stat >> 8) & 0xff when the low seven bits are zero, and
"killed by signal S" with S = stat & 0x7f otherwise, followed by " (coredump created)" exactly
when bit 0x80 is set. -/
theorem on_exit_status_cases (env : Env) (s : EndpointSecurityImpl) (pid stat : Int) :
    (_WSTATUS stat = 127 →
      (on_exit s pid stat).2 = some "Invalid exit" ∧
      (on_exit s pid stat).1.monitoredProcesses = s.monitoredProcesses ∧
      mapFind (on_exit s pid stat).1.monitoredProcesses pid = mapFind s.monitoredProcesses pid ∧
      (∀ m : es_message_t, ¬ suppressed env m → m.event_type.isExit = true →
        m.event.exit.stat = stat →
        (on_event env s m).error = some "Invalid exit" ∧
        (on_event env s m).effects = [] ∧
        (handler env s m).effects = [] ∧
        (on_event env s m).impl.monitoredProcesses = s.monitoredProcesses)) ∧
    (_WSTATUS stat ≠ 127 →
      (on_exit s pid stat).2 = none ∧
      mapFind (on_exit s pid stat).1.event.parameters "stat_desc" =
        some (if _WSTATUS stat = 0 then
            "normal exit with code " ++ to_string_u ((toUInt32 stat >>> 8) &&& 255)
          else "killed by signal " ++ to_string_u (toUInt32 stat &&& 127)
            ++ (if toUInt32 stat &&& 128 ≠ 0 then " (coredump created)" else ""))) ∧
    _WSTATUS stat = toUInt32 stat &&& 127 := by
  refine ⟨?_, ?_, rfl⟩
  · intro hst
    have hspec := (on_exit_spec s pid stat).2.2 hst
    refine ⟨hspec.1, hspec.2, by rw [hspec.2], ?_⟩
    intro m hs ht hm
    obtain ⟨hi, he, hef⟩ := on_event_pass_fields env s m hs
    rw [dispatch_of_isExit _ _ _ _ _ ht, hm] at hi he
    have hspec2 := (on_exit_spec (filled env s m) (audit_token_to_pid m.process.audit_token)
      stat).2.2 hst
    have herr : (on_event env s m).error = some "Invalid exit" := by rw [he, hspec2.1]
    have heff : (on_event env s m).effects = [] := by
      rw [hef, if_neg]
      rw [herr]
      simp
    refine ⟨herr, heff, ?_, ?_⟩
    · rw [handler_of_error env s m _ herr, heff]
    · rw [hi, hspec2.2]
      rfl
  · intro hst
    exact ⟨((on_exit_spec s pid stat).2.1 hst).1, on_exit_stat_desc s pid stat hst⟩

/-- C28, witness: the stopped encoding 0x7f keeps pid 100 tracked; status 256 is a normal exit
with code 1, status 139 (signal 11 with the core-dump bit) is a kill with a core dump. -/
theorem on_exit_status_cases_witness :
    (on_exit exTrackedState 100 127).2 = some "Invalid exit" ∧
      (on_exit exTrackedState 100 127).1.monitoredProcesses = [(100, 1)] ∧
      mapFind (on_exit exTrackedState 100 256).1.event.parameters "stat_desc"
        = some "normal exit with code 1" ∧
      mapFind (on_exit exTrackedState 100 139).1.event.parameters "stat_desc"
        = some "killed by signal 11 (coredump created)" := by
  have h1 := (on_exit_status_cases exEnv exTrackedState 100 127).1 (by decide)
  have h2 := (on_exit_status_cases exEnv exTrackedState 100 256).2.1 (by decide)
  have h3 := (on_exit_status_cases exEnv exTrackedState 100 139).2.1 (by decide)
  exact ⟨h1.1, h1.2.1, h2.2.trans (by decide), h3.2.trans (by decide)⟩

/-! ## C29: a create of an existing file decodes like an open with flags 0x602 -/

theorem on_create_existing (env : Env) (s : EndpointSecurityImpl) (ev : es_event_create_t)
    (hd : ev.destination_type = ES_DESTINATION_TYPE_EXISTING_FILE) :
    on_create env s ev = (on_open env s ev.destination.existing_file 1538, none) := by
  unfold on_create
  simp only [if_pos hd]
  have e : (((512 ||| 2 ||| 1024 : Nat) : Int)) = 1538 := by decide
  rw [e]
  simp only [on_open, setKind, setParam, touchParam, readParam, setFilename]

/-- C29: a create event whose destination is an existing file and an open event on that file
with the flag word 0x602 = 1538 (O_CREAT | O_TRUNC | O_WRONLY), in the same message envelope
(time, reporting process, thread, action type), are handled alike from every state: the same
Record, the same outcome and the same calls. The Record has the kind "open", the subject path of
the file, and exactly the parameters `fflag` and `filename`. -/
theorem create_existing_file_decodes_as_open (env : Env) (s : EndpointSecurityImpl)
    (m m' : es_message_t) (hs : ¬ suppressed env m)
    (hc : m.event_type.isCreate = true)
    (hd : m.event.create.destination_type = ES_DESTINATION_TYPE_EXISTING_FILE)
    (ho : m'.event_type.isOpen = true)
    (hfile : m'.event.open_.file = m.event.create.destination.existing_file)
    (hflag : m'.event.open_.fflag = 1538)
    (htime : m'.time = m.time) (hproc : m'.process = m.process)
    (hthread : m'.thread_id = m.thread_id) (haction : m'.action_type = m.action_type) :
    (on_event env s m).impl.event = (on_event env s m').impl.event ∧
    on_event env s m = on_event env s m' ∧
    (on_event env s m).error = none ∧
    (on_event env s m).impl.event.event = "open" ∧
    (on_event env s m).impl.event.filename = getEsFile m.event.create.destination.existing_file ∧
    (on_event env s m).impl.event.parameters =
      [("fflag", getBitmask env.value_map_open 1538),
       ("filename", getEsFile m.event.create.destination.existing_file)] := by
  have hs' : ¬ suppressed env m' := by
    unfold suppressed at hs ⊢
    rw [hproc]
    exact hs
  have hfil : filled env s m' = filled env s m := by
    unfold filled fillEvent
    rw [htime, hproc, hthread, haction]
  have hd1 := dispatch_of_isCreate env (filled env s m) (audit_token_to_pid m.process.audit_token)
    m.event_type m.event hc
  rw [on_create_existing env _ _ hd] at hd1
  have hd2 := dispatch_of_isOpen env (filled env s m) (audit_token_to_pid m.process.audit_token)
    m'.event_type m'.event ho
  rw [hfile, hflag] at hd2
  have heq : on_event env s m = on_event env s m' := by
    rw [on_event_pass env s m hs, on_event_pass env s m' hs', hproc, hfil, hd1, hd2]
  obtain ⟨hi, he, _⟩ := on_event_pass_fields env s m hs
  have hev := on_open_event env (filled env s m) m.event.create.destination.existing_file 1538
    (filled_parameters env s m)
  rw [hd1] at hi he
  simp only [] at hi he
  refine ⟨by rw [heq], heq, he, ?_, ?_, ?_⟩
  · rw [hi, hev]
  · rw [hi, hev]
  · rw [hi, hev]
    rfl

/-- C29, witness: the create of the existing file `/tmp/x` and the open of `/tmp/x` with flags
0x602, both reported by pid 50. -/
theorem create_existing_file_decodes_as_open_witness :
    (on_event exEnvOpen exState exCreateExisting).impl.event
        = (on_event exEnvOpen exState exOpenForCreate).impl.event ∧
      (on_event exEnvOpen exState exCreateExisting).impl.event.parameters
        = [("fflag", "FWRITE|O_CREAT [1024?] (1538)"), ("filename", "/tmp/x")] := by
  have h := create_existing_file_decodes_as_open exEnvOpen exState exCreateExisting
    exOpenForCreate (by decide) rfl rfl rfl rfl rfl rfl rfl rfl rfl
  exact ⟨h.1, h.2.2.2.2.2.trans (by decide)⟩

/-! ## C30: the record of a link event -/

set_option maxHeartbeats 1000000 in
theorem dispatch_of_isLink (env : Env) (s : EndpointSecurityImpl) (pid : Int)
    (t : es_event_type_t) (e : es_events_t) (h : t.isLink = true) :
    dispatch env s pid t e
      = (on_link s e.link.source e.link.target_dir e.link.target_filename, none) := by
  cases t <;> first | exact absurd h (by decide) | rfl | simp [es_event_type_t.isLink] at h

/-- The event `on_link` leaves when it starts from cleared parameters. -/
theorem on_link_event (s : EndpointSecurityImpl) (source target_dir : Option es_file_t)
    (target_filename : es_string_token_t) (hp : s.event.parameters = []) :
    (on_link s source target_dir target_filename).event =
      { s.event with
        event := "link"
        filename := ""
        parameters := [("identifier", ""), ("source", getEsFile source),
                       ("target_dir", getEsFile target_dir),
                       ("target_filename", getEsStringToken target_filename)] } := by
  have a1 : ("source" : String) ≠ "target_dir" := by decide
  have a2 : strLt "target_dir" "source" = false := by decide
  have a3 : ("source" : String) ≠ "target_filename" := by decide
  have a4 : strLt "target_filename" "source" = false := by decide
  have a5 : ("target_dir" : String) ≠ "target_filename" := by decide
  have a6 : strLt "target_filename" "target_dir" = false := by decide
  have a7 : ("source" : String) ≠ "identifier" := by decide
  have a8 : ("target_dir" : String) ≠ "identifier" := by decide
  have a9 : ("target_filename" : String) ≠ "identifier" := by decide
  have a10 : strLt "identifier" "source" = true := by decide
  simp only [on_link, setKind, setParam, touchParam, readParam, setFilename, hp, mapAssign,
    mapTouch, mapFind, mapAt, if_neg a1, a2, if_neg a3, a4, if_neg a5, a6, if_neg a7, if_neg a8,
    if_neg a9, a10, if_true, Option.getD, Bool.false_eq_true, if_false]
  rfl

/-- C30: every link event (auth or notify form) that passes the suppression filter decodes
without failure to a Record of kind "link" whose subject path is the empty string, read from
the parameter `identifier`, which the link decoder never sets and the read inserts; the
parameters are exactly `identifier` (empty), `source`, `target_dir` and `target_filename`.
Whenever the Record is reported, the callback binds the sentinel `<missing>` as its subject
path. -/
theorem link_record_has_no_subject_path (env : Env) (s : EndpointSecurityImpl)
    (m : es_message_t) (hs : ¬ suppressed env m) (ht : m.event_type.isLink = true) :
    (on_event env s m).error = none ∧
    (on_event env s m).impl.event.event = "link" ∧
    (on_event env s m).impl.event.filename = "" ∧
    (on_event env s m).impl.event.parameters =
      [("identifier", ""), ("source", getEsFile m.event.link.source),
       ("target_dir", getEsFile m.event.link.target_dir),
       ("target_filename", getEsStringToken m.event.link.target_filename)] ∧
    mapFind (on_event env s m).impl.event.parameters "identifier" = some "" ∧
    boundText (event_callback (on_event env s m).impl.event).calls 5 = some "<missing>" ∧
    (∀ ev : Event, Effect.reportfunc ev ∈ (handler env s m).effects →
      ev = (on_event env s m).impl.event ∧
      boundText (event_callback ev).calls 5 = some "<missing>") ∧
    (s.monitoredProcessPath = "" →
      (on_event env s m).effects = [Effect.reportfunc (on_event env s m).impl.event]) := by
  obtain ⟨hi, he, hef⟩ := on_event_pass_fields env s m hs
  have hd := dispatch_of_isLink env (filled env s m) (audit_token_to_pid m.process.audit_token)
    m.event_type m.event ht
  have hev := on_link_event (filled env s m) m.event.link.source m.event.link.target_dir
    m.event.link.target_filename (filled_parameters env s m)
  have hpath := dispatch_path env (filled env s m) (audit_token_to_pid m.process.audit_token)
    m.event_type m.event
  rw [← hi] at hpath
  rw [hd] at hi he
  simp only [] at hi he
  have hfn : (on_event env s m).impl.event.filename = "" := by rw [hi, hev]
  have hb : boundText (event_callback (on_event env s m).impl.event).calls 5
      = some "<missing>" := by
    simp [boundText, event_callback, List.findSome?, hfn]
  refine ⟨he, by rw [hi, hev], hfn, by rw [hi, hev], ?_, hb, ?_, ?_⟩
  · rw [hi, hev]
    simp [mapFind]
  · intro ev hmem
    have hmem2 : Effect.reportfunc ev ∈ (handler env s m).effects.filter Effect.isReport :=
      List.mem_filter.mpr ⟨hmem, rfl⟩
    rw [handler_reports, hef] at hmem2
    have hmem3 := (List.mem_filter.mp hmem2).1
    split at hmem3
    · simp only [List.mem_singleton, Effect.reportfunc.injEq] at hmem3
      rw [hmem3]
      exact ⟨rfl, hb⟩
    · cases hmem3
  · intro hf
    rw [hef, if_pos]
    refine ⟨he, Or.inl ?_⟩
    rw [hpath]
    exact hf

/-- C30, witness: the notify link of `/tmp/a` as `/tmp/d/b`, reported by pid 50. -/
theorem link_record_has_no_subject_path_witness :
    (on_event exEnv exState exLink).impl.event.filename = "" ∧
      (on_event exEnv exState exLink).impl.event.parameters =
        [("identifier", ""), ("source", "/tmp/a"), ("target_dir", "/tmp/d"),
         ("target_filename", "b")] ∧
      (handler exEnv exState exLink).effects.map
          (fun e => match e with
            | Effect.reportfunc ev => boundText (event_callback ev).calls 5
            | _ => none)
        = [some "<missing>"] := by
  have h := link_record_has_no_subject_path exEnv exState exLink (by decide) rfl
  exact ⟨h.2.2.1, h.2.2.2.1.trans (by decide), by decide⟩

end MaxProcMon
